import Mathlib

/-!
# ant-go: frame codec, USB reassembly and channel multiplexer

A shallow embedding of `src/ant.go`.  Bytes (`byte`) and machine integers
(`int`, `uint32`) are natural numbers or integers; a conversion that truncates
in Go is written with an explicit `%`.  Go slices are lists.
-/

namespace Ant

/-! ## Constants (`const ( ... )` of ant.go) -/

def MessageRF : Nat := 0x01
def MessageTXSync : Nat := 0xA4
def DefaultNetworkNumber : Nat := 0x00

def MessageChannelUnassign : Nat := 0x41
def MessageChannelAssign : Nat := 0x42
def MessageChannelID : Nat := 0x51
def MessageChannelPeriod : Nat := 0x43
def MessageChannelSearchTimeout : Nat := 0x44
def MessageChannelFrequency : Nat := 0x45
def MessageNetworkKey : Nat := 0x46
def MessageEnableRXExt : Nat := 0x66
def MessageLibConfig : Nat := 0x6E
def MessageChannelOpenRXScan : Nat := 0x5B
def MessageStartup : Nat := 0x6F
def MessageSystemReset : Nat := 0x4A
def MessageChannelOpen : Nat := 0x4B
def MessageChannelClose : Nat := 0x4C
def MessageChannelRequest : Nat := 0x4D
def MessageChannelBroadcastData : Nat := 0x4E
def MessageChannelAcknowledgedData : Nat := 0x4F
def MessageChannelBurstData : Nat := 0x50
def MessageChannelEvent : Nat := 0x40
def MessageCapabilities : Nat := 0x54

def ChannelTypeTwoWayReceive : Nat := 0x00
def ChannelTypeTwoWayTransmit : Nat := 0x10
def ChannelTypeSharedReceive : Nat := 0x20
def ChannelTypeSharedTransmit : Nat := 0x30
def ChannelTypeOneWayReceive : Nat := 0x40
def ChannelTypeOneWayTransmit : Nat := 0x50

def EventRXFailed : Nat := 0x02
def EventTransferTXCompleted : Nat := 0x05
def EventTransferTXFailed : Nat := 0x06
def EventChannelClosed : Nat := 0x07
def EventRXFailGoToSearch : Nat := 0x08
def TransferInProgress : Nat := 0x1F
def InvalidScanTXChannel : Nat := 0x31

def BufferIndexMessageLength : Nat := 1
def BufferIndexMessageType : Nat := 2
def BufferIndexChannelNumber : Nat := 3
def BufferIndexMessageData : Nat := 4
def BufferIndexExtMessageBegin : Nat := 12

/-! ## Frame codec -/

/-- The Go conversion `byte(x)` of a non-negative integer: its low eight bits. -/
def byte (x : Nat) : Nat := x % 256

/-- Source `getChecksum`: starting from 0, every byte is XOR-ed into the running
value, which is then reduced `% 0xFF`. -/
def getChecksum (message : List Nat) : Nat :=
  message.foldl (fun checksum b => (checksum ^^^ b) % 0xFF) 0

/-- Source `buildMessage`: SYNC, `byte(len(payload))`, the message id, the
payload bytes, and `byte(getChecksum(m))` of everything before it. -/
def buildMessage (payload : List Nat) (msgID : Nat) : List Nat :=
  let m := [MessageTXSync, byte payload.length, msgID] ++ payload
  m ++ [byte (getChecksum m)]

/-- The bitwise XOR of all bytes of a sequence (the checksum of the ANT wire
format, as the specification words it). -/
def xorAll (m : List Nat) : Nat := m.foldl (fun acc b => acc ^^^ b) 0

/-- A sequence of bytes with bit `k` of the byte at index `i` inverted. -/
def flipBit (m : List Nat) (i k : Nat) : List Nat :=
  m.set i (m.getD i 0 ^^^ 2 ^ k)

/-! ## Message builders -/

/-- Source `intToLEHexArray`: the low `numBytes` bytes of the 32-bit value
`num`, least significant first; `none` is the panic for `numBytes` outside
`[1,4]`. -/
def intToLEHexArray (num : Nat) (numBytes : Nat) : Option (List Nat) :=
  if numBytes = 0 ∨ numBytes > 4 then none
  else
    let bs := [num % 256, num / 256 % 256, num / 65536 % 256, num / 16777216 % 256]
    some (bs.take numBytes)

/-- Source `resetSystem`. -/
def resetSystem : List Nat := buildMessage [0x00] MessageSystemReset

/-- Source `requestMessage`. -/
def requestMessage (channel : Nat) (messageID : Nat) : Option (List Nat) := do
  let payload ← intToLEHexArray channel 1
  pure (buildMessage (payload ++ [messageID]) MessageChannelRequest)

/-- Source `setNetworkKey`: network number 0 followed by the eight key bytes. -/
def setNetworkKey : List Nat :=
  buildMessage [DefaultNetworkNumber, 0xB9, 0xA5, 0x21, 0xFB, 0xBD, 0x72, 0xC3, 0x45]
    MessageNetworkKey

/-- Source `setDevice`. -/
def setDevice (channel deviceID deviceType transmissionType : Nat) : Option (List Nat) := do
  let b1 ← intToLEHexArray channel 1
  let b2 ← intToLEHexArray deviceID 2
  let b3 ← intToLEHexArray deviceType 1
  let b4 ← intToLEHexArray transmissionType 1
  pure (buildMessage (b1 ++ b2 ++ b3 ++ b4) MessageChannelID)

/-- Source `searchChannel`. -/
def searchChannel (channel timeout : Nat) : Option (List Nat) := do
  let b1 ← intToLEHexArray channel 1
  let b2 ← intToLEHexArray timeout 1
  pure (buildMessage (b1 ++ b2) MessageChannelSearchTimeout)

/-- Source `setPeriod`. -/
def setPeriod (channel period : Nat) : Option (List Nat) := do
  let b1 ← intToLEHexArray channel 1
  let b2 ← intToLEHexArray period 1
  pure (buildMessage (b1 ++ b2) MessageChannelPeriod)

/-- Source `setFrequency`. -/
def setFrequency (channel frequency : Nat) : Option (List Nat) := do
  let b1 ← intToLEHexArray channel 1
  let b2 ← intToLEHexArray frequency 1
  pure (buildMessage (b1 ++ b2) MessageChannelFrequency)

/-- Source `setRxExt`. -/
def setRxExt : Option (List Nat) := do
  let b1 ← intToLEHexArray 0 1
  let b2 ← intToLEHexArray 1 1
  pure (buildMessage (b1 ++ b2) MessageEnableRXExt)

/-- Source `libConfig`. -/
def libConfig (channel how : Nat) : Option (List Nat) := do
  let b1 ← intToLEHexArray channel 1
  let b2 ← intToLEHexArray how 1
  pure (buildMessage (b1 ++ b2) MessageLibConfig)

/-- Source `openRXScan`. -/
def openRXScan : Option (List Nat) := do
  let b1 ← intToLEHexArray 0 1
  let b2 ← intToLEHexArray 1 1
  pure (buildMessage (b1 ++ b2) MessageChannelOpenRXScan)

/-- Source `assignChannel`: `none` is the panic of the `default` case. -/
def assignChannel (channel : Nat) (channelType : String) : Option (List Nat) := do
  let bs ← intToLEHexArray channel 1
  let t ←
    if channelType = "receive" then some ChannelTypeTwoWayReceive
    else if channelType = "receive_only" then some ChannelTypeOneWayReceive
    else if channelType = "receive_shared" then some ChannelTypeSharedReceive
    else if channelType = "transmit" then some ChannelTypeTwoWayTransmit
    else if channelType = "transmit_only" then some ChannelTypeOneWayTransmit
    else if channelType = "transmit_shared" then some ChannelTypeSharedTransmit
    else none
  pure (buildMessage (bs ++ [t] ++ [DefaultNetworkNumber]) MessageChannelAssign)

/-- Source `unassignChannel`. -/
def unassignChannel (channel : Nat) : Option (List Nat) := do
  let payload ← intToLEHexArray channel 1
  pure (buildMessage payload MessageChannelUnassign)

/-- Source `openChannel`. -/
def openChannel (channel : Nat) : Option (List Nat) := do
  let payload ← intToLEHexArray channel 1
  pure (buildMessage payload MessageChannelOpen)

/-- Source `closeChannel`. -/
def closeChannel (channel : Nat) : Option (List Nat) := do
  let payload ← intToLEHexArray channel 1
  pure (buildMessage payload MessageChannelClose)

/-! ## Driver: channel allocation -/

/-- The fields of `USBDriver` that `read`, `attach`, `detach` and `isScanning`
use.  A `*BaseSensor` is the index of the sensor in the sensor store, a
function value (`func()`) is named by a number.  (`leftOver` belongs to the
reader state below; the USB handles are not modelled.) -/
structure USBDriver where
  usedChannels : Int
  attachedSensors : List Nat
  startupCallbacks : List Nat
  MaxChannels : Int
  CanScan : Bool
deriving DecidableEq, Repr

/-- Source `USBDriver.attach`: the updated driver and the returned boolean. -/
def USBDriver.attach (drv : USBDriver) (sensor : Nat) (forScan : Bool) : USBDriver × Bool :=
  if drv.usedChannels < 0 then (drv, false)
  else if forScan then
    if drv.usedChannels ≠ 0 then (drv, false)
    else
      ({ drv with usedChannels := -1, attachedSensors := drv.attachedSensors ++ [sensor] }, true)
  else
    if drv.MaxChannels ≤ drv.usedChannels then (drv, false)
    else
      ({ drv with usedChannels := drv.usedChannels + 1,
                  attachedSensors := drv.attachedSensors ++ [sensor] }, true)

/-- Source loop `for i, s := range drv.attachedSensors { if s == sensor { idx = i } }`
of `USBDriver.detach`, run on the remaining sensors from index `i` with the
current value of `idx`. -/
def USBDriver.detachIdx : List Nat → Nat → Nat → Int → Int
  | [], _, _, idx => idx
  | s :: rest, sensor, i, idx =>
    USBDriver.detachIdx rest sensor (i + 1) (if s = sensor then (i : Int) else idx)

/-- Source `USBDriver.detach`: the updated driver and the returned boolean. -/
def USBDriver.detach (drv : USBDriver) (sensor : Nat) : USBDriver × Bool :=
  let idx := USBDriver.detachIdx drv.attachedSensors sensor 0 (-1)
  if idx < 0 then (drv, false)
  else
    let usedChannels := if drv.usedChannels < 0 then 0 else drv.usedChannels - 1
    let a := drv.attachedSensors
    let last := a.length - 1
    let swapped := (a.set idx.toNat (a.getD last 0)).set last (a.getD idx.toNat 0)
    ({ drv with usedChannels := usedChannels, attachedSensors := swapped.take last }, true)

/-- Source `USBDriver.isScanning`. -/
def USBDriver.isScanning (drv : USBDriver) : Bool := drv.usedChannels == -1

/-- Successive calls `drv.attach(sensor, false)`, one per listed sensor: the
final driver and the returned booleans in call order. -/
def USBDriver.attachMany (drv : USBDriver) : List Nat → USBDriver × List Bool
  | [] => (drv, [])
  | sensor :: rest =>
    let r := drv.attach sensor false
    let rs := USBDriver.attachMany r.1 rest
    (rs.1, r.2 :: rs.2)

/-! ## Sensors and inbound dispatch -/

/-- What the code does to the outside world, in order: `drv.write(data)`, a call
of a startup callback, of the completion callback of a queued message, or of
a sensor's `decodeDataCallback`, and the line `log.Println("Unhandled event: ", data)`. -/
inductive Event where
  | write (data : List Nat)
  | startupCallback (cb : Nat)
  | sendCallback (cb : Nat) (success : Bool)
  | decodeData (cb : Nat) (data : List Nat)
  | unhandled (data : List Nat)
deriving DecidableEq, Repr

/-- Source `Message`: the bytes and the completion callback (`none` is nil). -/
structure Message where
  msg : List Nat
  callback : Option Nat
deriving DecidableEq, Repr

/-- The two closures the source assigns to `statusCallback`, with the variables
they capture: `onStatus` of `BaseSensor.attach` and `onStatus` of
`BaseSensor.scan` (whose `channel` is the local constant 0). -/
inductive StatusCallback where
  | attach (channel deviceID deviceType timeout period frequency transmissionType : Nat)
  | scan (frequency : Nat)
deriving DecidableEq, Repr

/-- Source `BaseSensor`.  `channel` is the `*uint32` (`none` is nil);
`decodeDataCallback` is a function value named by a number (`none` is nil).
The `driver` field is the one driver of the model. -/
structure BaseSensor where
  channel : Option Nat
  deviceID : Nat
  transmissionType : Nat
  messageQueue : List Message
  decodeDataCallback : Option Nat
  statusCallback : Option StatusCallback
deriving DecidableEq, Repr

/-- Result of a status callback: the sensor afterwards, what was done to the
outside world, and the returned `handled`. -/
structure StatusResult where
  sensor : BaseSensor
  events : List Event
  handled : Bool
deriving DecidableEq, Repr

/-- The branch `case EventTransferTXCompleted, EventTransferTXFailed, EventRXFailed,
InvalidScanTXChannel` of both `onStatus` closures.  The guard
`len(sensor.messageQueue) < 0` never holds; `none` is the index-out-of-range
panic of `sensor.messageQueue[0]`. -/
def BaseSensor.transferEvent (s : BaseSensor) (code : Nat) : Option StatusResult :=
  match s.messageQueue with
  | [] => none
  | message :: rest =>
    let called :=
      match message.callback with
      | some cb => [Event.sendCallback cb (code == EventTransferTXCompleted)]
      | none => []
    if s.messageQueue.length = 1 then
      some { sensor := { s with messageQueue := [] }, events := called, handled := true }
    else do
      let next ← rest[0]?
      some { sensor := { s with messageQueue := rest },
             events := called ++ [Event.write next.msg], handled := true }

/-- A status callback that only writes one message and reports handled. -/
def BaseSensor.writeHandled (s : BaseSensor) (m : Option (List Nat)) : Option StatusResult := do
  let data ← m
  some { sensor := s, events := [Event.write data], handled := true }

/-- Source `onStatus` closures of `BaseSensor.attach` and `BaseSensor.scan`, run
on the sensor that owns them with the event `(msg, code)`. -/
def StatusCallback.call (cb : StatusCallback) (s : BaseSensor) (msg code : Nat) :
    Option StatusResult :=
  let unhandled : Option StatusResult := some { sensor := s, events := [], handled := false }
  let handled : Option StatusResult := some { sensor := s, events := [], handled := true }
  let unassigned : Option StatusResult :=
    some { sensor := { s with statusCallback := none, channel := none },
           events := [], handled := true }
  let acknowledged : Option StatusResult :=
    some { sensor := s, events := [], handled := code == TransferInProgress }
  match cb with
  | .attach channel deviceID deviceType timeout period frequency transmissionType =>
    if msg = MessageRF then
      if code = EventChannelClosed ∨ code = EventRXFailGoToSearch then
        s.writeHandled (unassignChannel channel)
      else if code = EventTransferTXCompleted ∨ code = EventTransferTXFailed ∨
          code = EventRXFailed ∨ code = InvalidScanTXChannel then
        s.transferEvent code
      else unhandled
    else if msg = MessageChannelAssign then
      s.writeHandled (setDevice channel deviceID deviceType transmissionType)
    else if msg = MessageChannelID then s.writeHandled (searchChannel channel timeout)
    else if msg = MessageChannelSearchTimeout then s.writeHandled (setFrequency channel frequency)
    else if msg = MessageChannelFrequency then s.writeHandled (setPeriod channel period)
    else if msg = MessageChannelPeriod then s.writeHandled (libConfig channel 0xE0)
    else if msg = MessageLibConfig then s.writeHandled (openChannel channel)
    else if msg = MessageChannelOpen then handled
    else if msg = MessageChannelClose then handled
    else if msg = MessageChannelUnassign then unassigned
    else if msg = MessageChannelAcknowledgedData then acknowledged
    else unhandled
  | .scan frequency =>
    if msg = MessageRF then
      if code = EventChannelClosed ∨ code = EventRXFailGoToSearch then
        s.writeHandled (unassignChannel 0)
      else if code = EventTransferTXCompleted ∨ code = EventTransferTXFailed ∨
          code = EventRXFailed ∨ code = InvalidScanTXChannel then
        s.transferEvent code
      else unhandled
    else if msg = MessageChannelAssign then s.writeHandled (setDevice 0 0 0 0)
    else if msg = MessageChannelID then s.writeHandled (setFrequency 0 frequency)
    else if msg = MessageChannelFrequency then s.writeHandled setRxExt
    else if msg = MessageEnableRXExt then s.writeHandled (libConfig 0 0xE0)
    else if msg = MessageLibConfig then s.writeHandled openRXScan
    else if msg = MessageChannelOpenRXScan then handled
    else if msg = MessageChannelClose then handled
    else if msg = MessageChannelUnassign then unassigned
    else if msg = MessageChannelAcknowledgedData then acknowledged
    else unhandled

/-- Source `BaseSensor.handleEventMessages`: the sensor afterwards and what was
done to the outside world; `none` is a panic (index out of range, nil
`sensor.channel`, or a panic in the status callback).  The channel byte of the
frame is compared with `byte(*sensor.channel)`. -/
def BaseSensor.handleEventMessages (s : BaseSensor) (data : List Nat) :
    Option (BaseSensor × List Event) := do
  let messageID ← data[BufferIndexMessageType]?
  let channel ← data[BufferIndexChannelNumber]?
  let own ← s.channel
  if channel = byte own then
    if messageID = MessageChannelEvent then do
      let msg ← data[BufferIndexMessageData]?
      let code ← data[BufferIndexMessageData + 1]?
      match s.statusCallback with
      | none => some (s, [Event.unhandled data])
      | some cb => do
        let r ← cb.call s msg code
        if r.handled then some (r.sensor, r.events)
        else some (r.sensor, r.events ++ [Event.unhandled data])
    else
      match s.decodeDataCallback with
      | some f => some (s, [Event.decodeData f data])
      | none => some (s, [])
  else some (s, [])

/-- The driver, the store of sensors (a `*BaseSensor` is an index into it) and
the record, in order, of what has been done to the outside world. -/
structure World where
  drv : USBDriver
  sensors : List BaseSensor
  trace : List Event
deriving DecidableEq, Repr

/-- Source `USBDriver.write` (and `BaseSensor.write`, which forwards to it): the
bytes handed to the bulk-out endpoint are recorded. -/
def World.write (w : World) (data : List Nat) : World :=
  { w with trace := w.trace ++ [Event.write data] }

/-- Source `sensor.handleEventMessages(data)` for the sensor behind pointer `p`. -/
def World.handleEventMessages (w : World) (p : Nat) (data : List Nat) : Option World := do
  let s ← w.sensors[p]?
  let (s1, events) ← s.handleEventMessages data
  some { w with sensors := w.sensors.set p s1, trace := w.trace ++ events }

/-- Source loop `for _, sensor := range drv.attachedSensors { sensor.handleEventMessages(data) }`. -/
def World.fanOut (w : World) (data : List Nat) : List Nat → Option World
  | [] => some w
  | p :: rest => do
    let w1 ← w.handleEventMessages p data
    World.fanOut w1 data rest

/-- Source `USBDriver.read`: `none` is a panic. -/
def USBDriver.read (w : World) (data : List Nat) : Option World := do
  let messageID ← data[2]?
  if messageID = MessageStartup then do
    let request ← requestMessage 0 MessageCapabilities
    some (w.write request)
  else if messageID = MessageCapabilities then do
    let maxChannels ← data[3]?
    let flags ← data[7]?
    let drv1 := { w.drv with MaxChannels := Int.ofNat maxChannels,
                             CanScan := (flags &&& 0x06) == 0x06 }
    let w1 := { w with drv := drv1 }
    some (w1.write setNetworkKey)
  else
    let networkKeySet : Option Bool :=
      if messageID = MessageChannelEvent then do
        let msg ← data[4]?
        some (msg == MessageNetworkKey)
      else some false
    match networkKeySet with
    | none => none
    | some true =>
      some { w with trace := w.trace ++ w.drv.startupCallbacks.map Event.startupCallback }
    | some false => World.fanOut w data w.drv.attachedSensors

/-- Source `BaseSensor.attach` for the sensor behind pointer `p`: the world
afterwards and whether the returned error is nil; `none` is a panic. -/
def World.attach (w : World) (p : Nat)
    (channel deviceID deviceType timeout period frequency transmissionType : Nat)
    (channelType : String) : Option (World × Bool) := do
  let sensor ← w.sensors[p]?
  if sensor.channel ≠ none then some (w, false)
  else
    let r := w.drv.attach p false
    if r.2 = false then some ({ w with drv := r.1 }, false)
    else do
      let onStatus := StatusCallback.attach channel deviceID deviceType timeout period
        frequency transmissionType
      let sensor1 := { sensor with channel := some channel, deviceID := deviceID,
                                   transmissionType := transmissionType,
                                   statusCallback := some onStatus }
      let w1 := { w with drv := r.1, sensors := w.sensors.set p sensor1 }
      let m ← assignChannel channel channelType
      some (w1.write m, true)

/-- Source `BaseSensor.scan` for the sensor behind pointer `p`: the world
afterwards and whether the returned error is nil; `none` is a panic.  The
closure's `channel` is the local variable set to 0. -/
def World.scan (w : World) (p : Nat) (channelType : String) (frequency : Nat) :
    Option (World × Bool) := do
  let sensor ← w.sensors[p]?
  if sensor.channel ≠ none then some (w, false)
  else if w.drv.CanScan = false then some (w, false)
  else
    let sensor1 := { sensor with channel := some 0, deviceID := 0, transmissionType := 0,
                                 statusCallback := some (StatusCallback.scan frequency) }
    if w.drv.isScanning = true then some ({ w with sensors := w.sensors.set p sensor1 }, true)
    else
      let r := w.drv.attach p true
      if r.2 = true then do
        let w1 := { w with drv := r.1, sensors := w.sensors.set p sensor1 }
        let m ← assignChannel 0 channelType
        some (w1.write m, true)
      else some ({ w with drv := r.1 }, false)

/-- Source `AntPlusBaseSensor.attach`: it forwards its arguments, in the order it
received them and followed by the constant 57, to `BaseSensor.attach`, and
drops the returned error. -/
def AntPlusBaseSensor.attach (w : World) (p : Nat)
    (channel deviceID deviceType transmissionType timeout period : Nat)
    (channelType : String) : Option World := do
  let r ← w.attach p channel deviceID deviceType transmissionType timeout period 57 channelType
  some r.1

/-- Source `BaseSensor.send`: the sensor afterwards and what was written. -/
def BaseSensor.send (s : BaseSensor) (msg : Message) : BaseSensor × List Event :=
  let s1 := { s with messageQueue := s.messageQueue ++ [msg] }
  if s1.messageQueue.length = 1 then (s1, [Event.write msg.msg]) else (s1, [])

/-- Frames handed to `handleEventMessages` of one sensor, one after the other:
the sensor afterwards and everything done to the outside world, in order. -/
def BaseSensor.feed (s : BaseSensor) : List (List Nat) → Option (BaseSensor × List Event)
  | [] => some (s, [])
  | data :: rest => do
    let (s1, e1) ← s.handleEventMessages data
    let (s2, e2) ← BaseSensor.feed s1 rest
    some (s2, e1 ++ e2)

/-- The ChannelEvent frame the stick sends for `channel` with payload
`(channel, msg, code)`: `A4 03 40 channel msg code checksum`. -/
def channelEvent (channel msg code : Nat) : List Nat :=
  buildMessage [channel, msg, code] MessageChannelEvent

/-- A call on the send queue of a sensor: `send(msg)`, or an RF event with the
given code handed to the status callback. -/
inductive QueueCall where
  | send (msg : Message)
  | event (code : Nat)
deriving DecidableEq, Repr

/-- Calls on the send queue of a sensor whose status callback is `cb`, one after
the other: the sensor afterwards and everything done to the outside world;
`none` is a panic. -/
def BaseSensor.queueCalls (cb : StatusCallback) (s : BaseSensor) :
    List QueueCall → Option (BaseSensor × List Event)
  | [] => some (s, [])
  | .send msg :: rest => do
    let r := s.send msg
    let (s2, e2) ← BaseSensor.queueCalls cb r.1 rest
    some (s2, r.2 ++ e2)
  | .event code :: rest => do
    let r ← cb.call s MessageRF code
    let (s2, e2) ← BaseSensor.queueCalls cb r.sensor rest
    some (s2, r.events ++ e2)

/-- The messages written, in order, among recorded events. -/
def writes : List Event → List (List Nat)
  | [] => []
  | .write data :: rest => data :: writes rest
  | _ :: rest => writes rest

/-- The messages handed to `send`, in call order. -/
def submitted : List QueueCall → List Message
  | [] => []
  | .send msg :: rest => msg :: submitted rest
  | .event _ :: rest => submitted rest

/-- The number of RF events among the calls. -/
def resolved : List QueueCall → Nat
  | [] => 0
  | .send _ :: rest => resolved rest
  | .event _ :: rest => resolved rest + 1

/-- Whether every RF event among the calls carries one of the codes
EventTransferTXCompleted, EventTransferTXFailed, EventRXFailed,
InvalidScanTXChannel and finds a non-empty queue, for a queue that holds
`n` messages before the calls. -/
def queueCallsOk : Nat → List QueueCall → Bool
  | _, [] => true
  | n, .send _ :: rest => queueCallsOk (n + 1) rest
  | n, .event code :: rest =>
    (code == 0x05 || code == 0x06 || code == 0x02 || code == 0x31) && decide (0 < n) &&
      queueCallsOk (n - 1) rest

/-! ## Reader loop of `USBDriver.Open`: reassembly across USB reads

A Go slice shares its backing array with the slice it was cut from.  The
loop stores `drv.leftOver = data[beginBlock:]`, a window onto the read buffer
`data` that reaches to its end, and the next `Read(data)` writes into the same
array.  `drv.leftOver` is therefore kept as the offset of that window, and its
bytes are read off the buffer when the loop uses them.  A call
`drv.read(readData)` runs `USBDriver.read` on the world; when it panics the
deferred `recover()` of the goroutine runs `drv.Close()` and the loop is over.
-/

/-- State of the reader goroutine: the local slice `data` (all `len(data)`
bytes) and `drv.leftOver`, which is either empty (`none`) or the slice
`data[b:]` (`some b`). -/
structure Reader where
  data : List Nat
  leftOver : Option Nat
deriving DecidableEq, Repr

/-- Reader state when the goroutine starts: `data = make([]byte, MaxPacketSize)`
and `drv.leftOver` empty. -/
def Reader.init (maxPacketSize : Nat) : Reader :=
  { data := List.replicate maxPacketSize 0, leftOver := none }

/-- Bytes currently seen through `drv.leftOver`. -/
def Reader.leftOverBytes (data : List Nat) (leftOver : Option Nat) : List Nat :=
  match leftOver with
  | none => []
  | some b => data.drop b

/-- Outcome of reader-loop iterations, with the arguments of the successive
`drv.read` calls: the world and the state for the next iteration (`ok`), the
`log.Fatalf("sync byte missing from stream")` exit (`fatal`), or the end of
the goroutine by a panic (`panicked`): the last call of `drv.read` did not
return, `recover()` ran `drv.Close()`, and no further block is dispatched. -/
inductive ReadResult where
  | fatal (frames : List (List Nat)) (w : World)
  | panicked (frames : List (List Nat))
  | ok (frames : List (List Nat)) (w : World) (next : Reader)
deriving DecidableEq, Repr

/-- Frames handed to `drv.read`. -/
def ReadResult.frames : ReadResult → List (List Nat)
  | .fatal fs _ => fs
  | .panicked fs => fs
  | .ok fs _ _ => fs

/-- Whether the outcome is the fatal exit. -/
def ReadResult.isFatal : ReadResult → Bool
  | .fatal _ _ => true
  | .panicked _ => false
  | .ok _ _ _ => false

/-- Whether the goroutine ended by a panic. -/
def ReadResult.isPanicked : ReadResult → Bool
  | .fatal _ _ => false
  | .panicked _ => true
  | .ok _ _ _ => false

/-- Value of `drv.leftOver` after the iterations (`none` when empty or after the
loop has ended). -/
def ReadResult.leftOver : ReadResult → Option Nat
  | .fatal _ _ => none
  | .panicked _ => none
  | .ok _ _ next => next.leftOver

/-- Source `numBytes, err := drv.inEpReader.Read(data)` followed by
`if len(drv.leftOver) > 0 { data = append(drv.leftOver, data...) }`:
the chunk is copied over `data[0:numBytes]`, then the bytes of `leftOver`
(as they are after that copy) are put in front of the whole buffer. -/
def Reader.accumulate (r : Reader) (chunk : List Nat) : List Nat :=
  let data := chunk ++ r.data.drop chunk.length
  let leftOver := Reader.leftOverBytes data r.leftOver
  if leftOver.length > 0 then leftOver ++ data else data

/-- Source loop `for beginBlock < l { ... }` in the world `w`: the blocks handed
to `drv.read`, one after the other, and either the world and the value
`drv.leftOver` has when the loop is left (empty unless a `break` stored
`data[beginBlock:]`), or `none` when the loop ended by a panic (of the last
`drv.read` call, or of the index `data[beginBlock + 1]`).  The first argument
bounds the number of iterations; the outer `none` is an exhausted bound. -/
def Reader.blocks :
    Nat → World → List Nat → Nat → Nat → Option (List (List Nat) × Option (World × Option Nat))
  | 0, _, _, _, _ => none
  | fuel + 1, w, data, l, beginBlock =>
    if beginBlock < l then
      if beginBlock + 1 = l then some ([], some (w, some beginBlock))
      else
        match data[beginBlock + 1]? with
        | none => some ([], none)
        | some blockLen =>
          let endBlock := beginBlock + blockLen + 4
          if endBlock > l then some ([], some (w, some beginBlock))
          else
            let readData := (data.drop beginBlock).take (endBlock - beginBlock)
            match USBDriver.read w readData with
            | none => some ([readData], none)
            | some w1 =>
              match Reader.blocks fuel w1 data l endBlock with
              | none => none
              | some (frames, out) => some (readData :: frames, out)
    else some ([], some (w, none))

/-- One iteration of the reader loop in the world `w` on the chunk returned by
`Read` (`numBytes = len(chunk)`): nothing happens for an empty read; otherwise
the buffer is accumulated, its first byte is checked against SYNC, and the
blocks among its first `numBytes` bytes are dispatched. -/
def Reader.step (r : Reader) (w : World) (chunk : List Nat) : Option ReadResult :=
  let numBytes := chunk.length
  if numBytes = 0 then some (.ok [] w r)
  else
    let data := r.accumulate chunk
    match data[0]? with
    | none => some (.panicked [])
    | some first =>
      if first ≠ MessageTXSync then some (.fatal [] w)
      else
        match Reader.blocks (numBytes + 1) w data numBytes 0 with
        | none => none
        | some (frames, none) => some (.panicked frames)
        | some (frames, some (w1, leftOver)) =>
          some (.ok frames w1 { data := data, leftOver := leftOver })

/-- Successive iterations of the reader loop, one per chunk, stopping at the
fatal exit or at a panic. -/
def Reader.run (r : Reader) (w : World) : List (List Nat) → Option ReadResult
  | [] => some (.ok [] w r)
  | chunk :: rest =>
    match r.step w chunk with
    | none => none
    | some (.fatal fs w1) => some (.fatal fs w1)
    | some (.panicked fs) => some (.panicked fs)
    | some (.ok fs w1 next) =>
      match next.run w1 rest with
      | none => none
      | some (.fatal gs w2) => some (.fatal (fs ++ gs) w2)
      | some (.panicked gs) => some (.panicked (fs ++ gs))
      | some (.ok gs w2 last) => some (.ok (fs ++ gs) w2 last)

/-- A well-formed frame `[0xA4, L, id, L payload bytes, checksum]`: it starts
with SYNC and its length is its second byte plus four. -/
def completeFrame (f : List Nat) : Prop :=
  f.head? = some MessageTXSync ∧ (f[1]?).map (fun L => L + 4) = some f.length

instance (f : List Nat) : Decidable (completeFrame f) := by
  unfold completeFrame
  infer_instance

/-- Calls of `drv.read` on the given frames, one after the other, until a call
panics: the frames handed over (the last one is the one whose call panicked,
if any) and, when every call returned, the world afterwards. -/
def USBDriver.readAll (w : World) : List (List Nat) → List (List Nat) × Option World
  | [] => ([], some w)
  | f :: rest =>
    match USBDriver.read w f with
    | none => ([f], none)
    | some w1 => (f :: (USBDriver.readAll w1 rest).1, (USBDriver.readAll w1 rest).2)

/-! ## Driver: detaching -/

/-- The backing array of `drv.attachedSensors` after `drv.detach(sensor)`, given
the array `arr` before the call (`drv.attachedSensors` is its first
`len(drv.attachedSensors)` entries): the swap of `detach` is done in place, and
the entry past the new end stays in the array. -/
def USBDriver.detachArray (drv : USBDriver) (arr : List Nat) (sensor : Nat) : List Nat :=
  let idx := USBDriver.detachIdx drv.attachedSensors sensor 0 (-1)
  if idx < 0 then arr
  else
    let a := drv.attachedSensors
    let last := a.length - 1
    (arr.set idx.toNat (a.getD last 0)).set last (a.getD idx.toNat 0)

/-- Source `BaseSensor.detach` for the sensor behind pointer `p`, with the
backing array of `drv.attachedSensors` before and after; `none` is a panic. -/
def World.detachIn (w : World) (arr : List Nat) (p : Nat) : Option (World × List Nat) := do
  let sensor ← w.sensors[p]?
  match sensor.channel with
  | none => some (w, arr)
  | some channel => do
    let m ← closeChannel channel
    let w1 := w.write m
    let r := w1.drv.detach p
    some ({ w1 with drv := r.1 }, w1.drv.detachArray arr p)

/-- Source `BaseSensor.detach` for the sensor behind pointer `p`. -/
def World.detach (w : World) (p : Nat) : Option World := do
  let r ← w.detachIn w.drv.attachedSensors p
  some r.1

/-- Source loop `for _, sensor := range drv.attachedSensors { sensor.detach() }`:
Go evaluates the range expression once, so the loop visits the indices
`i, i+1, ...` below the length the slice had at the start (`count` of them are
left) and reads each entry from the backing array `arr` as it is then. -/
def World.detachAllLoop : Nat → World → List Nat → Nat → Option World
  | 0, w, _, _ => some w
  | count + 1, w, arr, i => do
    let sensor ← arr[i]?
    let (w1, arr1) ← w.detachIn arr sensor
    World.detachAllLoop count w1 arr1 (i + 1)

/-- Source `USBDriver.detachAll`. -/
def World.detachAll (w : World) : Option World :=
  World.detachAllLoop w.drv.attachedSensors.length w w.drv.attachedSensors 0

/-- Source `USBDriver.reset`. -/
def World.reset (w : World) : Option World := do
  let w1 ← w.detachAll
  let w2 := { w1 with drv := { w1.drv with MaxChannels := 0, usedChannels := 0 } }
  some (w2.write resetSystem)

/-- A call of the driver's channel allocation: `attach(sensor, forScan)` or
`detach(sensor)`. -/
inductive DriverCall where
  | attach (sensor : Nat) (forScan : Bool)
  | detach (sensor : Nat)
deriving DecidableEq, Repr

/-- A list with the entry at `idx` replaced by the last entry and the last
entry dropped, as `USBDriver.detach` does with `attachedSensors`. -/
def swapRemove (l : List Bool) (idx : Nat) : List Bool :=
  let last := l.length - 1
  ((l.set idx (l.getD last false)).set last (l.getD idx false)).take last

/-- Driver calls one after the other.  Next to the driver a record is kept that
has, for every entry of `attachedSensors`, whether that entry was attached
with `forScan`: it grows with every attach that returns true and loses the
entry of the detached sensor with every detach that returns true. -/
def USBDriver.calls (drv : USBDriver) (modes : List Bool) :
    List DriverCall → USBDriver × List Bool
  | [] => (drv, modes)
  | .attach sensor forScan :: rest =>
    let r := drv.attach sensor forScan
    USBDriver.calls r.1 (if r.2 = true then modes ++ [forScan] else modes) rest
  | .detach sensor :: rest =>
    let r := drv.detach sensor
    let idx := USBDriver.detachIdx drv.attachedSensors sensor 0 (-1)
    USBDriver.calls r.1 (if r.2 = true then swapRemove modes idx.toNat else modes) rest

/-- The allocation invariant for a stick with `M` channels: `usedChannels` is -1
with exactly one attached entry, attached for scanning, or it is the number
of attached entries, at most `M`, none of them attached for scanning. -/
def USBDriver.allocated (M : Nat) (drv : USBDriver) (modes : List Bool) : Prop :=
  drv.MaxChannels = (M : Int) ∧ modes.length = drv.attachedSensors.length ∧
  ((drv.usedChannels = -1 ∧ modes = [true]) ∨
   (0 ≤ drv.usedChannels ∧ drv.usedChannels ≤ (M : Int) ∧
    drv.usedChannels = (drv.attachedSensors.length : Int) ∧ ∀ m ∈ modes, m = false))

/-! ## Profile decoders

The decoders read the frame `data` by index; `none` is the index-out-of-range
panic.  In the heart-rate, radar and stride decoders a slice expression
`data[a:b]` handed to `binary.LittleEndian` or `binary.BigEndian` is read as the
bytes `data[a] .. data[b-1]` of the frame, which is what the code reads on the
frames of 12 bytes and more that the theorems on these decoders are about.  The
speed decoder is followed statement by statement: an index expression is
bounded by the length of the frame, a slice expression by its capacity, and a
panic leaves the assignments made before it.
A `float32` field whose value is exact is kept as a scaled integer (the unit
is named at the field); one that is rounded is kept as the integer operands of
the expression that computes it. -/

def ToggleMask : Nat := 0x80

/-- Source `PageState` with its constants `InitPage`, `StdPage`, `ExtPage`. -/
inductive PageState where
  | InitPage
  | StdPage
  | ExtPage
deriving DecidableEq, Repr

/-- Source `Page`. -/
structure Page where
  oldPage : Nat
  pageState : PageState
deriving DecidableEq, Repr

/-- The page every sensor and every scanner entry starts from:
`&Page{oldPage: 1 << 8 - 1, pageState: InitPage}`. -/
def Page.init : Page := { oldPage := (1 <<< 8) - 1, pageState := .InitPage }

/-- Source `pageNumber & ^ToggleMask` on bytes. -/
def pageId (pageNumber : Nat) : Nat := pageNumber &&& (0xFF ^^^ ToggleMask)

/-- Source `binary.LittleEndian.Uint16` on the two bytes `b0 b1`. -/
def littleEndianUint16 (b0 b1 : Nat) : Nat := b0 ||| (b1 <<< 8)

/-- Source `binary.LittleEndian.Uint32` on the four bytes `b0 b1 b2 b3`. -/
def littleEndianUint32 (b0 b1 b2 b3 : Nat) : Nat :=
  b0 ||| (b1 <<< 8) ||| (b2 <<< 16) ||| (b3 <<< 24)

/-- Source `binary.BigEndian.Uint32` on the four bytes `b0 b1 b2 b3`. -/
def bigEndianUint32 (b0 b1 b2 b3 : Nat) : Nat :=
  b3 ||| (b2 <<< 8) ||| (b1 <<< 16) ||| (b0 <<< 24)

/-- The battery lines that the heart-rate, speed and radar decoders repeat word
for word: `BatteryVoltage = float32(batteryStatus & 0x0F) + batteryFrac / 256.0`
(exact, kept in 1/256 V), `batteryFlags := (batteryStatus & 0x70) >> 4`,
`batteryFlags ^= 0x80`, and the switch on `batteryFlags`.  Returns the new
`BatteryVoltage` and `BatteryStatus`. -/
def batterySwitch (batteryFrac batteryStatus : Nat) : Nat × String :=
  let voltage := (batteryStatus &&& 0x0F) * 256 + batteryFrac
  let batteryFlags := ((batteryStatus &&& 0x70) >>> 4) ^^^ 0x80
  if batteryFlags = 1 then (voltage, "New")
  else if batteryFlags = 2 then (voltage, "Good")
  else if batteryFlags = 3 then (voltage, "Ok")
  else if batteryFlags = 4 then (voltage, "Low")
  else if batteryFlags = 5 then (voltage, "Critical")
  else (0, "Invalid")

/-- Source `HeartRateSensorState`.  `BatteryVoltage` is in 1/256 V. -/
structure HeartRateSensorState where
  DeviceID : Nat
  BeatTime : Nat
  BeatCount : Nat
  ComputedHeartRate : Nat
  OperatingTime : Nat
  ManID : Nat
  SerialNumber : Nat
  HWVersion : Nat
  SWVersion : Nat
  ModelNumber : Nat
  PreviousBeat : Nat
  IntervalAverage : Nat
  IntervalMax : Nat
  SessionAverage : Nat
  SupportedFeatures : Nat
  EnabledFeatures : Nat
  BatteryLevel : Nat
  BatteryVoltage : Nat
  BatteryStatus : String
deriving DecidableEq, Repr

/-- The `switch pageNumber & ^ToggleMask` of `HeartRateSensorState.update`, on
the switched value `id`. -/
def HeartRateSensorState.page (s : HeartRateSensorState) (id : Nat) (data : List Nat) :
    Option HeartRateSensorState :=
  if id = 1 then do
    let d1 ← data[BufferIndexMessageData + 1]?
    let d2 ← data[BufferIndexMessageData + 2]?
    let d3 ← data[BufferIndexMessageData + 3]?
    some { s with OperatingTime := (d1 ||| (d2 <<< 8) ||| (d3 <<< 16)) * 2 }
  else if id = 2 then do
    let d1 ← data[BufferIndexMessageData + 1]?
    let d2 ← data[BufferIndexMessageData + 2]?
    let d3 ← data[BufferIndexMessageData + 3]?
    some { s with ManID := d1,
                  SerialNumber :=
                    (s.DeviceID ||| (littleEndianUint16 d2 d3 <<< 16)) ^^^ 0x80000000 }
  else if id = 3 then do
    let d1 ← data[BufferIndexMessageData + 1]?
    let d2 ← data[BufferIndexMessageData + 2]?
    let d3 ← data[BufferIndexMessageData + 3]?
    some { s with HWVersion := d1, SWVersion := d2, ModelNumber := d3 }
  else if id = 4 then do
    let d2 ← data[BufferIndexMessageData + 2]?
    let d3 ← data[BufferIndexMessageData + 3]?
    some { s with PreviousBeat := littleEndianUint16 d2 d3 }
  else if id = 5 then do
    let d1 ← data[BufferIndexMessageData + 1]?
    let d2 ← data[BufferIndexMessageData + 2]?
    let d3 ← data[BufferIndexMessageData + 3]?
    some { s with IntervalAverage := d1, IntervalMax := d2, SessionAverage := d3 }
  else if id = 6 then do
    let d2 ← data[BufferIndexMessageData + 2]?
    let d3 ← data[BufferIndexMessageData + 3]?
    some { s with SupportedFeatures := d2, EnabledFeatures := d3 }
  else if id = 7 then do
    let batteryLevel ← data[BufferIndexMessageData + 1]?
    let batteryFrac ← data[BufferIndexMessageData + 2]?
    let batteryStatus ← data[BufferIndexMessageData + 3]?
    let b := batterySwitch batteryFrac batteryStatus
    some { s with BatteryLevel := if batteryLevel ≠ 0xFF then batteryLevel else s.BatteryLevel,
                  BatteryVoltage := b.1, BatteryStatus := b.2 }
  else some s

/-- Source `HeartRateSensorState.update`: the state and the page afterwards. -/
def HeartRateSensorState.update (s : HeartRateSensorState) (page : Page) (data : List Nat) :
    Option (HeartRateSensorState × Page) := do
  let pageNumber ← data[BufferIndexMessageData]?
  let r ←
    if page.pageState = .InitPage then some (s, PageState.StdPage)
    else if pageNumber ≠ page.oldPage ∨ page.pageState = .ExtPage then do
      let s1 ← s.page (pageId pageNumber) data
      some (s1, PageState.ExtPage)
    else some (s, page.pageState)
  let hrOffset := BufferIndexMessageData + 4
  let b0 ← data[hrOffset]?
  let b1 ← data[hrOffset + 1]?
  let beatCount ← data[hrOffset + 2]?
  let computedHeartRate ← data[hrOffset + 3]?
  some ({ r.1 with BeatTime := littleEndianUint16 b0 b1, BeatCount := beatCount,
                   ComputedHeartRate := computedHeartRate },
        { oldPage := pageNumber, pageState := r.2 })

/-- Source `Target`.  `Range` is the integer `r` of `float32(r) * 3.125` and
`Speed` the integer `v` of `float32(v) * 3.04`. -/
structure Target where
  ThreatLevel : Nat
  ThreatSide : Nat
  Range : Nat
  Speed : Nat
deriving DecidableEq, Repr

/-- Source `BikeRadarSensorState`.  `Targets` is the array `[8]*Target` (`none`
is nil), `SWVersion` is in 1/1000 and `BatteryVoltage` in 1/256 V. -/
structure BikeRadarSensorState where
  DeviceID : Nat
  OperatingTime : Nat
  ManID : Nat
  SerialNumber : Nat
  HWVersion : Nat
  SWVersion : Nat
  ModelNumber : Nat
  BatteryLevel : Nat
  BatteryVoltage : Nat
  BatteryStatus : String
  DeviceStatus : String
  ErrorLevel : String
  ErrorDesc : String
  ErrorComponent : Nat
  ManufacturerError : Nat
  Targets : List (Option Target)
deriving DecidableEq, Repr

/-- One iteration, for the loop variable `i`, of the loop of `case 0x30, 0x31`
in `BikeRadarSensorState.update`, on the array `Targets`; `id` is
`pageNumber & ^ToggleMask`. -/
def radarTarget (id : Nat) (data : List Nat) (rangeData : Nat)
    (targets : List (Option Target)) (i : Nat) : Option (List (Option Target)) := do
  let d1 ← data[BufferIndexMessageData + 1]?
  let threatLevel := (d1 >>> (2 * i)) &&& 0x03
  if threatLevel = 0 then some (targets.set i none)
  else do
    let d2 ← data[BufferIndexMessageData + 2]?
    let threatSide := (d2 >>> (2 * i)) &&& 0x03
    let dv ← data[BufferIndexMessageData + 6 + i / 2]?
    let target : Target :=
      { ThreatLevel := threatLevel, ThreatSide := threatSide,
        Range := (rangeData >>> (6 * i)) &&& 0x3F,
        Speed := (dv >>> (4 * (i % 2))) &&& 0x0F }
    let index := if id = 0x31 then i + 4 else i
    some (targets.set index (some target))

/-- The loop `for i := 0; i < 4; i++` of `case 0x30, 0x31`. -/
def radarTargets (id : Nat) (data : List Nat) (rangeData : Nat)
    (targets : List (Option Target)) : Option (List (Option Target)) := do
  let t0 ← radarTarget id data rangeData targets 0
  let t1 ← radarTarget id data rangeData t0 1
  let t2 ← radarTarget id data rangeData t1 2
  radarTarget id data rangeData t2 3

/-- The `switch pageNumber & ^ToggleMask` of `BikeRadarSensorState.update`, on
the switched value `id`. -/
def BikeRadarSensorState.page (s : BikeRadarSensorState) (id : Nat) (data : List Nat) :
    Option BikeRadarSensorState :=
  if id = 0x01 then do
    let d1 ← data[BufferIndexMessageData + 1]?
    let masked := d1 &&& 0x03
    some { s with DeviceStatus := if masked = 1 then "Shutdown" else "Aborting Shutdown" }
  else if id = 0x30 ∨ id = 0x31 then do
    let b0 ← data[BufferIndexMessageData + 2]?
    let b1 ← data[BufferIndexMessageData + 3]?
    let b2 ← data[BufferIndexMessageData + 4]?
    let b3 ← data[BufferIndexMessageData + 5]?
    let rangeData := bigEndianUint32 b0 b1 b2 b3 &&& 0x00FFFFFF
    let targets ← radarTargets id data rangeData s.Targets
    some { s with Targets := targets }
  else if id = 0x50 then do
    let d3 ← data[BufferIndexMessageData + 3]?
    let d4 ← data[BufferIndexMessageData + 4]?
    let d5 ← data[BufferIndexMessageData + 5]?
    let d6 ← data[BufferIndexMessageData + 6]?
    let d7 ← data[BufferIndexMessageData + 7]?
    some { s with HWVersion := d3, ManID := littleEndianUint16 d4 d5,
                  ModelNumber := littleEndianUint16 d6 d7 }
  else if id = 0x51 then do
    let supplementalVersion ← data[BufferIndexMessageData + 2]?
    let mainVersion ← data[BufferIndexMessageData + 3]?
    let d4 ← data[BufferIndexMessageData + 4]?
    let d5 ← data[BufferIndexMessageData + 5]?
    let d6 ← data[BufferIndexMessageData + 6]?
    let d7 ← data[BufferIndexMessageData + 7]?
    some { s with SWVersion := if supplementalVersion ≠ 0xFF
                                then mainVersion * 100 + supplementalVersion
                                else mainVersion * 100,
                  SerialNumber := littleEndianUint32 d4 d5 d6 d7 }
  else if id = 0x52 then do
    let _batteryIdentifier ← data[BufferIndexMessageData + 2]?
    let batteryFrac ← data[BufferIndexMessageData + 6]?
    let batteryStatus ← data[BufferIndexMessageData + 7]?
    let b := batterySwitch batteryFrac batteryStatus
    let otResolution := if batteryStatus &&& 0x01 = 1 then 2 else 16
    let d3 ← data[BufferIndexMessageData + 3]?
    let d4 ← data[BufferIndexMessageData + 4]?
    let d5 ← data[BufferIndexMessageData + 5]?
    some { s with BatteryVoltage := b.1, BatteryStatus := b.2,
                  OperatingTime := (d3 ||| (d4 <<< 8) ||| (d5 <<< 16)) * otResolution }
  else if id = 0x57 then do
    let d4 ← data[BufferIndexMessageData + 4]?
    let d5 ← data[BufferIndexMessageData + 5]?
    let d6 ← data[BufferIndexMessageData + 6]?
    let d7 ← data[BufferIndexMessageData + 7]?
    let infoField ← data[BufferIndexMessageData + 2]?
    let d3 ← data[BufferIndexMessageData + 3]?
    some { s with ManufacturerError := littleEndianUint32 d4 d5 d6 d7,
                  ErrorLevel := if infoField >>> 6 = 2 then "Critical" else "Warning",
                  ErrorComponent := infoField &&& 0x0F,
                  ErrorDesc := if d3 = 0 then "Radar Saturated"
                               else if d3 = 1 then "Unit Skew" else s.ErrorDesc }
  else some s

/-- Source `BikeRadarSensorState.update`: the state and the page afterwards. -/
def BikeRadarSensorState.update (s : BikeRadarSensorState) (page : Page) (data : List Nat) :
    Option (BikeRadarSensorState × Page) := do
  let pageNumber ← data[BufferIndexMessageData]?
  let r ←
    if page.pageState = .InitPage then some (s, PageState.StdPage)
    else if pageNumber ≠ page.oldPage ∨ page.pageState = .ExtPage then do
      let s1 ← s.page (pageId pageNumber) data
      some (s1, PageState.ExtPage)
    else some (s, page.pageState)
  some (r.1, { oldPage := pageNumber, pageState := r.2 })

/-- Source `StrideSpeedDistanceSensorState`. -/
structure StrideSpeedDistanceSensorState where
  DeviceID : Nat
  OperatingTime : Nat
  ManID : Nat
  SerialNumber : Nat
  HWVersion : Nat
  SWVersion : Nat
  ModelNumber : Nat
  TimeFractional : Nat
  TimeInteger : Nat
  DistanceFractional : Nat
  DistanceInteger : Nat
  SpeedFractional : Nat
  SpeedInteger : Nat
  StrideCount : Nat
  UpdateLatency : Nat
  CadenceFractional : Nat
  CadenceInteger : Nat
  Status : Nat
  Calories : Nat
deriving DecidableEq, Repr

/-- The `switch pageNumber & ^ToggleMask` of
`StrideSpeedDistanceSensorState.update`, on the switched value `id`. -/
def StrideSpeedDistanceSensorState.page (s : StrideSpeedDistanceSensorState) (id : Nat)
    (data : List Nat) : Option StrideSpeedDistanceSensorState :=
  if id = 0x01 then do
    let d1 ← data[BufferIndexMessageData + 1]?
    let d2 ← data[BufferIndexMessageData + 2]?
    let d3 ← data[BufferIndexMessageData + 3]?
    let d4 ← data[BufferIndexMessageData + 4]?
    let d5 ← data[BufferIndexMessageData + 5]?
    let d6 ← data[BufferIndexMessageData + 6]?
    let d7 ← data[BufferIndexMessageData + 7]?
    some { s with TimeFractional := d1, TimeInteger := d2, DistanceInteger := d3,
                  DistanceFractional := d4 >>> 4, SpeedInteger := d4 &&& 0x0F,
                  SpeedFractional := d5, StrideCount := d6, UpdateLatency := d7 }
  else if id = 0x02 then do
    let d3 ← data[BufferIndexMessageData + 3]?
    let d4 ← data[BufferIndexMessageData + 4]?
    let d5 ← data[BufferIndexMessageData + 5]?
    let d7 ← data[BufferIndexMessageData + 7]?
    some { s with CadenceInteger := d3, CadenceFractional := d4 >>> 4,
                  SpeedInteger := d4 &&& 0x0F, SpeedFractional := d5, Status := d7 }
  else if id = 0x03 then do
    let d3 ← data[BufferIndexMessageData + 3]?
    let d4 ← data[BufferIndexMessageData + 4]?
    let d5 ← data[BufferIndexMessageData + 5]?
    let d6 ← data[BufferIndexMessageData + 6]?
    let d7 ← data[BufferIndexMessageData + 7]?
    some { s with CadenceInteger := d3, CadenceFractional := d4 >>> 4,
                  SpeedInteger := d4 &&& 0x0F, SpeedFractional := d5, Calories := d6,
                  Status := d7 }
  else some s

/-- Source `StrideSpeedDistanceSensorState.update`: the state and the page
afterwards (the line printed by `fmt.Println` is not part of the state). -/
def StrideSpeedDistanceSensorState.update (s : StrideSpeedDistanceSensorState) (page : Page)
    (data : List Nat) : Option (StrideSpeedDistanceSensorState × Page) := do
  let pageNumber ← data[BufferIndexMessageData]?
  let r ←
    if page.pageState = .InitPage then some (s, PageState.StdPage)
    else if pageNumber ≠ page.oldPage ∨ page.pageState = .ExtPage then do
      let s1 ← s.page (pageId pageNumber) data
      some (s1, PageState.ExtPage)
    else some (s, page.pageState)
  some (r.1, { oldPage := pageNumber, pageState := r.2 })

/-- Source `SpeedSensorState`, without `WheelCircumference`, a `float32` that
`update` only reads.  `CalculatedDistance` is the integer `n` of
`WheelCircumference * float32(n)`; `CalculatedSpeed` is the pair `(n, deno)` of
`(WheelCircumference * float32(n) * 1024) / float32(deno)`; `BatteryVoltage` is
in 1/256 V. -/
structure SpeedSensorState where
  DeviceID : Nat
  SpeedEventTime : Nat
  CumulativeSpeedRevolutionCount : Nat
  CalculatedDistance : Nat
  CalculatedSpeed : Nat × Nat
  OperatingTime : Nat
  ManID : Nat
  SerialNumber : Nat
  HWVersion : Nat
  SWVersion : Nat
  ModelNumber : Nat
  BatteryVoltage : Nat
  BatteryStatus : String
  BatteryLevel : Nat
  Motion : Bool
deriving DecidableEq, Repr

/-- Outcome of a call of a method with a pointer receiver of type `σ`: the value
it returned, or the state of the receiver left behind when it panicked. -/
inductive Call (σ α : Type) where
  | returned (a : α)
  | panicked (s : σ)
deriving DecidableEq, Repr

/-- Sequencing of statements: a panic ends the call. -/
def Call.bind {σ α β : Type} (c : Call σ α) (f : α → Call σ β) : Call σ β :=
  match c with
  | .returned a => f a
  | .panicked s => .panicked s

instance {σ : Type} : Monad (Call σ) where
  pure := Call.returned
  bind := Call.bind

/-- State of the receiver after the call, returned or not. -/
def Call.state {σ : Type} : Call σ σ → σ
  | .returned s => s
  | .panicked s => s

/-- Source index expression `data[i]`, evaluated while the receiver is `s`: it
is bounded by `len(data)`. -/
def SpeedSensorState.index (s : SpeedSensorState) (data : List Nat) (i : Nat) :
    Call SpeedSensorState Nat :=
  match data[i]? with
  | some b => .returned b
  | none => .panicked s

/-- Source `binary.LittleEndian.Uint16(data[a:a+2])`, evaluated while the
receiver is `s`.  A slice expression is bounded by `cap(data)`, not by
`len(data)`: `beyond` are the bytes that follow the frame `data` in its backing
array (the read buffer it was cut from), and the expression reads them when
the frame ends before `a + 2`. -/
def SpeedSensorState.uint16 (s : SpeedSensorState) (data beyond : List Nat) (a : Nat) :
    Call SpeedSensorState Nat :=
  match (data ++ beyond)[a]?, (data ++ beyond)[a + 1]? with
  | some b0, some b1 => .returned (littleEndianUint16 b0 b1)
  | _, _ => .panicked s

/-- The `switch pageNumber & ^ToggleMask` of `SpeedSensorState.update`, on the
switched value `id`, statement by statement: a panic leaves the assignments
made before it. -/
def SpeedSensorState.page (s : SpeedSensorState) (id : Nat) (data beyond : List Nat) :
    Call SpeedSensorState SpeedSensorState :=
  if id = 1 then do
    let d1 ← s.index data (BufferIndexMessageData + 1)
    let s1 := { s with OperatingTime := d1 }
    let d2 ← s1.index data (BufferIndexMessageData + 2)
    let s2 := { s1 with OperatingTime := d2 <<< 8 }
    let d3 ← s2.index data (BufferIndexMessageData + 3)
    let s3 := { s2 with OperatingTime := d3 <<< 16 }
    pure { s3 with OperatingTime := s3.OperatingTime * 2 }
  else if id = 2 then do
    let d1 ← s.index data (BufferIndexMessageData + 1)
    let s1 := { s with ManID := d1 }
    let s2 := { s1 with SerialNumber := s1.DeviceID }
    let v ← s2.uint16 data beyond (BufferIndexMessageData + 2)
    let s3 := { s2 with SerialNumber := s2.SerialNumber ||| (v <<< 16) }
    pure { s3 with SerialNumber := s3.SerialNumber ^^^ 0x80000000 }
  else if id = 3 then do
    let d1 ← s.index data (BufferIndexMessageData + 1)
    let s1 := { s with HWVersion := d1 }
    let d2 ← s1.index data (BufferIndexMessageData + 2)
    let s2 := { s1 with SWVersion := d2 }
    let d3 ← s2.index data (BufferIndexMessageData + 3)
    pure { s2 with ModelNumber := d3 }
  else if id = 4 then do
    let batteryLevel ← s.index data (BufferIndexMessageData + 1)
    let batteryFrac ← s.index data (BufferIndexMessageData + 2)
    let batteryStatus ← s.index data (BufferIndexMessageData + 3)
    let b := batterySwitch batteryFrac batteryStatus
    pure { s with BatteryLevel := if batteryLevel ≠ 0xFF then batteryLevel else s.BatteryLevel,
                  BatteryVoltage := b.1, BatteryStatus := b.2 }
  else if id = 5 then do
    let d1 ← s.index data (BufferIndexMessageData + 1)
    pure { s with Motion := (d1 &&& 0x01) == 0x01 }
  else pure s

/-- Source `SpeedSensorState.update(data)` for the frame `data` with the bytes
`beyond` behind it in its backing array: the state when the call returned, or
the state left behind by a panic.  The event time and the revolution count are
read through slice expressions; the two subtractions are `uint32`
subtractions. -/
def SpeedSensorState.update (s : SpeedSensorState) (data beyond : List Nat) :
    Call SpeedSensorState SpeedSensorState := do
  let pageNumber ← s.index data BufferIndexMessageData
  let s ← s.page (pageId pageNumber) data beyond
  let oldSpeedTime := s.SpeedEventTime
  let oldSpeedCount := s.CumulativeSpeedRevolutionCount
  let speedEventTime ← s.uint16 data beyond (BufferIndexMessageData + 4)
  let speedRevolutionCount ← s.uint16 data beyond (BufferIndexMessageData + 6)
  if speedEventTime ≠ oldSpeedTime then
    let s1 := { s with SpeedEventTime := speedEventTime,
                       CumulativeSpeedRevolutionCount := speedRevolutionCount }
    let speedEventTime :=
      if oldSpeedTime > speedEventTime then speedEventTime + 1024 * 64 else speedEventTime
    let speedRevolutionCount :=
      if oldSpeedCount > speedRevolutionCount then speedRevolutionCount + 1024 * 64
      else speedRevolutionCount
    let revolutions := (speedRevolutionCount + 2 ^ 32 - oldSpeedCount) % 2 ^ 32
    let s2 := { s1 with CalculatedDistance := revolutions }
    let deno := (speedEventTime + 2 ^ 32 - oldSpeedTime) % 2 ^ 32
    if deno = 0 then pure s2
    else pure { s2 with CalculatedSpeed := (revolutions, deno) }
  else pure s

/-! ## Scanners -/

/-- A Go map with `uint32` keys as an association list: `m[k] = v`.
`List.lookup` is the read `m[k]`. -/
def mapSet {α : Type} : List (Nat × α) → Nat → α → List (Nat × α)
  | [], k, v => [(k, v)]
  | (k1, v1) :: rest, k, v =>
    if k1 = k then (k, v) :: rest else (k1, v1) :: mapSet rest k v

/-- Source interface `Scanner`, for a scanner of type `σ`; `ε` is the record of
one listener call and `none` a panic. -/
structure Scanner (σ ε : Type) where
  deviceType : σ → Nat
  createStateIfNew : σ → Nat → σ
  updateRssiAndThreshold : σ → Nat → Nat → Nat → Option σ
  updateState : σ → Nat → List Nat → Option (σ × List ε)

/-- Source `AntPlusScanner.decodeData` for the scanner `scanner` behind the
embedded interface value: the scanner afterwards and the listener calls made.
The line logged for a wrong message format is not part of the state. -/
def AntPlusScanner.decodeData {σ ε : Type} (impl : Scanner σ ε) (scanner : σ)
    (data : List Nat) : Option (σ × List ε) :=
  if data.length ≤ BufferIndexExtMessageBegin + 3 then some (scanner, [])
  else do
    let flags ← data[BufferIndexExtMessageBegin]?
    if flags &&& 0x80 = 0 then some (scanner, [])
    else do
      let idOffset := BufferIndexExtMessageBegin + 1
      let b0 ← data[idOffset]?
      let b1 ← data[idOffset + 1]?
      let deviceID := littleEndianUint16 b0 b1
      let deviceType ← data[BufferIndexExtMessageBegin + 3]?
      if deviceType ≠ impl.deviceType scanner then some (scanner, [])
      else do
        let s1 := impl.createStateIfNew scanner deviceID
        let s2 ←
          if flags &&& 0x40 ≠ 0 then do
            let measurement ← data[BufferIndexExtMessageBegin + 5]?
            if measurement = 0x20 then do
              let rssi ← data[BufferIndexExtMessageBegin + 6]?
              let threshold ← data[BufferIndexExtMessageBegin + 7]?
              impl.updateRssiAndThreshold s1 deviceID rssi threshold
            else some s1
          else some s1
        let messageType ← data[BufferIndexMessageType]?
        if messageType = MessageChannelBroadcastData ∨
            messageType = MessageChannelAcknowledgedData ∨
            messageType = MessageChannelBurstData then
          impl.updateState s2 deviceID data
        else some (s2, [])

/-- Source `HeartRateScannerState`: the embedded `*HeartRateSensorState` and the
two radio fields. -/
structure HeartRateScannerState extends HeartRateSensorState where
  RSSI : Nat
  Threshold : Nat
deriving DecidableEq, Repr

/-- Source `NewHeartRateScannerState`: every field but `DeviceID` has its zero
value. -/
def NewHeartRateScannerState (deviceID : Nat) : HeartRateScannerState :=
  { DeviceID := deviceID, BeatTime := 0, BeatCount := 0, ComputedHeartRate := 0,
    OperatingTime := 0, ManID := 0, SerialNumber := 0, HWVersion := 0, SWVersion := 0,
    ModelNumber := 0, PreviousBeat := 0, IntervalAverage := 0, IntervalMax := 0,
    SessionAverage := 0, SupportedFeatures := 0, EnabledFeatures := 0, BatteryLevel := 0,
    BatteryVoltage := 0, BatteryStatus := "", RSSI := 0, Threshold := 0 }

/-- Source `HeartRateScanner`: the two maps and the listeners, which are function
values named by numbers. -/
structure HeartRateScanner where
  states : List (Nat × HeartRateScannerState)
  pages : List (Nat × Page)
  listeners : List Nat
deriving DecidableEq, Repr

/-- Source `HeartRateScanner.deviceType`. -/
def HeartRateScanner.deviceType (_s : HeartRateScanner) : Nat := 120

/-- Source `HeartRateScanner.createStateIfNew`. -/
def HeartRateScanner.createStateIfNew (s : HeartRateScanner) (deviceID : Nat) :
    HeartRateScanner :=
  let s1 :=
    match s.states.lookup deviceID with
    | some _ => s
    | none => { s with states := mapSet s.states deviceID (NewHeartRateScannerState deviceID) }
  match s1.pages.lookup deviceID with
  | some _ => s1
  | none => { s1 with pages := mapSet s1.pages deviceID Page.init }

/-- Source `HeartRateScanner.updateRssiAndThreshold`; `none` is the nil pointer
dereference for a device without entry. -/
def HeartRateScanner.updateRssiAndThreshold (s : HeartRateScanner)
    (deviceID rssi threshold : Nat) : Option HeartRateScanner := do
  let e ← s.states.lookup deviceID
  some { s with states := mapSet s.states deviceID { e with RSSI := rssi,
                                                            Threshold := threshold } }

/-- Source `HeartRateScanner.updateState`: the scanner afterwards and, for each
listener in order, the state it was called with. -/
def HeartRateScanner.updateState (s : HeartRateScanner) (deviceID : Nat) (data : List Nat) :
    Option (HeartRateScanner × List (Nat × HeartRateScannerState)) := do
  let e ← s.states.lookup deviceID
  let page ← s.pages.lookup deviceID
  let r ← e.toHeartRateSensorState.update page data
  let e1 : HeartRateScannerState := { e with toHeartRateSensorState := r.1 }
  let s1 := { s with states := mapSet s.states deviceID e1,
                     pages := mapSet s.pages deviceID r.2 }
  some (s1, s.listeners.map fun cb => (cb, e1))

/-- The heart-rate scanner behind the interface `Scanner`. -/
def HeartRateScanner.scanner :
    Scanner HeartRateScanner (Nat × HeartRateScannerState) where
  deviceType := HeartRateScanner.deviceType
  createStateIfNew := HeartRateScanner.createStateIfNew
  updateRssiAndThreshold := HeartRateScanner.updateRssiAndThreshold
  updateState := HeartRateScanner.updateState

/-! ## Send queue: completion callbacks -/

/-- The completion callbacks called, in order, among recorded events, each with
the argument it received. -/
def completions : List Event → List (Nat × Bool)
  | [] => []
  | .sendCallback cb success :: rest => (cb, success) :: completions rest
  | _ :: rest => completions rest

/-- The message with bytes `m.1` and completion callback `m.2`. -/
def Message.withCallback (m : List Nat × Nat) : Message :=
  { msg := m.1, callback := some m.2 }

/-! ## Sensors -/

/-- Source interface `Sensor`, for a profile sensor of type `σ`; `ε` is the
record of one listener call and `none` a panic. -/
structure Sensor (σ ε : Type) where
  updateState : σ → Nat → List Nat → Option (σ × List ε)

/-- Source `AntPlusSensor.decodeData` for the profile sensor `state` behind the
embedded interface value: the base sensor and the profile sensor afterwards
and, in order, what was done: a write (`Sum.inl`) or a listener call made by
`updateState` (`Sum.inr`). -/
def AntPlusSensor.decodeData {σ ε : Type} (impl : Sensor σ ε) (sensor : BaseSensor)
    (state : σ) (data : List Nat) : Option (BaseSensor × σ × List (Event ⊕ ε)) := do
  let messageType ← data[BufferIndexMessageType]?
  if messageType = MessageChannelBroadcastData ∨
      messageType = MessageChannelAcknowledgedData ∨
      messageType = MessageChannelBurstData then do
    let written ←
      if sensor.deviceID = 0 then do
        let channel ← sensor.channel
        let m ← requestMessage channel MessageChannelID
        some [Sum.inl (Event.write m)]
      else some []
    let r ← impl.updateState state sensor.deviceID data
    some (sensor, r.1, written ++ r.2.map Sum.inr)
  else if messageType = MessageChannelID then do
    let d0 ← data[BufferIndexMessageData]?
    let sensor1 := { sensor with deviceID := d0 }
    let d3 ← data[BufferIndexMessageData + 3]?
    some ({ sensor1 with transmissionType := d3 }, state, [])
  else some (sensor, state, [])

/-- Source `HeartRateSensor`: the state, the page and the listeners, which are
function values named by numbers. -/
structure HeartRateSensor where
  state : HeartRateSensorState
  page : Page
  listeners : List Nat
deriving DecidableEq, Repr

/-- Source `HeartRateSensor.updateState`: the sensor afterwards and, for each
listener in order, the state it was called with. -/
def HeartRateSensor.updateState (sensor : HeartRateSensor) (_deviceID : Nat)
    (data : List Nat) : Option (HeartRateSensor × List (Nat × HeartRateSensorState)) := do
  let r ← sensor.state.update sensor.page data
  some ({ sensor with state := r.1, page := r.2 }, sensor.listeners.map fun cb => (cb, r.1))

/-- The heart-rate sensor behind the interface `Sensor`. -/
def HeartRateSensor.sensor : Sensor HeartRateSensor (Nat × HeartRateSensorState) where
  updateState := HeartRateSensor.updateState

/-! ## Speed sensor: runs -/

/-- The `SpeedSensorState` built by `NewSpeedSensor` (device id 0) and by
`NewSpeedScannerState(deviceID)`: every other field has its zero value (the
float 0 of `CalculatedSpeed` is kept as `(0, 1)`). -/
def SpeedSensorState.fresh (deviceID : Nat) : SpeedSensorState :=
  { DeviceID := deviceID, SpeedEventTime := 0, CumulativeSpeedRevolutionCount := 0,
    CalculatedDistance := 0, CalculatedSpeed := (0, 1), OperatingTime := 0, ManID := 0,
    SerialNumber := 0, HWVersion := 0, SWVersion := 0, ModelNumber := 0, BatteryVoltage := 0,
    BatteryStatus := "", BatteryLevel := 0, Motion := false }

/-- Calls of `update`, one after the other, each on a frame with the bytes
behind it in its backing array; the state is kept whether a call returns or
panics. -/
def SpeedSensorState.updates (s : SpeedSensorState) :
    List (List Nat × List Nat) → SpeedSensorState
  | [] => s
  | f :: rest => SpeedSensorState.updates (s.update f.1 f.2).state rest

/-- The local `deno` of `SpeedSensorState.update`, from the stored event time
and the event time of the frame: `speedEventTime += 1024 * 64` when the stored
one is larger, then the `uint32` subtraction. -/
def speedDeno (oldSpeedTime speedEventTime : Nat) : Nat :=
  let speedEventTime :=
    if oldSpeedTime > speedEventTime then speedEventTime + 1024 * 64 else speedEventTime
  (speedEventTime + 2 ^ 32 - oldSpeedTime) % 2 ^ 32

/-! ## Frame codec: lemmas -/

theorem getChecksum_snoc (m : List Nat) (b : Nat) :
    getChecksum (m ++ [b]) = (getChecksum m ^^^ b) % 255 := by
  simp [getChecksum, List.foldl_append]

theorem xorAll_snoc (m : List Nat) (b : Nat) : xorAll (m ++ [b]) = xorAll m ^^^ b := by
  simp [xorAll, List.foldl_append]

theorem getChecksum_lt (m : List Nat) : getChecksum m < 255 := by
  induction m using List.reverseRecOn with
  | nil => decide
  | append_singleton m b _ => rw [getChecksum_snoc]; exact Nat.mod_lt _ (by decide)

theorem xorAll_lt (m : List Nat) (h : ∀ b ∈ m, b < 256) : xorAll m < 256 := by
  induction m using List.reverseRecOn with
  | nil => decide
  | append_singleton m b ih =>
    rw [xorAll_snoc]
    have h1 : xorAll m < 2 ^ 8 := ih (fun x hx => h x (by simp [hx]))
    have h2 : b < 2 ^ 8 := h b (by simp)
    exact Nat.xor_lt_two_pow h1 h2

theorem getChecksum_cases (m : List Nat) (h : ∀ b ∈ m, b < 256) :
    getChecksum m = xorAll m ∨ getChecksum m = xorAll m ^^^ 255 := by
  induction m using List.reverseRecOn with
  | nil => left; rfl
  | append_singleton m b ih =>
    have hm : ∀ x ∈ m, x < 256 := fun x hx => h x (by simp [hx])
    have hb : b < 2 ^ 8 := h b (by simp)
    have hc : getChecksum m < 2 ^ 8 := Nat.lt_trans (getChecksum_lt m) (by decide)
    have hx : getChecksum m ^^^ b < 256 := Nat.xor_lt_two_pow hc hb
    rw [getChecksum_snoc, xorAll_snoc]
    by_cases h255 : getChecksum m ^^^ b = 255
    · rw [h255]
      rcases ih hm with e | e
      · right
        rw [← e, h255]; rfl
      · left
        rw [e] at h255
        have : xorAll m ^^^ b = (xorAll m ^^^ 255 ^^^ b) ^^^ 255 := by
          rw [Nat.xor_assoc, Nat.xor_assoc, Nat.xor_comm 255, Nat.xor_assoc b, Nat.xor_self, Nat.xor_zero]
        rw [this, h255]; rfl
    · have hlt : getChecksum m ^^^ b < 255 := by omega
      rw [Nat.mod_eq_of_lt hlt]
      rcases ih hm with e | e
      · left; rw [e]
      · right; rw [e, Nat.xor_assoc, Nat.xor_assoc, Nat.xor_comm 255 b]

theorem xorAll_foldl (m : List Nat) (a : Nat) :
    m.foldl (fun acc b => acc ^^^ b) a = a ^^^ xorAll m := by
  induction m generalizing a with
  | nil => simp [xorAll]
  | cons x m ih =>
    simp only [xorAll, List.foldl_cons]
    rw [ih (a ^^^ x), ih (0 ^^^ x), Nat.zero_xor, Nat.xor_assoc]

theorem xorAll_cons (x : Nat) (m : List Nat) : xorAll (x :: m) = x ^^^ xorAll m := by
  show (x :: m).foldl (fun acc b => acc ^^^ b) 0 = _
  rw [List.foldl_cons, xorAll_foldl, Nat.zero_xor]

theorem xorAll_flipBit (m : List Nat) (i k : Nat) (hi : i < m.length) :
    xorAll (flipBit m i k) = xorAll m ^^^ 2 ^ k := by
  unfold flipBit
  induction m generalizing i with
  | nil => simp at hi
  | cons x m ih =>
    cases i with
    | zero =>
      simp only [List.set_cons_zero, List.getD_cons_zero, xorAll_cons]
      rw [Nat.xor_assoc, Nat.xor_comm (2 ^ k), Nat.xor_assoc]
    | succ j =>
      have hj : j < m.length := by simpa using hi
      simp only [List.set_cons_succ, List.getD_cons_succ, xorAll_cons]
      rw [ih j hj, Nat.xor_assoc]

theorem flipBit_lt (m : List Nat) (i k : Nat) (hk : k < 8) (h : ∀ b ∈ m, b < 256) :
    ∀ b ∈ flipBit m i k, b < 256 := by
  intro b hb
  unfold flipBit at hb
  rcases List.mem_or_eq_of_mem_set hb with hb | hb
  · exact h b hb
  · have h1 : m.getD i 0 < 2 ^ 8 := by
      rw [List.getD_eq_getElem?_getD]
      cases hg : m[i]? with
      | none => simp
      | some v => simp only [Option.getD_some]; exact h v (List.mem_iff_getElem?.2 ⟨i, hg⟩)
    have h2 : 2 ^ k < 2 ^ 8 := Nat.pow_lt_pow_right (by decide) hk
    rw [hb]; exact Nat.xor_lt_two_pow h1 h2

theorem two_pow_ne (k : Nat) (hk : k < 8) : 2 ^ k ≠ 0 ∧ 2 ^ k ≠ 255 := by
  interval_cases k <;> decide

theorem xor_eq_self_iff (x e : Nat) : x ^^^ e = x ↔ e = 0 := by
  constructor
  · intro h
    have := congrArg (fun t => x ^^^ t) h
    simpa [Nat.xor_cancel_left] using this
  · rintro rfl; simp

theorem getChecksum_flipBit_ne (m : List Nat) (i k : Nat) (h : ∀ b ∈ m, b < 256)
    (hi : i < m.length) (hk : k < 8) :
    getChecksum (flipBit m i k) ≠ getChecksum m := by
  have hx := xorAll_flipBit m i k hi
  obtain ⟨h0, h255⟩ := two_pow_ne k hk
  have key : ∀ a b : Nat, (xorAll m ^^^ 2 ^ k ^^^ a = xorAll m ^^^ b) → 2 ^ k ^^^ a = b := by
    intro a b hab
    have := congrArg (fun t => xorAll m ^^^ t) hab
    simp only [Nat.xor_assoc, Nat.xor_cancel_left] at this
    exact this
  intro heq
  rcases getChecksum_cases _ (flipBit_lt m i k hk h) with e1 | e1 <;>
    rcases getChecksum_cases m h with e2 | e2 <;>
    rw [e1, e2, hx] at heq
  · have := key 0 0 (by simpa using heq)
    simp at this
  · have := key 0 255 (by simpa using heq)
    simp at this; exact h255 this
  · have := key 255 0 (by simpa using heq)
    have h3 : 2 ^ k = 255 := by
      have := congrArg (fun t => t ^^^ 255) this
      simpa [Nat.xor_assoc] using this
    exact h255 h3
  · have := key 255 255 heq
    have h3 : 2 ^ k = 0 := by
      have := congrArg (fun t => t ^^^ 255) this
      simp [Nat.xor_assoc] at this
    exact h0 h3

theorem buildMessage_eq (payload : List Nat) (msgID : Nat) :
    buildMessage payload msgID =
      ([MessageTXSync, byte payload.length, msgID] ++ payload) ++
        [getChecksum ([MessageTXSync, byte payload.length, msgID] ++ payload)] := by
  have h := getChecksum_lt ([MessageTXSync, byte payload.length, msgID] ++ payload)
  have e : byte (getChecksum ([MessageTXSync, byte payload.length, msgID] ++ payload)) =
      getChecksum ([MessageTXSync, byte payload.length, msgID] ++ payload) :=
    Nat.mod_eq_of_lt (Nat.lt_trans h (by decide))
  simp only [buildMessage, e]

theorem buildMessage_take (payload : List Nat) (msgID : Nat) :
    (buildMessage payload msgID).take (payload.length + 3) =
      [MessageTXSync, byte payload.length, msgID] ++ payload := by
  rw [buildMessage_eq]
  apply List.take_left'
  simp

theorem buildMessage_last (payload : List Nat) (msgID : Nat) :
    (buildMessage payload msgID)[payload.length + 3]? =
      some (getChecksum ([MessageTXSync, byte payload.length, msgID] ++ payload)) := by
  rw [buildMessage_eq, List.getElem?_append_right (by simp)]
  have : payload.length + 3 - ([MessageTXSync, byte payload.length, msgID] ++ payload).length = 0 := by
    simp
  rw [this]; rfl

/-! ## Frame codec: claims -/

/-- C1: for a payload of N bytes, N at most 255, `buildMessage payload msgID` has
N+4 bytes: 0xA4, N, the message id, the payload unchanged, and as last byte
`getChecksum` of the N+3 bytes before it; so the id read at index 2 and the N
bytes read from index 3 are the id and payload that were encoded. -/
theorem buildMessage_layout (payload : List Nat) (msgID : Nat)
    (hlen : payload.length ≤ 255) :
    (buildMessage payload msgID).length = payload.length + 4 ∧
    (buildMessage payload msgID)[0]? = some 0xA4 ∧
    (buildMessage payload msgID)[1]? = some payload.length ∧
    (buildMessage payload msgID)[2]? = some msgID ∧
    ((buildMessage payload msgID).drop 3).take payload.length = payload ∧
    (buildMessage payload msgID)[payload.length + 3]? =
      some (getChecksum ((buildMessage payload msgID).take (payload.length + 3))) := by
  have hb : byte payload.length = payload.length := Nat.mod_eq_of_lt (by omega)
  refine ⟨?_, ?_, ?_, ?_, ?_, ?_⟩
  · rw [buildMessage_eq]; simp
  · rw [buildMessage_eq]; rfl
  · rw [buildMessage_eq, hb]; rfl
  · rw [buildMessage_eq]; simp
  · rw [buildMessage_eq]
    simp
  · rw [buildMessage_take, buildMessage_last]

/-- C1 at the RequestMessage(0, Capabilities) frame. -/
theorem buildMessage_layout_witness :
    ([0, 0x54] : List Nat).length ≤ 255 ∧
    (buildMessage [0, 0x54] 0x4D).length = 6 ∧
    (buildMessage [0, 0x54] 0x4D)[2]? = some 0x4D ∧
    ((buildMessage [0, 0x54] 0x4D).drop 3).take 2 = [0, 0x54] :=
  ⟨by decide, (buildMessage_layout [0, 0x54] 0x4D (by decide)).1,
    (buildMessage_layout [0, 0x54] 0x4D (by decide)).2.2.2.1,
    (buildMessage_layout [0, 0x54] 0x4D (by decide)).2.2.2.2.1⟩

/-- C2: `getChecksum` is not the XOR of the bytes.  On the ChannelID frame that
`setDevice(0, 15, 120, 0)` builds, the running value reaches 0xFF after the
byte 0x0F and is reduced to 0 by `% 0xFF`: the stored checksum is 0x78 while
the XOR of the eight bytes before it is 0x87. -/
theorem getChecksum_differs_from_xor :
    setDevice 0 15 120 0 = some [0xA4, 0x05, 0x51, 0x00, 0x0F, 0x00, 0x78, 0x00, 0x78] ∧
    getChecksum [0xA4, 0x05, 0x51, 0x00, 0x0F, 0x00, 0x78, 0x00] = 0x78 ∧
    xorAll [0xA4, 0x05, 0x51, 0x00, 0x0F, 0x00, 0x78, 0x00] = 0x87 ∧
    getChecksum [0xFF] = 0 ∧ xorAll [0xFF] = 0xFF := by
  decide

/-- C3: in a frame built by `buildMessage` from bytes (of any payload length, so
also of the lengths up to 255), inverting one bit of one byte before the
checksum byte makes `getChecksum` of the corrupted bytes differ from the stored
checksum byte. -/
theorem buildMessage_bit_flip_detected (payload : List Nat) (msgID i k : Nat)
    (hpayload : ∀ b ∈ payload, b < 256) (hid : msgID < 256)
    (hi : i < payload.length + 3) (hk : k < 8) :
    (buildMessage payload msgID)[payload.length + 3]? ≠
      some (getChecksum (flipBit ((buildMessage payload msgID).take (payload.length + 3)) i k)) := by
  rw [buildMessage_take, buildMessage_last]
  intro h
  have hbytes : ∀ b ∈ [MessageTXSync, byte payload.length, msgID] ++ payload, b < 256 := by
    intro b hb
    simp only [List.cons_append, List.nil_append, List.mem_cons] at hb
    rcases hb with rfl | rfl | rfl | hb
    · decide
    · exact Nat.mod_lt _ (by decide)
    · exact hid
    · exact hpayload b hb
  have hi2 : i < ([MessageTXSync, byte payload.length, msgID] ++ payload).length := by
    simp; omega
  exact getChecksum_flipBit_ne _ i k hbytes hi2 hk (Option.some.inj h).symm

/-- C3 at the RequestMessage(0, Capabilities) frame, bit 7 of the SYNC byte. -/
theorem buildMessage_bit_flip_detected_witness :
    (∀ b ∈ ([0, 0x54] : List Nat), b < 256) ∧
    (buildMessage [0, 0x54] 0x4D)[2 + 3]? ≠
      some (getChecksum (flipBit ((buildMessage [0, 0x54] 0x4D).take (2 + 3)) 0 7)) :=
  ⟨by decide,
    buildMessage_bit_flip_detected [0, 0x54] 0x4D 0 7 (by decide) (by decide) (by decide)
      (by decide)⟩

/-! ## Channel allocation: lemmas -/

theorem attachMany_within (sensors : List Nat) :
    ∀ (drv : USBDriver), 0 ≤ drv.usedChannels →
      drv.usedChannels + sensors.length ≤ drv.MaxChannels →
      drv.attachMany sensors =
        ({ drv with usedChannels := drv.usedChannels + sensors.length,
                    attachedSensors := drv.attachedSensors ++ sensors },
          List.replicate sensors.length true) := by
  induction sensors with
  | nil => intro drv _ _; simp [USBDriver.attachMany]
  | cons x xs ih =>
    intro drv h0 hmax
    have hlen : ((x :: xs).length : Int) = (xs.length : Int) + 1 := by simp
    have h1 : ¬ drv.usedChannels < 0 := by omega
    have h2 : ¬ drv.MaxChannels ≤ drv.usedChannels := by omega
    have hatt : drv.attach x false =
        ({ drv with usedChannels := drv.usedChannels + 1,
                    attachedSensors := drv.attachedSensors ++ [x] }, true) := by
      simp [USBDriver.attach, h1, h2]
    have hrec := ih { drv with usedChannels := drv.usedChannels + 1,
                               attachedSensors := drv.attachedSensors ++ [x] }
      (by simp; omega) (by simp; omega)
    simp only [USBDriver.attachMany, hatt, hrec]
    simp [List.replicate_succ]
    omega

theorem detachIdx_not_mem (l : List Nat) (sensor : Nat) :
    ∀ (i : Nat) (idx : Int), sensor ∉ l → USBDriver.detachIdx l sensor i idx = idx := by
  induction l with
  | nil => intro i idx _; rfl
  | cons x xs ih =>
    intro i idx h
    have hx : ¬ x = sensor := fun e => h (by simp [e])
    have hxs : sensor ∉ xs := fun e => h (by simp [e])
    simp [USBDriver.detachIdx, hx, ih _ _ hxs]

theorem detachIdx_append_self (l : List Nat) (sensor : Nat) :
    ∀ (i : Nat) (idx : Int),
      USBDriver.detachIdx (l ++ [sensor]) sensor i idx = ((i + l.length : Nat) : Int) := by
  induction l with
  | nil => intro i idx; simp [USBDriver.detachIdx]
  | cons x xs ih =>
    intro i idx
    show USBDriver.detachIdx (xs ++ [sensor]) sensor (i + 1) _ = _
    rw [ih, List.length_cons]
    congr 1
    omega

theorem detach_after_append (drv : USBDriver) (sensor : Nat) (u : Int) :
    ({ drv with usedChannels := u,
                attachedSensors := drv.attachedSensors ++ [sensor] } : USBDriver).detach sensor =
      ({ drv with usedChannels := if u < 0 then 0 else u - 1 }, true) := by
  have hidx := detachIdx_append_self drv.attachedSensors sensor 0 (-1)
  have hnot : ¬ (((0 + drv.attachedSensors.length : Nat) : Int) < 0) := by omega
  simp only [USBDriver.detach, hidx, hnot, if_false, Int.toNat_ofNat, Nat.zero_add,
    List.length_append, List.length_singleton, Nat.add_sub_cancel]
  have hget : (drv.attachedSensors ++ [sensor]).getD drv.attachedSensors.length 0 = sensor := by
    simp [List.getD_eq_getElem?_getD]
  rw [hget]
  have hset : (drv.attachedSensors ++ [sensor]).set drv.attachedSensors.length sensor =
      drv.attachedSensors ++ [sensor] := by
    apply List.ext_getElem?
    intro n
    by_cases hn : n = drv.attachedSensors.length
    · subst hn
      simp [List.getElem?_set]
    · rw [List.getElem?_set_ne (fun e => hn e.symm)]
  rw [hset, hset]
  simp

/-! ## Channel allocation: claims -/

/-- C8: from a driver with `usedChannels = 0`, no attached sensor and
`MaxChannels = M`, M successive `attach(sensor, false)` calls all return true
(leaving `usedChannels = M` and the M sensors attached), and one more call
returns false and changes nothing. -/
theorem attach_up_to_capacity (drv : USBDriver) (M : Nat) (sensors : List Nat) (extra : Nat)
    (hused : drv.usedChannels = 0) (hnone : drv.attachedSensors = [])
    (hmax : drv.MaxChannels = (M : Int)) (hlen : sensors.length = M) :
    (drv.attachMany sensors).2 = List.replicate M true ∧
    (drv.attachMany sensors).1.usedChannels = (M : Int) ∧
    (drv.attachMany sensors).1.attachedSensors = sensors ∧
    (drv.attachMany sensors).1.attach extra false = ((drv.attachMany sensors).1, false) := by
  have h := attachMany_within sensors drv (by omega) (by omega)
  rw [h]
  refine ⟨by simp [hlen], by simp [hused, hlen], by simp [hnone], ?_⟩
  simp [USBDriver.attach, hused, hmax, hlen]

/-- C8 for a stick with 2 channels: sensors 10 and 11 attach, sensor 12 does not. -/
theorem attach_up_to_capacity_witness :
    (USBDriver.attachMany { usedChannels := 0, attachedSensors := [], startupCallbacks := [],
                            MaxChannels := 2, CanScan := true } [10, 11]).2 = [true, true] ∧
    ((USBDriver.attachMany { usedChannels := 0, attachedSensors := [], startupCallbacks := [],
                             MaxChannels := 2, CanScan := true } [10, 11]).1.attach 12 false).2 =
      false :=
  ⟨(attach_up_to_capacity { usedChannels := 0, attachedSensors := [], startupCallbacks := [],
                            MaxChannels := 2, CanScan := true } 2 [10, 11] 12 rfl rfl rfl rfl).1,
   congrArg Prod.snd
    (attach_up_to_capacity { usedChannels := 0, attachedSensors := [], startupCallbacks := [],
                             MaxChannels := 2, CanScan := true } 2 [10, 11] 12 rfl rfl rfl rfl).2.2.2⟩

/-- C9: a scan attach is refused while `usedChannels > 0`; every attach is refused
while `usedChannels = -1`; a refused attach changes nothing; a scan attach
returns true exactly when `usedChannels = 0`, and then sets `usedChannels = -1`,
so that `isScanning()` is true. -/
theorem attach_scan_exclusive (drv : USBDriver) (s : Nat) (forScan : Bool) :
    (0 < drv.usedChannels → drv.attach s true = (drv, false)) ∧
    (drv.usedChannels = -1 →
      drv.attach s false = (drv, false) ∧ drv.attach s true = (drv, false)) ∧
    ((drv.attach s forScan).2 = false → (drv.attach s forScan).1 = drv) ∧
    ((drv.attach s true).2 = true ↔ drv.usedChannels = 0) ∧
    (drv.usedChannels = 0 →
      (drv.attach s true).1.usedChannels = -1 ∧ (drv.attach s true).1.isScanning = true ∧
      (drv.attach s true).1.attachedSensors = drv.attachedSensors ++ [s]) := by
  refine ⟨?_, ?_, ?_, ?_, ?_⟩
  · intro h
    have h1 : ¬ drv.usedChannels < 0 := by omega
    have h2 : drv.usedChannels ≠ 0 := by omega
    simp [USBDriver.attach, h1, h2]
  · intro h
    simp [USBDriver.attach, h]
  · unfold USBDriver.attach
    split
    · intro _; rfl
    · split
      · split
        · intro _; rfl
        · intro h; simp at h
      · split
        · intro _; rfl
        · intro h; simp at h
  · unfold USBDriver.attach
    constructor
    · intro h
      by_cases h1 : drv.usedChannels < 0
      · simp [h1] at h
      · by_cases h2 : drv.usedChannels = 0
        · exact h2
        · simp [h1, h2] at h
    · intro h
      simp [h]
  · intro h
    simp [USBDriver.attach, h, USBDriver.isScanning]

/-- C9 on a driver with one regular channel in use, and on a scanning driver. -/
theorem attach_scan_exclusive_witness :
    USBDriver.attach { usedChannels := 1, attachedSensors := [10], startupCallbacks := [],
                       MaxChannels := 8, CanScan := true } 11 true =
      ({ usedChannels := 1, attachedSensors := [10], startupCallbacks := [],
         MaxChannels := 8, CanScan := true }, false) ∧
    USBDriver.attach { usedChannels := -1, attachedSensors := [10], startupCallbacks := [],
                       MaxChannels := 8, CanScan := true } 11 false =
      ({ usedChannels := -1, attachedSensors := [10], startupCallbacks := [],
         MaxChannels := 8, CanScan := true }, false) :=
  ⟨(attach_scan_exclusive { usedChannels := 1, attachedSensors := [10], startupCallbacks := [],
                            MaxChannels := 8, CanScan := true } 11 true).1 (by decide),
   ((attach_scan_exclusive { usedChannels := -1, attachedSensors := [10], startupCallbacks := [],
                             MaxChannels := 8, CanScan := true } 11 false).2.1 rfl).1⟩

/-- C10: when `attach(s, forScan)` returns true for a sensor that was not attached,
`detach(s)` right after it returns true and gives back the driver as it was
before the attach (`usedChannels` restored, `s` gone from the list, every other
sensor still attached, in the same order); `detach` of a sensor that is not in
the list returns false and changes nothing. -/
theorem attach_detach_restores (drv : USBDriver) (s : Nat) (forScan : Bool)
    (hnew : s ∉ drv.attachedSensors) :
    ((drv.attach s forScan).2 = true → (drv.attach s forScan).1.detach s = (drv, true)) ∧
    drv.detach s = (drv, false) := by
  constructor
  · by_cases h1 : drv.usedChannels < 0
    · simp [USBDriver.attach, h1]
    · cases forScan with
      | true =>
        by_cases h2 : drv.usedChannels = 0
        · have hatt : drv.attach s true =
              ({ drv with usedChannels := -1,
                          attachedSensors := drv.attachedSensors ++ [s] }, true) := by
            simp [USBDriver.attach, h2]
          intro _
          rw [hatt]
          show USBDriver.detach { drv with usedChannels := -1,
                                           attachedSensors := drv.attachedSensors ++ [s] } s = _
          rw [detach_after_append]
          cases drv
          simp_all
        · simp [USBDriver.attach, h1, h2]
      | false =>
        by_cases h2 : drv.MaxChannels ≤ drv.usedChannels
        · simp [USBDriver.attach, h1, h2]
        · have hatt : drv.attach s false =
              ({ drv with usedChannels := drv.usedChannels + 1,
                          attachedSensors := drv.attachedSensors ++ [s] }, true) := by
            simp [USBDriver.attach, h1, h2]
          intro _
          rw [hatt]
          show USBDriver.detach { drv with usedChannels := drv.usedChannels + 1,
                                           attachedSensors := drv.attachedSensors ++ [s] } s = _
          rw [detach_after_append]
          have h3 : ¬ drv.usedChannels + 1 < 0 := by omega
          cases drv
          simp_all
  · have hidx := detachIdx_not_mem drv.attachedSensors s 0 (-1) hnew
    simp [USBDriver.detach, hidx]

/-- C10 on a driver with sensor 10 attached: sensor 11 is attached, then detached. -/
theorem attach_detach_restores_witness :
    (USBDriver.attach { usedChannels := 1, attachedSensors := [10], startupCallbacks := [],
                        MaxChannels := 8, CanScan := true } 11 false).1.detach 11 =
      ({ usedChannels := 1, attachedSensors := [10], startupCallbacks := [],
         MaxChannels := 8, CanScan := true }, true) :=
  (attach_detach_restores { usedChannels := 1, attachedSensors := [10], startupCallbacks := [],
                            MaxChannels := 8, CanScan := true } 11 false (by decide)).1 (by decide)

/-! ## Inbound dispatch: lemmas -/

theorem detachIdx_range (l : List Nat) (sensor : Nat) :
    ∀ (i : Nat) (idx : Int),
      USBDriver.detachIdx l sensor i idx = idx ∨
      ((i : Int) ≤ USBDriver.detachIdx l sensor i idx ∧
        USBDriver.detachIdx l sensor i idx < ((i + l.length : Nat) : Int)) := by
  induction l with
  | nil => intro i idx; left; rfl
  | cons x xs ih =>
    intro i idx
    simp only [USBDriver.detachIdx, List.length_cons]
    by_cases hx : x = sensor
    · simp only [hx, if_true]
      rcases ih (i + 1) (i : Int) with h | h
      · right; rw [h]; constructor <;> omega
      · right; constructor <;> omega
    · simp only [hx, if_false]
      rcases ih (i + 1) idx with h | h
      · left; exact h
      · right; constructor <;> omega

theorem attach_allocated (M : Nat) (drv : USBDriver) (modes : List Bool) (sensor : Nat)
    (forScan : Bool) (h : drv.allocated M modes) :
    (drv.attach sensor forScan).1.allocated M
      (if (drv.attach sensor forScan).2 = true then modes ++ [forScan] else modes) := by
  obtain ⟨hmax, hlen, hcase⟩ := h
  unfold USBDriver.attach
  by_cases h1 : drv.usedChannels < 0
  · simp only [h1, if_true, Bool.false_eq_true, if_false]
    exact ⟨hmax, hlen, hcase⟩
  · have hreg : 0 ≤ drv.usedChannels ∧ drv.usedChannels ≤ (M : Int) ∧
        drv.usedChannels = (drv.attachedSensors.length : Int) ∧ ∀ m ∈ modes, m = false := by
      rcases hcase with ⟨hu, _⟩ | hr
      · omega
      · exact hr
    obtain ⟨h0, hM, hcount, hfalse⟩ := hreg
    cases forScan with
    | true =>
      by_cases h2 : drv.usedChannels = 0
      · have hl : drv.attachedSensors.length = 0 := by omega
        have hm : modes = [] := List.length_eq_zero.1 (by omega)
        simp only [h1, h2, if_false, if_true, ne_eq, not_true_eq_false]
        refine ⟨hmax, ?_, Or.inl ⟨rfl, ?_⟩⟩
        · simp [hlen]
        · simp [hm]
      · simp only [h1, h2, if_false, if_true, ne_eq, not_false_eq_true, Bool.false_eq_true]
        exact ⟨hmax, hlen, Or.inr ⟨h0, hM, hcount, hfalse⟩⟩
    | false =>
      by_cases h2 : drv.MaxChannels ≤ drv.usedChannels
      · simp only [h1, h2, if_false, if_true, Bool.false_eq_true]
        exact ⟨hmax, hlen, Or.inr ⟨h0, hM, hcount, hfalse⟩⟩
      · simp only [h1, h2, if_false, Bool.false_eq_true, if_true]
        refine ⟨hmax, by simp [hlen], Or.inr ⟨?_, ?_, ?_, ?_⟩⟩
        · show 0 ≤ drv.usedChannels + 1
          omega
        · show drv.usedChannels + 1 ≤ (M : Int)
          omega
        · show drv.usedChannels + 1 = ((drv.attachedSensors ++ [sensor]).length : Int)
          simp; omega
        · intro m hm
          rcases List.mem_append.1 hm with hm | hm
          · exact hfalse m hm
          · simpa using hm

theorem swapRemove_length (l : List Bool) (idx : Nat) :
    (swapRemove l idx).length = l.length - 1 := by
  simp [swapRemove]

theorem swapRemove_false (l : List Bool) (idx : Nat) (h : ∀ m ∈ l, m = false) :
    ∀ m ∈ swapRemove l idx, m = false := by
  have hget : ∀ n, l.getD n false = false := by
    intro n
    rw [List.getD_eq_getElem?_getD]
    cases hg : l[n]? with
    | none => rfl
    | some v => exact h v (List.mem_iff_getElem?.2 ⟨n, hg⟩)
  intro m hm
  unfold swapRemove at hm
  have hm1 := List.mem_of_mem_take hm
  rcases List.mem_or_eq_of_mem_set hm1 with hm2 | hm2
  · rcases List.mem_or_eq_of_mem_set hm2 with hm3 | hm3
    · exact h m hm3
    · rw [hm3]; exact hget _
  · rw [hm2]; exact hget _

theorem detach_allocated (M : Nat) (drv : USBDriver) (modes : List Bool) (sensor : Nat)
    (h : drv.allocated M modes) :
    (drv.detach sensor).1.allocated M
      (if (drv.detach sensor).2 = true then
        swapRemove modes (USBDriver.detachIdx drv.attachedSensors sensor 0 (-1)).toNat
       else modes) := by
  obtain ⟨hmax, hlen, hcase⟩ := h
  have hrange := detachIdx_range drv.attachedSensors sensor 0 (-1)
  unfold USBDriver.detach
  by_cases hidx : USBDriver.detachIdx drv.attachedSensors sensor 0 (-1) < 0
  · simp only [hidx, if_true, Bool.false_eq_true, if_false]
    exact ⟨hmax, hlen, hcase⟩
  · have hpos : 0 < drv.attachedSensors.length := by
      rcases hrange with h1 | ⟨_, h2⟩
      · omega
      · simp only [Nat.zero_add] at h2
        omega
    simp only [hidx, if_false, if_true]
    refine ⟨hmax, ?_, Or.inr ?_⟩
    · rw [swapRemove_length]
      simp [hlen]
    · rcases hcase with ⟨hu, hm⟩ | ⟨h0, hM, hcount, hfalse⟩
      · have hl : drv.attachedSensors.length = 1 := by
          rw [← hlen, hm]; rfl
        have hneg : drv.usedChannels < 0 := by omega
        refine ⟨?_, ?_, ?_, ?_⟩
        · simp [hneg]
        · simp [hneg]
        · simp [hneg, hl]
        · intro m hmem
          have hz : (swapRemove modes
              (USBDriver.detachIdx drv.attachedSensors sensor 0 (-1)).toNat).length = 0 := by
            rw [swapRemove_length, hlen, hl]
          rw [List.length_eq_zero.1 hz] at hmem
          simp at hmem
      · have hneg : ¬ drv.usedChannels < 0 := by omega
        refine ⟨?_, ?_, ?_, swapRemove_false modes _ hfalse⟩
        · simp only [hneg, if_false]; omega
        · simp only [hneg, if_false]; omega
        · simp only [hneg, if_false, List.length_take, List.length_set]
          omega

theorem calls_allocated (M : Nat) (calls : List DriverCall) :
    ∀ (drv : USBDriver) (modes : List Bool), drv.allocated M modes →
      (drv.calls modes calls).1.allocated M (drv.calls modes calls).2 := by
  induction calls with
  | nil => intro drv modes h; exact h
  | cons c rest ih =>
    intro drv modes h
    cases c with
    | attach sensor forScan =>
      exact ih _ _ (attach_allocated M drv modes sensor forScan h)
    | detach sensor =>
      exact ih _ _ (detach_allocated M drv modes sensor h)

/-! ## Allocation invariant: claims -/

/-- C11: with `MaxChannels = M` fixed, after every sequence of driver `attach` and
`detach` calls from `usedChannels = 0` with nothing attached, `usedChannels` is
-1 or lies in `0..M`; it is -1 exactly when the attached list is a single
entry that was attached for scanning, and otherwise it is the number of
attached entries. -/
theorem usedChannels_invariant (M : Nat) (drv : USBDriver) (calls : List DriverCall)
    (hused : drv.usedChannels = 0) (hnone : drv.attachedSensors = [])
    (hmax : drv.MaxChannels = (M : Int)) :
    ((drv.calls [] calls).1.usedChannels = -1 ∨
      (0 ≤ (drv.calls [] calls).1.usedChannels ∧
        (drv.calls [] calls).1.usedChannels ≤ (M : Int))) ∧
    ((drv.calls [] calls).1.usedChannels = -1 ↔ (drv.calls [] calls).2 = [true]) ∧
    ((drv.calls [] calls).1.usedChannels ≠ -1 →
      (drv.calls [] calls).1.usedChannels =
        ((drv.calls [] calls).1.attachedSensors.length : Int) ∧
      ∀ m ∈ (drv.calls [] calls).2, m = false) ∧
    (drv.calls [] calls).2.length = (drv.calls [] calls).1.attachedSensors.length ∧
    (drv.calls [] calls).1.MaxChannels = (M : Int) := by
  have h0 : drv.allocated M [] := by
    refine ⟨hmax, by simp [hnone], Or.inr ⟨by omega, by omega, by simp [hused, hnone], ?_⟩⟩
    intro m hm
    simp at hm
  obtain ⟨h1, h2, h3⟩ := calls_allocated M calls drv [] h0
  refine ⟨?_, ?_, ?_, h2, h1⟩
  · rcases h3 with ⟨hu, _⟩ | ⟨ha, hb, _, _⟩
    · exact Or.inl hu
    · exact Or.inr ⟨ha, hb⟩
  · constructor
    · intro hu
      rcases h3 with ⟨_, hm⟩ | ⟨ha, _, _, _⟩
      · exact hm
      · omega
    · intro hm
      rcases h3 with ⟨hu, _⟩ | ⟨_, _, _, hf⟩
      · exact hu
      · have := hf true (by rw [hm]; simp)
        simp at this
  · intro hu
    rcases h3 with ⟨hu2, _⟩ | ⟨_, _, hc, hf⟩
    · exact absurd hu2 hu
    · exact ⟨hc, hf⟩

/-- C11 on a stick with 2 channels: a scan attach, a refused regular attach, the
detach of the scanner, two regular attaches and a refused third. -/
theorem usedChannels_invariant_witness :
    (USBDriver.calls { usedChannels := 0, attachedSensors := [], startupCallbacks := [],
                       MaxChannels := 2, CanScan := true } []
      [.attach 1 true, .attach 2 false, .detach 1, .attach 3 false, .attach 4 false,
       .attach 5 false]).2.length =
    (USBDriver.calls { usedChannels := 0, attachedSensors := [], startupCallbacks := [],
                       MaxChannels := 2, CanScan := true } []
      [.attach 1 true, .attach 2 false, .detach 1, .attach 3 false, .attach 4 false,
       .attach 5 false]).1.attachedSensors.length :=
  (usedChannels_invariant 2 { usedChannels := 0, attachedSensors := [], startupCallbacks := [],
                              MaxChannels := 2, CanScan := true }
    [.attach 1 true, .attach 2 false, .detach 1, .attach 3 false, .attach 4 false,
     .attach 5 false] rfl rfl rfl).2.2.2.1

/-! ## Detaching all sensors -/

theorem swap_take (arr a : List Nat) (i x y : Nat) (h : arr.take a.length = a) :
    ((arr.set i x).set (a.length - 1) y).take (a.length - 1) =
      ((a.set i x).set (a.length - 1) y).take (a.length - 1) := by
  have e : (a.set i x).set (a.length - 1) y =
      ((arr.set i x).set (a.length - 1) y).take a.length := by
    rw [List.set_take, List.set_take, h]
  rw [e, List.take_take]
  congr 1
  omega

/-- The backing array tracked by `detachArray` agrees with `detach`: when the
attached list is the first part of the array before the call, the attached
list after the call is the first part of the array after it. -/
theorem detachArray_take (drv : USBDriver) (arr : List Nat) (sensor : Nat)
    (h : arr.take drv.attachedSensors.length = drv.attachedSensors) :
    (drv.detachArray arr sensor).take (drv.detach sensor).1.attachedSensors.length =
      (drv.detach sensor).1.attachedSensors := by
  unfold USBDriver.detachArray USBDriver.detach
  by_cases hidx : USBDriver.detachIdx drv.attachedSensors sensor 0 (-1) < 0
  · simp only [hidx, if_true]
    exact h
  · simp only [hidx, if_false, List.length_take, List.length_set]
    have hmin : min (drv.attachedSensors.length - 1) drv.attachedSensors.length =
        drv.attachedSensors.length - 1 := by omega
    rw [hmin]
    exact swap_take arr drv.attachedSensors _ _ _ h

/-- C12: `detachAll` does not detach every sensor.  With sensors 0 and 1
attached on channels 0 and 1, the loop detaches sensor 0, which moves sensor 1
to index 0 of the array, and then reads index 1, where sensor 0 still is:
CloseChannel(0) is written twice, no CloseChannel(1) is written, and sensor 1
stays attached with `usedChannels = 1`. -/
theorem detachAll_leaves_sensor :
    (World.detachAll
        { drv := { usedChannels := 2, attachedSensors := [0, 1], startupCallbacks := [],
                   MaxChannels := 8, CanScan := true },
          sensors := [{ channel := some 0, deviceID := 0, transmissionType := 0,
                        messageQueue := [], decodeDataCallback := none,
                        statusCallback := none },
                      { channel := some 1, deviceID := 0, transmissionType := 0,
                        messageQueue := [], decodeDataCallback := none,
                        statusCallback := none }],
          trace := [] }).map
      (fun w => (w.drv.attachedSensors, w.drv.usedChannels, w.trace)) =
      some ([1], 1,
        [Event.write [0xA4, 0x01, 0x4C, 0x00, 0xE9], Event.write [0xA4, 0x01, 0x4C, 0x00, 0xE9]]) ∧
    closeChannel 0 = some [0xA4, 0x01, 0x4C, 0x00, 0xE9] ∧
    closeChannel 1 = some [0xA4, 0x01, 0x4C, 0x01, 0xE8] := by
  decide

/-! ## Driver-level frames: claims -/

/-- C13: for a frame whose id byte is 0x6F (StartUp), `drv.read` writes the one
message `A4 02 4D 00 54 BF` (RequestMessage for channel 0 asking for
Capabilities; 0xBF is the XOR of the five bytes before it) and leaves the
driver fields and every sensor as they were. -/
theorem read_startup (w : World) (data : List Nat) (hid : data[2]? = some 0x6F) :
    USBDriver.read w data =
      some { drv := w.drv, sensors := w.sensors,
             trace := w.trace ++ [Event.write [0xA4, 0x02, 0x4D, 0x00, 0x54, 0xBF]] } ∧
    xorAll [0xA4, 0x02, 0x4D, 0x00, 0x54] = 0xBF ∧
    requestMessage 0 MessageCapabilities = some [0xA4, 0x02, 0x4D, 0x00, 0x54, 0xBF] := by
  have hreq : requestMessage 0 MessageCapabilities = some [0xA4, 0x02, 0x4D, 0x00, 0x54, 0xBF] := by
    decide
  refine ⟨?_, by decide, hreq⟩
  unfold USBDriver.read
  simp [hid, MessageStartup, hreq, World.write]

/-- C13 at the frame `A4 01 6F 20 EA` on a driver with nothing attached. -/
theorem read_startup_witness :
    USBDriver.read
        { drv := { usedChannels := 0, attachedSensors := [], startupCallbacks := [],
                   MaxChannels := 0, CanScan := false },
          sensors := [], trace := [] }
        [0xA4, 0x01, 0x6F, 0x20, 0xEA] =
      some { drv := { usedChannels := 0, attachedSensors := [], startupCallbacks := [],
                      MaxChannels := 0, CanScan := false },
             sensors := [],
             trace := [] ++ [Event.write [0xA4, 0x02, 0x4D, 0x00, 0x54, 0xBF]] } :=
  (read_startup _ [0xA4, 0x01, 0x6F, 0x20, 0xEA] rfl).1

/-- C14: for a Capabilities frame (id 0x54) that has its bytes 3 and 7
(payload[0] and payload[4]), `drv.read` sets `MaxChannels = payload[0]` and
`CanScan = ((payload[4] & 0x06) == 0x06)`, changes nothing else, and writes the
one message SetNetworkKey, id 0x46 with payload `00 B9 A5 21 FB BD 72 C3 45`;
the frame `A4 08 54 08 00 02 06 06 00 00 00 F2` gives `MaxChannels = 8` and
`CanScan = true`. -/
theorem read_capabilities (w : World) (data : List Nat) (maxChannels flags : Nat)
    (hid : data[2]? = some 0x54) (h3 : data[3]? = some maxChannels)
    (h7 : data[7]? = some flags) :
    USBDriver.read w data =
      some { drv := { usedChannels := w.drv.usedChannels,
                      attachedSensors := w.drv.attachedSensors,
                      startupCallbacks := w.drv.startupCallbacks,
                      MaxChannels := (maxChannels : Int),
                      CanScan := (flags &&& 0x06) == 0x06 },
             sensors := w.sensors,
             trace := w.trace ++
               [Event.write (buildMessage [0x00, 0xB9, 0xA5, 0x21, 0xFB, 0xBD, 0x72, 0xC3, 0x45]
                 0x46)] } ∧
    buildMessage [0x00, 0xB9, 0xA5, 0x21, 0xFB, 0xBD, 0x72, 0xC3, 0x45] 0x46 =
      [0xA4, 0x09, 0x46, 0x00, 0xB9, 0xA5, 0x21, 0xFB, 0xBD, 0x72, 0xC3, 0x45, 0x64] ∧
    (USBDriver.read w
        [0xA4, 0x08, 0x54, 0x08, 0x00, 0x02, 0x06, 0x06, 0x00, 0x00, 0x00, 0xF2]).map
      (fun w1 => (w1.drv.MaxChannels, w1.drv.CanScan)) = some (8, true) := by
  refine ⟨?_, by decide, ?_⟩
  · unfold USBDriver.read
    simp [hid, h3, h7, MessageStartup, MessageCapabilities, World.write, setNetworkKey,
      DefaultNetworkNumber, MessageNetworkKey]
  · unfold USBDriver.read
    simp [MessageStartup, MessageCapabilities, World.write]

/-- C14 at the frame `A4 08 54 08 00 02 06 06 00 00 00 F2`. -/
theorem read_capabilities_witness :
    USBDriver.read
        { drv := { usedChannels := 0, attachedSensors := [], startupCallbacks := [],
                   MaxChannels := 0, CanScan := false },
          sensors := [], trace := [] }
        [0xA4, 0x08, 0x54, 0x08, 0x00, 0x02, 0x06, 0x06, 0x00, 0x00, 0x00, 0xF2] =
      some { drv := { usedChannels := 0, attachedSensors := [], startupCallbacks := [],
                      MaxChannels := ((0x08 : Nat) : Int),
                      CanScan := ((0x06 : Nat) &&& 0x06) == 0x06 },
             sensors := [],
             trace := [] ++
               [Event.write (buildMessage [0x00, 0xB9, 0xA5, 0x21, 0xFB, 0xBD, 0x72, 0xC3, 0x45]
                 0x46)] } :=
  (read_capabilities _ [0xA4, 0x08, 0x54, 0x08, 0x00, 0x02, 0x06, 0x06, 0x00, 0x00, 0x00, 0xF2]
    0x08 0x06 rfl rfl rfl).1

/-! ## Channel session: lemmas -/

theorem intToLEHexArray_one (num : Nat) : intToLEHexArray num 1 = some [num % 256] := by
  simp [intToLEHexArray]

theorem intToLEHexArray_two (num : Nat) :
    intToLEHexArray num 2 = some [num % 256, num / 256 % 256] := by
  simp [intToLEHexArray]

theorem setDevice_eq (channel deviceID deviceType transmissionType : Nat) :
    setDevice channel deviceID deviceType transmissionType =
      some (buildMessage [channel % 256, deviceID % 256, deviceID / 256 % 256,
        deviceType % 256, transmissionType % 256] 0x51) := by
  simp [setDevice, intToLEHexArray_one, intToLEHexArray_two, MessageChannelID]

theorem searchChannel_eq (channel timeout : Nat) :
    searchChannel channel timeout = some (buildMessage [channel % 256, timeout % 256] 0x44) := by
  simp [searchChannel, intToLEHexArray_one, MessageChannelSearchTimeout]

theorem setFrequency_eq (channel frequency : Nat) :
    setFrequency channel frequency =
      some (buildMessage [channel % 256, frequency % 256] 0x45) := by
  simp [setFrequency, intToLEHexArray_one, MessageChannelFrequency]

theorem setPeriod_eq (channel period : Nat) :
    setPeriod channel period = some (buildMessage [channel % 256, period % 256] 0x43) := by
  simp [setPeriod, intToLEHexArray_one, MessageChannelPeriod]

theorem libConfig_eq (channel how : Nat) :
    libConfig channel how = some (buildMessage [channel % 256, how % 256] 0x6E) := by
  simp [libConfig, intToLEHexArray_one, MessageLibConfig]

theorem openChannel_eq (channel : Nat) :
    openChannel channel = some (buildMessage [channel % 256] 0x4B) := by
  simp [openChannel, intToLEHexArray_one, MessageChannelOpen]

theorem unassignChannel_eq (channel : Nat) :
    unassignChannel channel = some (buildMessage [channel % 256] 0x41) := by
  simp [unassignChannel, intToLEHexArray_one, MessageChannelUnassign]

theorem assignChannel_id (channel : Nat) (channelType : String) (m : List Nat)
    (h : assignChannel channel channelType = some m) :
    m[2]? = some 0x42 ∧ m[3]? = some (channel % 256) := by
  unfold assignChannel at h
  simp only [intToLEHexArray_one, Option.bind_eq_bind, Option.some_bind] at h
  split_ifs at h
  all_goals first
    | (simp only [Option.some_bind, Option.pure_def, Option.some.injEq] at h
       subst h
       simp [buildMessage, MessageChannelAssign])
    | simp at h

theorem channelEvent_bytes (channel msg code : Nat) :
    (channelEvent channel msg code)[2]? = some 0x40 ∧
    (channelEvent channel msg code)[3]? = some channel ∧
    (channelEvent channel msg code)[4]? = some msg ∧
    (channelEvent channel msg code)[5]? = some code := by
  simp [channelEvent, buildMessage, MessageChannelEvent]

/-- A ChannelEvent frame for the sensor's channel byte goes to the status
callback with `(msg, code)`. -/
theorem handle_channelEvent (s : BaseSensor) (own msg code : Nat) (cb : StatusCallback)
    (hown : s.channel = some own) (hcb : s.statusCallback = some cb) :
    s.handleEventMessages (channelEvent (byte own) msg code) =
      (cb.call s msg code).bind fun r =>
        some (r.sensor,
          if r.handled = true then r.events
          else r.events ++ [Event.unhandled (channelEvent (byte own) msg code)]) := by
  obtain ⟨h2, h3, h4, h5⟩ := channelEvent_bytes (byte own) msg code
  have h5b : (channelEvent (byte own) msg code)[4 + 1]? = some code := h5
  unfold BaseSensor.handleEventMessages
  simp only [BufferIndexMessageType, BufferIndexChannelNumber, BufferIndexMessageData, h2, h3,
    h4, h5b, hown, hcb, Option.bind_eq_bind, Option.some_bind, if_true, MessageChannelEvent]
  cases hr : cb.call s msg code with
  | none => rfl
  | some r =>
    cases hh : r.handled <;> simp [hh]

theorem attach_call_steps (s : BaseSensor)
    (channel deviceID deviceType timeout period frequency transmissionType code : Nat) :
    (StatusCallback.attach channel deviceID deviceType timeout period frequency
        transmissionType).call s 0x42 code =
      some { sensor := s,
             events := [Event.write (buildMessage [channel % 256, deviceID % 256,
               deviceID / 256 % 256, deviceType % 256, transmissionType % 256] 0x51)],
             handled := true } ∧
    (StatusCallback.attach channel deviceID deviceType timeout period frequency
        transmissionType).call s 0x51 code =
      some { sensor := s,
             events := [Event.write (buildMessage [channel % 256, timeout % 256] 0x44)],
             handled := true } ∧
    (StatusCallback.attach channel deviceID deviceType timeout period frequency
        transmissionType).call s 0x44 code =
      some { sensor := s,
             events := [Event.write (buildMessage [channel % 256, frequency % 256] 0x45)],
             handled := true } ∧
    (StatusCallback.attach channel deviceID deviceType timeout period frequency
        transmissionType).call s 0x45 code =
      some { sensor := s,
             events := [Event.write (buildMessage [channel % 256, period % 256] 0x43)],
             handled := true } ∧
    (StatusCallback.attach channel deviceID deviceType timeout period frequency
        transmissionType).call s 0x43 code =
      some { sensor := s,
             events := [Event.write (buildMessage [channel % 256, 0xE0] 0x6E)],
             handled := true } ∧
    (StatusCallback.attach channel deviceID deviceType timeout period frequency
        transmissionType).call s 0x6E code =
      some { sensor := s,
             events := [Event.write (buildMessage [channel % 256] 0x4B)],
             handled := true } ∧
    (StatusCallback.attach channel deviceID deviceType timeout period frequency
        transmissionType).call s 0x4B code =
      some { sensor := s, events := [], handled := true } := by
  refine ⟨?_, ?_, ?_, ?_, ?_, ?_, ?_⟩ <;>
    simp [StatusCallback.call, BaseSensor.writeHandled, MessageRF, MessageChannelAssign,
      MessageChannelID, MessageChannelSearchTimeout, MessageChannelFrequency,
      MessageChannelPeriod, MessageLibConfig, MessageChannelOpen, setDevice_eq,
      searchChannel_eq, setFrequency_eq, setPeriod_eq, libConfig_eq, openChannel_eq]

theorem attach_call_close (s : BaseSensor)
    (channel deviceID deviceType timeout period frequency transmissionType code : Nat) :
    (StatusCallback.attach channel deviceID deviceType timeout period frequency
        transmissionType).call s 0x01 0x07 =
      some { sensor := s,
             events := [Event.write (buildMessage [channel % 256] 0x41)],
             handled := true } ∧
    (StatusCallback.attach channel deviceID deviceType timeout period frequency
        transmissionType).call s 0x01 0x08 =
      some { sensor := s,
             events := [Event.write (buildMessage [channel % 256] 0x41)],
             handled := true } ∧
    (StatusCallback.attach channel deviceID deviceType timeout period frequency
        transmissionType).call s 0x41 code =
      some { sensor := { s with statusCallback := none, channel := none },
             events := [], handled := true } := by
  refine ⟨?_, ?_, ?_⟩ <;>
    simp [StatusCallback.call, BaseSensor.writeHandled, MessageRF, MessageChannelAssign,
      MessageChannelID, MessageChannelSearchTimeout, MessageChannelFrequency,
      MessageChannelPeriod, MessageLibConfig, MessageChannelOpen, MessageChannelClose,
      MessageChannelUnassign, EventChannelClosed, EventRXFailGoToSearch, unassignChannel_eq]

theorem scan_call_steps (s : BaseSensor) (frequency code : Nat) :
    (StatusCallback.scan frequency).call s 0x42 code =
      some { sensor := s,
             events := [Event.write (buildMessage [0, 0, 0, 0, 0] 0x51)],
             handled := true } ∧
    (StatusCallback.scan frequency).call s 0x51 code =
      some { sensor := s,
             events := [Event.write (buildMessage [0, frequency % 256] 0x45)],
             handled := true } ∧
    (StatusCallback.scan frequency).call s 0x45 code =
      some { sensor := s,
             events := [Event.write (buildMessage [0, 1] 0x66)],
             handled := true } ∧
    (StatusCallback.scan frequency).call s 0x66 code =
      some { sensor := s,
             events := [Event.write (buildMessage [0, 0xE0] 0x6E)],
             handled := true } ∧
    (StatusCallback.scan frequency).call s 0x6E code =
      some { sensor := s,
             events := [Event.write (buildMessage [0, 1] 0x5B)],
             handled := true } ∧
    (StatusCallback.scan frequency).call s 0x5B code =
      some { sensor := s, events := [], handled := true } := by
  refine ⟨?_, ?_, ?_, ?_, ?_, ?_⟩ <;>
    simp [StatusCallback.call, BaseSensor.writeHandled, MessageRF, MessageChannelAssign,
      MessageChannelID, MessageChannelFrequency, MessageEnableRXExt, MessageLibConfig,
      MessageChannelOpenRXScan, setDevice_eq, setFrequency_eq, libConfig_eq, setRxExt,
      openRXScan, intToLEHexArray_one]

theorem feed_cons (s s1 : BaseSensor) (data : List Nat) (rest : List (List Nat))
    (e1 : List Event) (h : s.handleEventMessages data = some (s1, e1)) :
    s.feed (data :: rest) = (s1.feed rest).bind fun r => some (r.1, e1 ++ r.2) := by
  simp only [BaseSensor.feed, h, Option.bind_eq_bind, Option.some_bind]

theorem handle_of_call (s s1 : BaseSensor) (own msg code : Nat) (cb : StatusCallback)
    (events : List Event) (hown : s.channel = some own) (hcb : s.statusCallback = some cb)
    (h : cb.call s msg code = some { sensor := s1, events := events, handled := true }) :
    s.handleEventMessages (channelEvent (byte own) msg code) = some (s1, events) := by
  rw [handle_channelEvent s own msg code cb hown hcb, h]
  rfl

theorem attach_feed (s : BaseSensor)
    (channel deviceID deviceType timeout period frequency transmissionType : Nat)
    (hown : s.channel = some channel)
    (hcb : s.statusCallback = some (StatusCallback.attach channel deviceID deviceType timeout
      period frequency transmissionType)) :
    s.feed [channelEvent (byte channel) 0x42 0, channelEvent (byte channel) 0x51 0,
            channelEvent (byte channel) 0x44 0, channelEvent (byte channel) 0x45 0,
            channelEvent (byte channel) 0x43 0, channelEvent (byte channel) 0x6E 0,
            channelEvent (byte channel) 0x4B 0] =
      some (s,
        [Event.write (buildMessage [channel % 256, deviceID % 256, deviceID / 256 % 256,
           deviceType % 256, transmissionType % 256] 0x51),
         Event.write (buildMessage [channel % 256, timeout % 256] 0x44),
         Event.write (buildMessage [channel % 256, frequency % 256] 0x45),
         Event.write (buildMessage [channel % 256, period % 256] 0x43),
         Event.write (buildMessage [channel % 256, 0xE0] 0x6E),
         Event.write (buildMessage [channel % 256] 0x4B)]) := by
  obtain ⟨h1, h2, h3, h4, h5, h6, h7⟩ := attach_call_steps s channel deviceID deviceType
    timeout period frequency transmissionType 0
  rw [feed_cons _ _ _ _ _ (handle_of_call s s channel _ _ _ _ hown hcb h1),
    feed_cons _ _ _ _ _ (handle_of_call s s channel _ _ _ _ hown hcb h2),
    feed_cons _ _ _ _ _ (handle_of_call s s channel _ _ _ _ hown hcb h3),
    feed_cons _ _ _ _ _ (handle_of_call s s channel _ _ _ _ hown hcb h4),
    feed_cons _ _ _ _ _ (handle_of_call s s channel _ _ _ _ hown hcb h5),
    feed_cons _ _ _ _ _ (handle_of_call s s channel _ _ _ _ hown hcb h6),
    feed_cons _ _ _ _ _ (handle_of_call s s channel _ _ _ _ hown hcb h7)]
  rfl

theorem scan_feed (s : BaseSensor) (frequency : Nat) (hown : s.channel = some 0)
    (hcb : s.statusCallback = some (StatusCallback.scan frequency)) :
    s.feed [channelEvent 0 0x42 0, channelEvent 0 0x51 0, channelEvent 0 0x45 0,
            channelEvent 0 0x66 0, channelEvent 0 0x6E 0, channelEvent 0 0x5B 0] =
      some (s,
        [Event.write (buildMessage [0, 0, 0, 0, 0] 0x51),
         Event.write (buildMessage [0, frequency % 256] 0x45),
         Event.write (buildMessage [0, 1] 0x66),
         Event.write (buildMessage [0, 0xE0] 0x6E),
         Event.write (buildMessage [0, 1] 0x5B)]) := by
  obtain ⟨h1, h2, h3, h4, h5, h6⟩ := scan_call_steps s frequency 0
  have hb : byte 0 = 0 := rfl
  rw [feed_cons _ _ _ _ _ (hb ▸ handle_of_call s s 0 _ _ _ _ hown hcb h1),
    feed_cons _ _ _ _ _ (hb ▸ handle_of_call s s 0 _ _ _ _ hown hcb h2),
    feed_cons _ _ _ _ _ (hb ▸ handle_of_call s s 0 _ _ _ _ hown hcb h3),
    feed_cons _ _ _ _ _ (hb ▸ handle_of_call s s 0 _ _ _ _ hown hcb h4),
    feed_cons _ _ _ _ _ (hb ▸ handle_of_call s s 0 _ _ _ _ hown hcb h5),
    feed_cons _ _ _ _ _ (hb ▸ handle_of_call s s 0 _ _ _ _ hown hcb h6)]
  rfl

/-! ## Channel session: claims -/

/-- C15: `BaseSensor.attach` on a sensor without channel, with a free channel on
the driver and a valid channel type, returns nil, writes the AssignChannel
message (id 0x42) and leaves the sensor on the given channel; the ChannelEvents
(0x42,0), (0x51,0), (0x44,0), (0x45,0), (0x43,0), (0x6E,0), (0x4B,0) for the
sensor's channel byte then make it write the messages with ids 0x51, 0x44,
0x45, 0x43, 0x6E, 0x4B, in this order and nothing else (no event is logged as
unhandled), and the sensor is still on the channel afterwards. -/
theorem attach_cascade (w : World) (p : Nat) (s : BaseSensor)
    (channel deviceID deviceType timeout period frequency transmissionType : Nat)
    (channelType : String) (m : List Nat)
    (hs : w.sensors[p]? = some s) (hnil : s.channel = none)
    (hfree : 0 ≤ w.drv.usedChannels ∧ w.drv.usedChannels < w.drv.MaxChannels)
    (htype : assignChannel channel channelType = some m) :
    ∃ w1 s1,
      w.attach p channel deviceID deviceType timeout period frequency transmissionType
        channelType = some (w1, true) ∧
      w1.trace = w.trace ++ [Event.write m] ∧ m[2]? = some 0x42 ∧
      w1.sensors[p]? = some s1 ∧ s1.channel = some channel ∧
      s1.feed [channelEvent (byte channel) 0x42 0, channelEvent (byte channel) 0x51 0,
               channelEvent (byte channel) 0x44 0, channelEvent (byte channel) 0x45 0,
               channelEvent (byte channel) 0x43 0, channelEvent (byte channel) 0x6E 0,
               channelEvent (byte channel) 0x4B 0] =
        some (s1,
          [Event.write (buildMessage [channel % 256, deviceID % 256, deviceID / 256 % 256,
             deviceType % 256, transmissionType % 256] 0x51),
           Event.write (buildMessage [channel % 256, timeout % 256] 0x44),
           Event.write (buildMessage [channel % 256, frequency % 256] 0x45),
           Event.write (buildMessage [channel % 256, period % 256] 0x43),
           Event.write (buildMessage [channel % 256, 0xE0] 0x6E),
           Event.write (buildMessage [channel % 256] 0x4B)]) := by
  have hp : p < w.sensors.length := (List.getElem?_eq_some_iff.1 hs).1
  have h1 : ¬ w.drv.usedChannels < 0 := by omega
  have h2 : ¬ w.drv.MaxChannels ≤ w.drv.usedChannels := by omega
  refine ⟨{ drv := (w.drv.attach p false).1,
            sensors := w.sensors.set p
              { s with channel := some channel, deviceID := deviceID,
                       transmissionType := transmissionType,
                       statusCallback := some (StatusCallback.attach channel deviceID
                         deviceType timeout period frequency transmissionType) },
            trace := w.trace ++ [Event.write m] },
          { s with channel := some channel, deviceID := deviceID,
                   transmissionType := transmissionType,
                   statusCallback := some (StatusCallback.attach channel deviceID
                     deviceType timeout period frequency transmissionType) },
          ?_, rfl, (assignChannel_id channel channelType m htype).1, ?_, rfl, ?_⟩
  · unfold World.attach
    simp [hs, hnil, USBDriver.attach, h1, h2, htype, World.write]
  · exact List.getElem?_set_self hp
  · exact attach_feed _ channel deviceID deviceType timeout period frequency
      transmissionType rfl rfl

/-- C15 for a fresh sensor attached on channel 1 of a stick with 8 channels. -/
theorem attach_cascade_witness :
    ∃ w1 s1,
      World.attach
          { drv := { usedChannels := 0, attachedSensors := [], startupCallbacks := [],
                     MaxChannels := 8, CanScan := true },
            sensors := [{ channel := none, deviceID := 0, transmissionType := 0,
                          messageQueue := [], decodeDataCallback := none,
                          statusCallback := none }],
            trace := [] }
          0 1 0x1234 120 30 8070 57 1 "receive" = some (w1, true) ∧
      w1.trace = [] ++ [Event.write [0xA4, 0x03, 0x42, 0x01, 0x00, 0x00, 0xE4]] ∧
      ([0xA4, 0x03, 0x42, 0x01, 0x00, 0x00, 0xE4] : List Nat)[2]? = some 0x42 ∧
      w1.sensors[0]? = some s1 ∧ s1.channel = some 1 ∧
      s1.feed [channelEvent (byte 1) 0x42 0, channelEvent (byte 1) 0x51 0,
               channelEvent (byte 1) 0x44 0, channelEvent (byte 1) 0x45 0,
               channelEvent (byte 1) 0x43 0, channelEvent (byte 1) 0x6E 0,
               channelEvent (byte 1) 0x4B 0] =
        some (s1,
          [Event.write (buildMessage [1 % 256, 0x1234 % 256, 0x1234 / 256 % 256,
             120 % 256, 1 % 256] 0x51),
           Event.write (buildMessage [1 % 256, 30 % 256] 0x44),
           Event.write (buildMessage [1 % 256, 57 % 256] 0x45),
           Event.write (buildMessage [1 % 256, 8070 % 256] 0x43),
           Event.write (buildMessage [1 % 256, 0xE0] 0x6E),
           Event.write (buildMessage [1 % 256] 0x4B)]) :=
  attach_cascade _ 0 _ 1 0x1234 120 30 8070 57 1 "receive" _ rfl rfl (by decide) (by decide)

/-- C16 as stated fails: the response code is not looked at.  A ChannelEvent
(AssignChannel 0x42, code 0x15) makes the sensor write the ChannelID message
all the same. -/
theorem cascade_continues_on_error :
    BaseSensor.handleEventMessages
        { channel := some 0, deviceID := 0x1234, transmissionType := 1, messageQueue := [],
          decodeDataCallback := none,
          statusCallback := some (StatusCallback.attach 0 0x1234 120 30 8070 57 1) }
        [0xA4, 0x03, 0x40, 0x00, 0x42, 0x15, 0xB0] =
      some ({ channel := some 0, deviceID := 0x1234, transmissionType := 1, messageQueue := [],
              decodeDataCallback := none,
              statusCallback := some (StatusCallback.attach 0 0x1234 120 30 8070 57 1) },
            [Event.write [0xA4, 0x05, 0x51, 0x00, 0x34, 0x12, 0x78, 0x01, 0xAF]]) := by
  decide

/-- C16 amended: in the bring-up cascade the next configuration command is
written on the ChannelEvent for the previous command whatever its response
code: for every code, the event (0x42, code) on the sensor's channel makes the
sensor write ChannelID, (0x51, code) SearchTimeout, (0x44, code)
ChannelFrequency, (0x45, code) ChannelPeriod, (0x43, code) LibConfig and
(0x6E, code) OpenChannel, each reported handled. -/
theorem cascade_any_code (s : BaseSensor)
    (channel deviceID deviceType timeout period frequency transmissionType code : Nat)
    (hown : s.channel = some channel)
    (hcb : s.statusCallback = some (StatusCallback.attach channel deviceID deviceType timeout
      period frequency transmissionType)) :
    s.handleEventMessages (channelEvent (byte channel) 0x42 code) =
      some (s, [Event.write (buildMessage [channel % 256, deviceID % 256,
        deviceID / 256 % 256, deviceType % 256, transmissionType % 256] 0x51)]) ∧
    s.handleEventMessages (channelEvent (byte channel) 0x51 code) =
      some (s, [Event.write (buildMessage [channel % 256, timeout % 256] 0x44)]) ∧
    s.handleEventMessages (channelEvent (byte channel) 0x44 code) =
      some (s, [Event.write (buildMessage [channel % 256, frequency % 256] 0x45)]) ∧
    s.handleEventMessages (channelEvent (byte channel) 0x45 code) =
      some (s, [Event.write (buildMessage [channel % 256, period % 256] 0x43)]) ∧
    s.handleEventMessages (channelEvent (byte channel) 0x43 code) =
      some (s, [Event.write (buildMessage [channel % 256, 0xE0] 0x6E)]) ∧
    s.handleEventMessages (channelEvent (byte channel) 0x6E code) =
      some (s, [Event.write (buildMessage [channel % 256] 0x4B)]) := by
  obtain ⟨h1, h2, h3, h4, h5, h6, _⟩ := attach_call_steps s channel deviceID deviceType
    timeout period frequency transmissionType code
  exact ⟨handle_of_call s s channel _ _ _ _ hown hcb h1,
    handle_of_call s s channel _ _ _ _ hown hcb h2,
    handle_of_call s s channel _ _ _ _ hown hcb h3,
    handle_of_call s s channel _ _ _ _ hown hcb h4,
    handle_of_call s s channel _ _ _ _ hown hcb h5,
    handle_of_call s s channel _ _ _ _ hown hcb h6⟩

/-- C16 amended, for a sensor on channel 0 and the code 0x15 on AssignChannel. -/
theorem cascade_any_code_witness :
    BaseSensor.handleEventMessages
        { channel := some 0, deviceID := 0x1234, transmissionType := 1, messageQueue := [],
          decodeDataCallback := none,
          statusCallback := some (StatusCallback.attach 0 0x1234 120 30 8070 57 1) }
        (channelEvent (byte 0) 0x42 0x15) =
      some ({ channel := some 0, deviceID := 0x1234, transmissionType := 1, messageQueue := [],
              decodeDataCallback := none,
              statusCallback := some (StatusCallback.attach 0 0x1234 120 30 8070 57 1) },
            [Event.write (buildMessage [0 % 256, 0x1234 % 256, 0x1234 / 256 % 256, 120 % 256,
              1 % 256] 0x51)]) :=
  (cascade_any_code _ 0 0x1234 120 30 8070 57 1 0x15 rfl rfl).1

/-- C17: the cascade started by `AntPlusBaseSensor.attach` does not carry the
given values.  For `attach(0, 0x1234, 120, 1, 30, 8070, "receive")`
(transmission type 1, timeout 30, period 8070) the sensor stores transmission
type 57 and writes ChannelID with transmission type 57, SearchTimeout with 1,
ChannelFrequency with 0x86 (the low byte of 8070) and ChannelPeriod with 30. -/
theorem antPlusAttach_shifts_arguments :
    (AntPlusBaseSensor.attach
        { drv := { usedChannels := 0, attachedSensors := [], startupCallbacks := [],
                   MaxChannels := 8, CanScan := true },
          sensors := [{ channel := none, deviceID := 0, transmissionType := 0,
                        messageQueue := [], decodeDataCallback := none,
                        statusCallback := none }],
          trace := [] }
        0 0 0x1234 120 1 30 8070 "receive").bind
      (fun w => (w.sensors[0]?).bind fun s =>
        (s.feed [channelEvent 0 0x42 0, channelEvent 0 0x51 0, channelEvent 0 0x44 0,
                 channelEvent 0 0x45 0]).map fun r => (s.transmissionType, r.2)) =
      some (57,
        [Event.write [0xA4, 0x05, 0x51, 0x00, 0x34, 0x12, 0x78, 57, 0x97],
         Event.write [0xA4, 0x02, 0x44, 0x00, 1, 0xE3],
         Event.write [0xA4, 0x02, 0x45, 0x00, 0x86, 0x65],
         Event.write [0xA4, 0x02, 0x43, 0x00, 30, 0xFB]]) := by
  decide

/-- C18: `BaseSensor.scan` on a sensor without channel, on a driver that can scan
and has `usedChannels = 0`, with a valid channel type, returns nil, writes
AssignChannel for channel 0 and leaves the driver scanning; the ChannelEvents
for 0x42, 0x51, 0x45, 0x66, 0x6E, 0x5B (code 0) on channel 0 then make the sensor
write ChannelID(0, 0, 0, 0), ChannelFrequency(0, frequency), EnableRxExt `00 01`,
LibConfig(0, 0xE0) and OpenRxScan `00 01`, in this order, and nothing on the
OpenRxScan event. -/
theorem scan_cascade (w : World) (p : Nat) (s : BaseSensor) (channelType : String)
    (frequency : Nat) (m : List Nat)
    (hs : w.sensors[p]? = some s) (hnil : s.channel = none)
    (hcan : w.drv.CanScan = true) (hused : w.drv.usedChannels = 0)
    (htype : assignChannel 0 channelType = some m) :
    ∃ w1 s1,
      w.scan p channelType frequency = some (w1, true) ∧
      w1.trace = w.trace ++ [Event.write m] ∧ m[2]? = some 0x42 ∧ m[3]? = some 0 ∧
      w1.drv.isScanning = true ∧
      w1.sensors[p]? = some s1 ∧ s1.channel = some 0 ∧
      s1.feed [channelEvent 0 0x42 0, channelEvent 0 0x51 0, channelEvent 0 0x45 0,
               channelEvent 0 0x66 0, channelEvent 0 0x6E 0, channelEvent 0 0x5B 0] =
        some (s1,
          [Event.write (buildMessage [0, 0, 0, 0, 0] 0x51),
           Event.write (buildMessage [0, frequency % 256] 0x45),
           Event.write (buildMessage [0, 1] 0x66),
           Event.write (buildMessage [0, 0xE0] 0x6E),
           Event.write (buildMessage [0, 1] 0x5B)]) := by
  have hp : p < w.sensors.length := (List.getElem?_eq_some_iff.1 hs).1
  refine ⟨{ drv := (w.drv.attach p true).1,
            sensors := w.sensors.set p
              { s with channel := some 0, deviceID := 0, transmissionType := 0,
                       statusCallback := some (StatusCallback.scan frequency) },
            trace := w.trace ++ [Event.write m] },
          { s with channel := some 0, deviceID := 0, transmissionType := 0,
                   statusCallback := some (StatusCallback.scan frequency) },
          ?_, rfl, (assignChannel_id 0 channelType m htype).1,
          (assignChannel_id 0 channelType m htype).2, ?_, ?_, rfl, ?_⟩
  · unfold World.scan
    simp [hs, hnil, hcan, hused, USBDriver.attach, USBDriver.isScanning, htype, World.write]
  · simp [USBDriver.attach, hused, USBDriver.isScanning]
  · exact List.getElem?_set_self hp
  · exact scan_feed _ frequency rfl rfl

/-- C18 for a fresh sensor scanning on the ANT+ frequency 57. -/
theorem scan_cascade_witness :
    ∃ w1 s1,
      World.scan
          { drv := { usedChannels := 0, attachedSensors := [], startupCallbacks := [],
                     MaxChannels := 8, CanScan := true },
            sensors := [{ channel := none, deviceID := 0, transmissionType := 0,
                          messageQueue := [], decodeDataCallback := none,
                          statusCallback := none }],
            trace := [] }
          0 "receive" 57 = some (w1, true) ∧
      w1.trace = [] ++ [Event.write [0xA4, 0x03, 0x42, 0x00, 0x00, 0x00, 0xE5]] ∧
      ([0xA4, 0x03, 0x42, 0x00, 0x00, 0x00, 0xE5] : List Nat)[2]? = some 0x42 ∧
      ([0xA4, 0x03, 0x42, 0x00, 0x00, 0x00, 0xE5] : List Nat)[3]? = some 0 ∧
      w1.drv.isScanning = true ∧
      w1.sensors[0]? = some s1 ∧ s1.channel = some 0 ∧
      s1.feed [channelEvent 0 0x42 0, channelEvent 0 0x51 0, channelEvent 0 0x45 0,
               channelEvent 0 0x66 0, channelEvent 0 0x6E 0, channelEvent 0 0x5B 0] =
        some (s1,
          [Event.write (buildMessage [0, 0, 0, 0, 0] 0x51),
           Event.write (buildMessage [0, 57 % 256] 0x45),
           Event.write (buildMessage [0, 1] 0x66),
           Event.write (buildMessage [0, 0xE0] 0x6E),
           Event.write (buildMessage [0, 1] 0x5B)]) :=
  scan_cascade _ 0 _ "receive" 57 _ rfl rfl rfl rfl (by decide)

/-- C19: for a sensor attached on a channel, the ChannelEvent (0x01, 0x07) and the
ChannelEvent (0x01, 0x08) each make it write one message, UnassignChannel (id
0x41) with the channel byte as payload, and leave the sensor, its send queue
included, as it was; the ChannelEvent (0x41, 0) after that sets the sensor's
channel (and its status callback) to nil and writes nothing. -/
theorem close_then_unassign (s : BaseSensor)
    (channel deviceID deviceType timeout period frequency transmissionType : Nat)
    (hown : s.channel = some channel)
    (hcb : s.statusCallback = some (StatusCallback.attach channel deviceID deviceType timeout
      period frequency transmissionType)) :
    s.handleEventMessages (channelEvent (byte channel) 0x01 0x07) =
      some (s, [Event.write (buildMessage [channel % 256] 0x41)]) ∧
    s.handleEventMessages (channelEvent (byte channel) 0x01 0x08) =
      some (s, [Event.write (buildMessage [channel % 256] 0x41)]) ∧
    s.handleEventMessages (channelEvent (byte channel) 0x41 0) =
      some ({ s with statusCallback := none, channel := none }, []) ∧
    s.feed [channelEvent (byte channel) 0x01 0x07, channelEvent (byte channel) 0x41 0] =
      some ({ s with statusCallback := none, channel := none },
        [Event.write (buildMessage [channel % 256] 0x41)]) := by
  obtain ⟨h1, h2, h3⟩ := attach_call_close s channel deviceID deviceType timeout period
    frequency transmissionType 0
  have e1 := handle_of_call s s channel _ _ _ _ hown hcb h1
  have e2 := handle_of_call s s channel _ _ _ _ hown hcb h2
  have e3 := handle_of_call s _ channel _ _ _ _ hown hcb h3
  refine ⟨e1, e2, e3, ?_⟩
  rw [feed_cons _ _ _ _ _ e1, feed_cons _ _ _ _ _ e3]
  rfl

/-- C19 for a sensor on channel 1 with one queued message. -/
theorem close_then_unassign_witness :
    BaseSensor.feed
        { channel := some 1, deviceID := 0x1234, transmissionType := 1,
          messageQueue := [{ msg := [0xA4, 0x01, 0x4C, 0x01, 0xE8], callback := none }],
          decodeDataCallback := none,
          statusCallback := some (StatusCallback.attach 1 0x1234 120 30 8070 57 1) }
        [channelEvent (byte 1) 0x01 0x07, channelEvent (byte 1) 0x41 0] =
      some ({ channel := none, deviceID := 0x1234, transmissionType := 1,
              messageQueue := [{ msg := [0xA4, 0x01, 0x4C, 0x01, 0xE8], callback := none }],
              decodeDataCallback := none, statusCallback := none },
            [Event.write (buildMessage [1 % 256] 0x41)]) :=
  (close_then_unassign _ 1 0x1234 120 30 8070 57 1 rfl rfl).2.2.2

/-! ## Send queue: lemmas -/

theorem writes_append (a b : List Event) : writes (a ++ b) = writes a ++ writes b := by
  induction a with
  | nil => rfl
  | cons e rest ih =>
    cases e <;> simp [writes, ih]

theorem call_transfer (cb : StatusCallback) (s : BaseSensor) (code : Nat)
    (hcode : (code == 0x05 || code == 0x06 || code == 0x02 || code == 0x31) = true) :
    cb.call s MessageRF code = s.transferEvent code := by
  have hc : code = 0x05 ∨ code = 0x06 ∨ code = 0x02 ∨ code = 0x31 := by
    simpa [Bool.or_eq_true, or_assoc] using hcode
  cases cb <;>
    rcases hc with rfl | rfl | rfl | rfl <;>
    simp [StatusCallback.call, MessageRF, EventChannelClosed, EventRXFailGoToSearch,
      EventTransferTXCompleted, EventTransferTXFailed, EventRXFailed, InvalidScanTXChannel]

theorem transferEvent_single (s : BaseSensor) (code : Nat) (x : Message)
    (hq : s.messageQueue = [x]) :
    ∃ events, s.transferEvent code =
        some { sensor := { s with messageQueue := [] }, events := events, handled := true } ∧
      writes events = [] := by
  unfold BaseSensor.transferEvent
  rw [hq]
  cases hx : x.callback with
  | none => exact ⟨[], by simp [hx], rfl⟩
  | some f =>
    exact ⟨[Event.sendCallback f (code == EventTransferTXCompleted)], by simp [hx], rfl⟩

theorem transferEvent_more (s : BaseSensor) (code : Nat) (x y : Message) (q : List Message)
    (hq : s.messageQueue = x :: y :: q) :
    ∃ events, s.transferEvent code =
        some { sensor := { s with messageQueue := y :: q }, events := events,
               handled := true } ∧
      writes events = [y.msg] := by
  unfold BaseSensor.transferEvent
  rw [hq]
  cases hx : x.callback with
  | none => exact ⟨[Event.write y.msg], by simp [hx], rfl⟩
  | some f =>
    exact ⟨[Event.sendCallback f (code == EventTransferTXCompleted)] ++ [Event.write y.msg],
      by simp [hx], rfl⟩

theorem send_queue (s : BaseSensor) (msg : Message) :
    (s.send msg).1.messageQueue = s.messageQueue ++ [msg] := by
  unfold BaseSensor.send
  simp only
  split <;> rfl

theorem send_writes (s : BaseSensor) (msg : Message) :
    writes (s.send msg).2 = if s.messageQueue = [] then [msg.msg] else [] := by
  unfold BaseSensor.send
  cases hq : s.messageQueue with
  | nil => simp [writes]
  | cons x q => simp [writes]

theorem queueCalls_from (cb : StatusCallback) (calls : List QueueCall) :
    ∀ (s : BaseSensor), queueCallsOk s.messageQueue.length calls = true →
      ∃ s1 events, s.queueCalls cb calls = some (s1, events) ∧
        s1.messageQueue = (s.messageQueue ++ submitted calls).drop (resolved calls) ∧
        writes events =
          (((s.messageQueue ++ submitted calls).take (resolved calls + 1)).drop
            (min 1 s.messageQueue.length)).map Message.msg := by
  induction calls with
  | nil =>
    intro s _
    refine ⟨s, [], rfl, by simp [submitted, resolved], ?_⟩
    cases hq : s.messageQueue with
    | nil => simp [submitted, resolved, writes]
    | cons x q => simp [submitted, resolved, writes]
  | cons c rest ih =>
    intro s hok
    cases c with
    | send msg =>
      have hok1 : queueCallsOk (s.send msg).1.messageQueue.length rest = true := by
        rw [send_queue]
        simpa [queueCallsOk] using hok
      obtain ⟨s1, ev, hrun, hqueue, hwr⟩ := ih (s.send msg).1 hok1
      rw [send_queue] at hqueue hwr
      refine ⟨s1, (s.send msg).2 ++ ev, ?_, ?_, ?_⟩
      · simp [BaseSensor.queueCalls, hrun]
      · rw [hqueue]
        simp [submitted, resolved]
      · rw [writes_append, hwr, send_writes]
        cases hq : s.messageQueue with
        | nil => simp [submitted, resolved]
        | cons x q => simp [submitted, resolved]
    | event code =>
      simp only [queueCallsOk, Bool.and_eq_true, decide_eq_true_eq] at hok
      obtain ⟨⟨hcode, hpos⟩, hrest⟩ := hok
      rw [show s.queueCalls cb (QueueCall.event code :: rest) =
        (cb.call s MessageRF code).bind (fun r =>
          (BaseSensor.queueCalls cb r.sensor rest).bind fun q =>
            some (q.1, r.events ++ q.2)) from rfl]
      rw [call_transfer cb s code hcode]
      cases hq : s.messageQueue with
      | nil => rw [hq] at hpos; simp at hpos
      | cons x q =>
        cases q with
        | nil =>
          obtain ⟨events, htr, hw⟩ := transferEvent_single s code x hq
          have hok1 : queueCallsOk
              ({ s with messageQueue := [] } : BaseSensor).messageQueue.length rest = true := by
            simpa [hq] using hrest
          obtain ⟨s1, ev, hrun, hqueue, hwr⟩ := ih { s with messageQueue := [] } hok1
          refine ⟨s1, events ++ ev, ?_, ?_, ?_⟩
          · simp [htr, hrun]
          · rw [hqueue]
            simp [submitted, resolved]
          · rw [writes_append, hw, hwr]
            simp [submitted, resolved]
        | cons y q2 =>
          obtain ⟨events, htr, hw⟩ := transferEvent_more s code x y q2 hq
          have hok1 : queueCallsOk
              ({ s with messageQueue := y :: q2 } : BaseSensor).messageQueue.length rest =
                true := by
            simpa [hq] using hrest
          obtain ⟨s1, ev, hrun, hqueue, hwr⟩ := ih { s with messageQueue := y :: q2 } hok1
          refine ⟨s1, events ++ ev, ?_, ?_, ?_⟩
          · simp [htr, hrun]
          · rw [hqueue]
            simp [submitted, resolved]
          · rw [writes_append, hw, hwr]
            simp [submitted, resolved]

theorem queueCalls_writes (cb : StatusCallback) (s : BaseSensor) (calls : List QueueCall)
    (hempty : s.messageQueue = []) (hok : queueCallsOk 0 calls = true) :
    ∃ s1 events, s.queueCalls cb calls = some (s1, events) ∧
      s1.messageQueue = (submitted calls).drop (resolved calls) ∧
      writes events = ((submitted calls).take (resolved calls + 1)).map Message.msg := by
  have hok1 : queueCallsOk s.messageQueue.length calls = true := by
    rw [hempty]; exact hok
  obtain ⟨s1, events, hrun, hqueue, hwr⟩ := queueCalls_from cb calls s hok1
  rw [hempty] at hqueue hwr
  exact ⟨s1, events, hrun, by simpa using hqueue, by simpa using hwr⟩

/-! ## Send queue: claims -/

/-- C20: on a sensor with an empty send queue, after any sequence of `send` calls
and RF events with the codes 0x05, 0x06, 0x02, 0x31, each event finding the
queue non-empty, the calls all return, the queue holds the submitted messages
that are not resolved yet, and the messages written are, in submission order,
the resolved ones and the current head (the first `resolved + 1` submitted
messages).  So `send(m1); send(m2); send(m3)` writes m1 only, the next such
event writes m2, and the one after it m3. -/
theorem send_queue_order (cb : StatusCallback) (s : BaseSensor) (calls : List QueueCall)
    (hempty : s.messageQueue = []) (hok : queueCallsOk 0 calls = true) :
    (∃ s1 events, s.queueCalls cb calls = some (s1, events) ∧
      s1.messageQueue = (submitted calls).drop (resolved calls) ∧
      writes events = ((submitted calls).take (resolved calls + 1)).map Message.msg) ∧
    (∀ (m1 m2 m3 : Message) (c1 c2 : Nat),
      (c1 == 0x05 || c1 == 0x06 || c1 == 0x02 || c1 == 0x31) = true →
      (c2 == 0x05 || c2 == 0x06 || c2 == 0x02 || c2 == 0x31) = true →
      (s.queueCalls cb [.send m1, .send m2, .send m3]).map (fun r => writes r.2) =
        some [m1.msg] ∧
      (s.queueCalls cb [.send m1, .send m2, .send m3, .event c1]).map (fun r => writes r.2) =
        some [m1.msg, m2.msg] ∧
      (s.queueCalls cb [.send m1, .send m2, .send m3, .event c1, .event c2]).map
          (fun r => writes r.2) =
        some [m1.msg, m2.msg, m3.msg]) := by
  refine ⟨queueCalls_writes cb s calls hempty hok, ?_⟩
  intro m1 m2 m3 c1 c2 hc1 hc2
  refine ⟨?_, ?_, ?_⟩
  · obtain ⟨s1, events, hrun, _, hwr⟩ := queueCalls_writes cb s
      [.send m1, .send m2, .send m3] hempty (by simp [queueCallsOk])
    rw [hrun]
    simpa [submitted, resolved] using hwr
  · obtain ⟨s1, events, hrun, _, hwr⟩ := queueCalls_writes cb s
      [.send m1, .send m2, .send m3, .event c1] hempty (by simp [queueCallsOk, hc1])
    rw [hrun]
    simpa [submitted, resolved] using hwr
  · obtain ⟨s1, events, hrun, _, hwr⟩ := queueCalls_writes cb s
      [.send m1, .send m2, .send m3, .event c1, .event c2] hempty
      (by simp [queueCallsOk, hc1, hc2])
    rw [hrun]
    simpa [submitted, resolved] using hwr

/-- C20 for three messages and the events TransferTxCompleted, TransferTxFailed. -/
theorem send_queue_order_witness :
    (BaseSensor.queueCalls (StatusCallback.attach 1 0x1234 120 30 8070 57 1)
        { channel := some 1, deviceID := 0x1234, transmissionType := 1, messageQueue := [],
          decodeDataCallback := none,
          statusCallback := some (StatusCallback.attach 1 0x1234 120 30 8070 57 1) }
        [.send { msg := [1], callback := some 11 }, .send { msg := [2], callback := none },
         .send { msg := [3], callback := some 13 }, .event 0x05, .event 0x06]).map
      (fun r => writes r.2) = some [[1], [2], [3]] :=
  ((send_queue_order (StatusCallback.attach 1 0x1234 120 30 8070 57 1)
      { channel := some 1, deviceID := 0x1234, transmissionType := 1, messageQueue := [],
        decodeDataCallback := none,
        statusCallback := some (StatusCallback.attach 1 0x1234 120 30 8070 57 1) }
      [] rfl rfl).2
    { msg := [1], callback := some 11 } { msg := [2], callback := none }
    { msg := [3], callback := some 13 } 0x05 0x06 rfl rfl).2.2

/-! ## Completion callbacks: lemmas -/

theorem completions_append (a b : List Event) :
    completions (a ++ b) = completions a ++ completions b := by
  induction a with
  | nil => rfl
  | cons e rest ih =>
    cases e <;> simp [completions, ih]

theorem queueCalls_append (cb : StatusCallback) (a b : List QueueCall) :
    ∀ (s : BaseSensor), s.queueCalls cb (a ++ b) =
      (s.queueCalls cb a).bind fun r =>
        (r.1.queueCalls cb b).bind fun r2 => some (r2.1, r.2 ++ r2.2) := by
  induction a with
  | nil =>
    intro s
    cases h : s.queueCalls cb b <;> simp [BaseSensor.queueCalls, h]
  | cons c rest ih =>
    intro s
    cases c with
    | send msg =>
      rw [List.cons_append,
        show s.queueCalls cb (QueueCall.send msg :: (rest ++ b)) =
          (BaseSensor.queueCalls cb (s.send msg).1 (rest ++ b)).bind fun q =>
            some (q.1, (s.send msg).2 ++ q.2) from rfl,
        show s.queueCalls cb (QueueCall.send msg :: rest) =
          (BaseSensor.queueCalls cb (s.send msg).1 rest).bind fun q =>
            some (q.1, (s.send msg).2 ++ q.2) from rfl, ih]
      cases h1 : BaseSensor.queueCalls cb (s.send msg).1 rest with
      | none => simp
      | some r1 =>
        cases h2 : BaseSensor.queueCalls cb r1.1 b <;> simp [h2]
    | event code =>
      rw [List.cons_append,
        show s.queueCalls cb (QueueCall.event code :: (rest ++ b)) =
          (cb.call s MessageRF code).bind (fun r =>
            (BaseSensor.queueCalls cb r.sensor (rest ++ b)).bind fun q =>
              some (q.1, r.events ++ q.2)) from rfl,
        show s.queueCalls cb (QueueCall.event code :: rest) =
          (cb.call s MessageRF code).bind (fun r =>
            (BaseSensor.queueCalls cb r.sensor rest).bind fun q =>
              some (q.1, r.events ++ q.2)) from rfl]
      cases h0 : cb.call s MessageRF code with
      | none => simp
      | some r0 =>
        simp only [Option.some_bind, Option.bind_eq_bind, ih]
        cases h1 : BaseSensor.queueCalls cb r0.sensor rest with
        | none => simp
        | some r1 =>
          cases h2 : BaseSensor.queueCalls cb r1.1 b <;> simp [h2]

theorem send_completions (s : BaseSensor) (msg : Message) :
    completions (s.send msg).2 = [] := by
  unfold BaseSensor.send
  simp only
  split <;> rfl

theorem queueCalls_sends (cb : StatusCallback) (msgs : List Message) :
    ∀ (s : BaseSensor), ∃ s1 events,
      s.queueCalls cb (msgs.map QueueCall.send) = some (s1, events) ∧
      s1.messageQueue = s.messageQueue ++ msgs ∧ completions events = [] := by
  induction msgs with
  | nil => intro s; exact ⟨s, [], rfl, by simp, rfl⟩
  | cons m rest ih =>
    intro s
    obtain ⟨s1, ev, hrun, hq, hc⟩ := ih (s.send m).1
    refine ⟨s1, (s.send m).2 ++ ev, ?_, ?_, ?_⟩
    · simp [BaseSensor.queueCalls, hrun]
    · rw [hq, send_queue]; simp
    · rw [completions_append, send_completions, hc]; rfl

theorem transferEvent_cons (s : BaseSensor) (code : Nat) (x : Message) (q : List Message)
    (hq : s.messageQueue = x :: q) :
    ∃ events, s.transferEvent code =
        some { sensor := { s with messageQueue := q }, events := events, handled := true } ∧
      completions events =
        match x.callback with
        | some f => [(f, code == EventTransferTXCompleted)]
        | none => [] := by
  unfold BaseSensor.transferEvent
  rw [hq]
  cases q with
  | nil =>
    cases hx : x.callback with
    | none => exact ⟨[], by simp [hx], rfl⟩
    | some f =>
      exact ⟨[Event.sendCallback f (code == EventTransferTXCompleted)], by simp [hx], rfl⟩
  | cons y q2 =>
    cases hx : x.callback with
    | none => exact ⟨[Event.write y.msg], by simp [hx], rfl⟩
    | some f =>
      exact ⟨[Event.sendCallback f (code == EventTransferTXCompleted)] ++ [Event.write y.msg],
        by simp [hx], rfl⟩

theorem queueCalls_events (cb : StatusCallback) (codes : List Nat) :
    ∀ (msgs : List (List Nat × Nat)) (s : BaseSensor),
      s.messageQueue = msgs.map Message.withCallback →
      codes.length ≤ msgs.length →
      (∀ c ∈ codes, c = 0x05 ∨ c = 0x06 ∨ c = 0x02 ∨ c = 0x31) →
      ∃ s1 events, s.queueCalls cb (codes.map QueueCall.event) = some (s1, events) ∧
        s1.messageQueue = (msgs.drop codes.length).map Message.withCallback ∧
        completions events =
          List.zip (msgs.map Prod.snd) (codes.map fun c => c == 0x05) := by
  induction codes with
  | nil =>
    intro msgs s hq _ _
    exact ⟨s, [], rfl, by simpa using hq, by simp [completions]⟩
  | cons c rest ih =>
    intro msgs s hq hlen hcodes
    cases msgs with
    | nil => simp at hlen
    | cons m more =>
      have hc : (c == 0x05 || c == 0x06 || c == 0x02 || c == 0x31) = true := by
        have := hcodes c (by simp)
        simpa [Bool.or_eq_true, or_assoc] using this
      have hq1 : s.messageQueue = Message.withCallback m :: more.map Message.withCallback := by
        simpa using hq
      obtain ⟨ev0, htr, hcomp⟩ := transferEvent_cons s c _ _ hq1
      obtain ⟨s1, ev, hrun, hqueue, hcs⟩ :=
        ih more { s with messageQueue := more.map Message.withCallback } rfl
          (by simpa using hlen) (fun c1 h1 => hcodes c1 (by simp [h1]))
      refine ⟨s1, ev0 ++ ev, ?_, ?_, ?_⟩
      · rw [show s.queueCalls cb (List.map QueueCall.event (c :: rest)) =
          (cb.call s MessageRF c).bind (fun r =>
            (BaseSensor.queueCalls cb r.sensor (rest.map QueueCall.event)).bind fun q =>
              some (q.1, r.events ++ q.2)) from rfl]
        rw [call_transfer cb s c hc, htr]
        simp [hrun]
      · simpa using hqueue
      · rw [completions_append, hcomp, hcs]
        simp [Message.withCallback, EventTransferTXCompleted]

/-! ## Completion callbacks: claims -/

/-- C21: on a sensor with an empty send queue, messages m1..mk sent in that
order, each with a completion callback, and then j ≤ k RF events with codes
c1..cj among 0x05, 0x06, 0x02, 0x31: the calls all return, the completion
callbacks called are exactly those of m1..mj, once each and in submission
order, the callback of mi with the argument `ci = 0x05`, and the queue holds
the messages after mj; so the callback of mi is called on the i-th event, and
after k events the queue is empty. -/
theorem completion_callbacks_in_order (cb : StatusCallback) (s : BaseSensor)
    (msgs : List (List Nat × Nat)) (codes : List Nat)
    (hempty : s.messageQueue = [])
    (hlen : codes.length ≤ msgs.length)
    (hcodes : ∀ c ∈ codes, c = 0x05 ∨ c = 0x06 ∨ c = 0x02 ∨ c = 0x31) :
    ∃ s1 events,
      s.queueCalls cb ((msgs.map fun m => QueueCall.send (Message.withCallback m)) ++
        codes.map QueueCall.event) = some (s1, events) ∧
      completions events = List.zip (msgs.map Prod.snd) (codes.map fun c => c == 0x05) ∧
      s1.messageQueue = (msgs.drop codes.length).map Message.withCallback ∧
      (codes.length = msgs.length → s1.messageQueue = []) := by
  obtain ⟨s0, ev0, hrun0, hq0, hc0⟩ := queueCalls_sends cb (msgs.map Message.withCallback) s
  rw [hempty, List.nil_append] at hq0
  obtain ⟨s1, ev1, hrun1, hq1, hc1⟩ := queueCalls_events cb codes msgs s0 hq0 hlen hcodes
  refine ⟨s1, ev0 ++ ev1, ?_, ?_, hq1, ?_⟩
  · rw [queueCalls_append]
    have hmap : (msgs.map fun m => QueueCall.send (Message.withCallback m)) =
        (msgs.map Message.withCallback).map QueueCall.send := by
      simp [List.map_map, Function.comp]
    rw [hmap, hrun0]
    simp [hrun1]
  · rw [completions_append, hc0, hc1]
    rfl
  · intro heq
    rw [hq1, heq]
    simp

/-- C21 for three messages with callbacks 11, 12, 13 and the events
TransferTxCompleted, TransferTxFailed, TransferTxCompleted. -/
theorem completion_callbacks_in_order_witness :
    ∃ s1 events,
      BaseSensor.queueCalls (StatusCallback.scan 57)
        { channel := some 0, deviceID := 0, transmissionType := 0, messageQueue := [],
          decodeDataCallback := none, statusCallback := some (StatusCallback.scan 57) }
        (([([1], 11), ([2], 12), ([3], 13)].map fun m =>
            QueueCall.send (Message.withCallback m)) ++
          [0x05, 0x06, 0x05].map QueueCall.event) = some (s1, events) ∧
      completions events =
        List.zip ([([1], 11), ([2], 12), ([3], 13)].map Prod.snd)
          ([0x05, 0x06, 0x05].map fun c => c == 0x05) ∧
      s1.messageQueue =
        (([([1], 11), ([2], 12), ([3], 13)] : List (List Nat × Nat)).drop
          [0x05, 0x06, 0x05].length).map Message.withCallback ∧
      (([0x05, 0x06, 0x05] : List Nat).length =
          ([([1], 11), ([2], 12), ([3], 13)] : List (List Nat × Nat)).length →
        s1.messageQueue = []) :=
  completion_callbacks_in_order (StatusCallback.scan 57)
    { channel := some 0, deviceID := 0, transmissionType := 0, messageQueue := [],
      decodeDataCallback := none, statusCallback := some (StatusCallback.scan 57) }
    [([1], 11), ([2], 12), ([3], 13)] [0x05, 0x06, 0x05] rfl (by decide) (by decide)

/-! ## Status callback outside the transfer events -/

theorem setRxExt_eq : setRxExt = some (buildMessage [0, 1] 0x66) := by
  simp [setRxExt, intToLEHexArray_one, MessageEnableRXExt]

theorem openRXScan_eq : openRXScan = some (buildMessage [0, 1] 0x5B) := by
  simp [openRXScan, intToLEHexArray_one, MessageChannelOpenRXScan]

theorem writeHandled_some (s : BaseSensor) (m : List Nat) :
    s.writeHandled (some m) =
      some { sensor := s, events := [Event.write m], handled := true } :=
  rfl

theorem attach_call_other (s : BaseSensor) (msg code : Nat)
    (channel deviceID deviceType timeout period frequency transmissionType : Nat)
    (hother : ¬ (msg = 0x01 ∧ (code = 0x05 ∨ code = 0x06 ∨ code = 0x02 ∨ code = 0x31))) :
    ∃ r, (StatusCallback.attach channel deviceID deviceType timeout period frequency transmissionType).call s msg code = some r ∧
      r.sensor.messageQueue = s.messageQueue ∧
      completions r.events = [] ∧
      ((StatusCallback.attach channel deviceID deviceType timeout period frequency transmissionType).call { s with messageQueue := [] } msg code).map StatusResult.events =
        some r.events ∧
      (msg = 0x4F → r.handled = (code == 0x1F)) := by
  simp only [StatusCallback.call, unassignChannel_eq, setDevice_eq, searchChannel_eq,
    setFrequency_eq, setPeriod_eq, libConfig_eq, openChannel_eq, writeHandled_some]
  by_cases h1 : msg = MessageRF
  · simp only [if_pos h1]
    by_cases h2 : code = EventChannelClosed ∨ code = EventRXFailGoToSearch
    · simp only [if_pos h2]
      exact ⟨_, rfl, rfl, rfl, rfl, fun h => by simp [h1, MessageRF] at h⟩
    · simp only [if_neg h2]
      have h3 : ¬ (code = EventTransferTXCompleted ∨ code = EventTransferTXFailed ∨
          code = EventRXFailed ∨ code = InvalidScanTXChannel) := by
        intro h
        exact hother ⟨h1, by simpa [EventTransferTXCompleted, EventTransferTXFailed,
          EventRXFailed, InvalidScanTXChannel] using h⟩
      simp only [if_neg h3]
      exact ⟨_, rfl, rfl, rfl, rfl, fun h => by simp [h1, MessageRF] at h⟩
  · simp only [if_neg h1]
    by_cases a_MessageChannelAssign : msg = MessageChannelAssign
    · simp only [if_pos a_MessageChannelAssign]
      exact ⟨_, rfl, rfl, rfl, rfl, fun h => by simp [a_MessageChannelAssign, MessageChannelAssign, TransferInProgress] at h ⊢⟩
    simp only [if_neg a_MessageChannelAssign]
    by_cases a_MessageChannelID : msg = MessageChannelID
    · simp only [if_pos a_MessageChannelID]
      exact ⟨_, rfl, rfl, rfl, rfl, fun h => by simp [a_MessageChannelID, MessageChannelID, TransferInProgress] at h ⊢⟩
    simp only [if_neg a_MessageChannelID]
    by_cases a_MessageChannelSearchTimeout : msg = MessageChannelSearchTimeout
    · simp only [if_pos a_MessageChannelSearchTimeout]
      exact ⟨_, rfl, rfl, rfl, rfl, fun h => by simp [a_MessageChannelSearchTimeout, MessageChannelSearchTimeout, TransferInProgress] at h ⊢⟩
    simp only [if_neg a_MessageChannelSearchTimeout]
    by_cases a_MessageChannelFrequency : msg = MessageChannelFrequency
    · simp only [if_pos a_MessageChannelFrequency]
      exact ⟨_, rfl, rfl, rfl, rfl, fun h => by simp [a_MessageChannelFrequency, MessageChannelFrequency, TransferInProgress] at h ⊢⟩
    simp only [if_neg a_MessageChannelFrequency]
    by_cases a_MessageChannelPeriod : msg = MessageChannelPeriod
    · simp only [if_pos a_MessageChannelPeriod]
      exact ⟨_, rfl, rfl, rfl, rfl, fun h => by simp [a_MessageChannelPeriod, MessageChannelPeriod, TransferInProgress] at h ⊢⟩
    simp only [if_neg a_MessageChannelPeriod]
    by_cases a_MessageLibConfig : msg = MessageLibConfig
    · simp only [if_pos a_MessageLibConfig]
      exact ⟨_, rfl, rfl, rfl, rfl, fun h => by simp [a_MessageLibConfig, MessageLibConfig, TransferInProgress] at h ⊢⟩
    simp only [if_neg a_MessageLibConfig]
    by_cases a_MessageChannelOpen : msg = MessageChannelOpen
    · simp only [if_pos a_MessageChannelOpen]
      exact ⟨_, rfl, rfl, rfl, rfl, fun h => by simp [a_MessageChannelOpen, MessageChannelOpen, TransferInProgress] at h ⊢⟩
    simp only [if_neg a_MessageChannelOpen]
    by_cases a_MessageChannelClose : msg = MessageChannelClose
    · simp only [if_pos a_MessageChannelClose]
      exact ⟨_, rfl, rfl, rfl, rfl, fun h => by simp [a_MessageChannelClose, MessageChannelClose, TransferInProgress] at h ⊢⟩
    simp only [if_neg a_MessageChannelClose]
    by_cases a_MessageChannelUnassign : msg = MessageChannelUnassign
    · simp only [if_pos a_MessageChannelUnassign]
      exact ⟨_, rfl, rfl, rfl, rfl, fun h => by simp [a_MessageChannelUnassign, MessageChannelUnassign, TransferInProgress] at h ⊢⟩
    simp only [if_neg a_MessageChannelUnassign]
    by_cases a_ack : msg = MessageChannelAcknowledgedData
    · simp only [if_pos a_ack]
      exact ⟨_, rfl, rfl, rfl, rfl, fun _ => rfl⟩
    simp only [if_neg a_ack]
    exact ⟨_, rfl, rfl, rfl, rfl, fun h => absurd h a_ack⟩

theorem scan_call_other (s : BaseSensor) (msg code frequency : Nat)
    (hother : ¬ (msg = 0x01 ∧ (code = 0x05 ∨ code = 0x06 ∨ code = 0x02 ∨ code = 0x31))) :
    ∃ r, (StatusCallback.scan frequency).call s msg code = some r ∧
      r.sensor.messageQueue = s.messageQueue ∧
      completions r.events = [] ∧
      ((StatusCallback.scan frequency).call { s with messageQueue := [] } msg code).map StatusResult.events =
        some r.events ∧
      (msg = 0x4F → r.handled = (code == 0x1F)) := by
  simp only [StatusCallback.call, unassignChannel_eq, setDevice_eq, setFrequency_eq,
    setRxExt_eq, libConfig_eq, openRXScan_eq, writeHandled_some]
  by_cases h1 : msg = MessageRF
  · simp only [if_pos h1]
    by_cases h2 : code = EventChannelClosed ∨ code = EventRXFailGoToSearch
    · simp only [if_pos h2]
      exact ⟨_, rfl, rfl, rfl, rfl, fun h => by simp [h1, MessageRF] at h⟩
    · simp only [if_neg h2]
      have h3 : ¬ (code = EventTransferTXCompleted ∨ code = EventTransferTXFailed ∨
          code = EventRXFailed ∨ code = InvalidScanTXChannel) := by
        intro h
        exact hother ⟨h1, by simpa [EventTransferTXCompleted, EventTransferTXFailed,
          EventRXFailed, InvalidScanTXChannel] using h⟩
      simp only [if_neg h3]
      exact ⟨_, rfl, rfl, rfl, rfl, fun h => by simp [h1, MessageRF] at h⟩
  · simp only [if_neg h1]
    by_cases a_MessageChannelAssign : msg = MessageChannelAssign
    · simp only [if_pos a_MessageChannelAssign]
      exact ⟨_, rfl, rfl, rfl, rfl, fun h => by simp [a_MessageChannelAssign, MessageChannelAssign, TransferInProgress] at h ⊢⟩
    simp only [if_neg a_MessageChannelAssign]
    by_cases a_MessageChannelID : msg = MessageChannelID
    · simp only [if_pos a_MessageChannelID]
      exact ⟨_, rfl, rfl, rfl, rfl, fun h => by simp [a_MessageChannelID, MessageChannelID, TransferInProgress] at h ⊢⟩
    simp only [if_neg a_MessageChannelID]
    by_cases a_MessageChannelFrequency : msg = MessageChannelFrequency
    · simp only [if_pos a_MessageChannelFrequency]
      exact ⟨_, rfl, rfl, rfl, rfl, fun h => by simp [a_MessageChannelFrequency, MessageChannelFrequency, TransferInProgress] at h ⊢⟩
    simp only [if_neg a_MessageChannelFrequency]
    by_cases a_MessageEnableRXExt : msg = MessageEnableRXExt
    · simp only [if_pos a_MessageEnableRXExt]
      exact ⟨_, rfl, rfl, rfl, rfl, fun h => by simp [a_MessageEnableRXExt, MessageEnableRXExt, TransferInProgress] at h ⊢⟩
    simp only [if_neg a_MessageEnableRXExt]
    by_cases a_MessageLibConfig : msg = MessageLibConfig
    · simp only [if_pos a_MessageLibConfig]
      exact ⟨_, rfl, rfl, rfl, rfl, fun h => by simp [a_MessageLibConfig, MessageLibConfig, TransferInProgress] at h ⊢⟩
    simp only [if_neg a_MessageLibConfig]
    by_cases a_MessageChannelOpenRXScan : msg = MessageChannelOpenRXScan
    · simp only [if_pos a_MessageChannelOpenRXScan]
      exact ⟨_, rfl, rfl, rfl, rfl, fun h => by simp [a_MessageChannelOpenRXScan, MessageChannelOpenRXScan, TransferInProgress] at h ⊢⟩
    simp only [if_neg a_MessageChannelOpenRXScan]
    by_cases a_MessageChannelClose : msg = MessageChannelClose
    · simp only [if_pos a_MessageChannelClose]
      exact ⟨_, rfl, rfl, rfl, rfl, fun h => by simp [a_MessageChannelClose, MessageChannelClose, TransferInProgress] at h ⊢⟩
    simp only [if_neg a_MessageChannelClose]
    by_cases a_MessageChannelUnassign : msg = MessageChannelUnassign
    · simp only [if_pos a_MessageChannelUnassign]
      exact ⟨_, rfl, rfl, rfl, rfl, fun h => by simp [a_MessageChannelUnassign, MessageChannelUnassign, TransferInProgress] at h ⊢⟩
    simp only [if_neg a_MessageChannelUnassign]
    by_cases a_ack : msg = MessageChannelAcknowledgedData
    · simp only [if_pos a_ack]
      exact ⟨_, rfl, rfl, rfl, rfl, fun _ => rfl⟩
    simp only [if_neg a_ack]
    exact ⟨_, rfl, rfl, rfl, rfl, fun h => absurd h a_ack⟩

/-- C22: for every event `(msg, code)` other than MessageRF with one of the
codes 0x05, 0x06, 0x02, 0x31, the status callback (of `attach` and of `scan`)
returns, leaves the send queue as it was, calls no completion callback, and
does to the outside world exactly what it does for a sensor with an empty
queue, so nothing it writes is taken from the queue; for `msg = 0x4F` it
reports handled exactly when `code = 0x1F`. -/
theorem other_events_keep_queue (cb : StatusCallback) (s : BaseSensor) (msg code : Nat)
    (hother : ¬ (msg = 0x01 ∧ (code = 0x05 ∨ code = 0x06 ∨ code = 0x02 ∨ code = 0x31))) :
    ∃ r, cb.call s msg code = some r ∧
      r.sensor.messageQueue = s.messageQueue ∧
      completions r.events = [] ∧
      (cb.call { s with messageQueue := [] } msg code).map StatusResult.events =
        some r.events ∧
      (msg = 0x4F → r.handled = (code == 0x1F)) := by
  cases cb with
  | attach channel deviceID deviceType timeout period frequency transmissionType =>
    exact attach_call_other s msg code channel deviceID deviceType timeout period frequency
      transmissionType hother
  | scan frequency => exact scan_call_other s msg code frequency hother

/-- C22 for the event (0x4F, 0x1F) on a sensor with two queued messages: handled,
nothing done, queue unchanged. -/
theorem other_events_keep_queue_witness :
    ∃ r, (StatusCallback.attach 1 0x1234 120 30 8070 57 1).call
        { channel := some 1, deviceID := 0x1234, transmissionType := 1,
          messageQueue := [{ msg := [1], callback := some 11 }, { msg := [2], callback := none }],
          decodeDataCallback := none,
          statusCallback := some (StatusCallback.attach 1 0x1234 120 30 8070 57 1) }
        0x4F 0x1F = some r ∧
      r.sensor.messageQueue =
        [{ msg := [1], callback := some 11 }, { msg := [2], callback := none }] ∧
      completions r.events = [] ∧
      ((StatusCallback.attach 1 0x1234 120 30 8070 57 1).call
        { channel := some 1, deviceID := 0x1234, transmissionType := 1, messageQueue := [],
          decodeDataCallback := none,
          statusCallback := some (StatusCallback.attach 1 0x1234 120 30 8070 57 1) }
        0x4F 0x1F).map StatusResult.events = some r.events ∧
      ((0x4F : Nat) = 0x4F → r.handled = ((0x1F : Nat) == 0x1F)) :=
  other_events_keep_queue (StatusCallback.attach 1 0x1234 120 30 8070 57 1)
    { channel := some 1, deviceID := 0x1234, transmissionType := 1,
      messageQueue := [{ msg := [1], callback := some 11 }, { msg := [2], callback := none }],
      decodeDataCallback := none,
      statusCallback := some (StatusCallback.attach 1 0x1234 120 30 8070 57 1) }
    0x4F 0x1F (by decide)

/-- C28 fails in the code: for every sensor with an empty send queue, both status
callbacks panic (index out of range at `sensor.messageQueue[0]`) on the RF
events 0x05, 0x06, 0x02 and 0x31, because the guard `len(sensor.messageQueue) < 0`
never holds; so does `handleEventMessages` on the frame `A4 03 40 00 01 05 E3`
for a freshly attached sensor on channel 0. -/
theorem transfer_event_on_empty_queue (cb : StatusCallback) (s : BaseSensor) :
    cb.call { s with messageQueue := [] } MessageRF 0x05 = none ∧
    cb.call { s with messageQueue := [] } MessageRF 0x06 = none ∧
    cb.call { s with messageQueue := [] } MessageRF 0x02 = none ∧
    cb.call { s with messageQueue := [] } MessageRF 0x31 = none ∧
    BaseSensor.handleEventMessages
        { channel := some 0, deviceID := 0x1234, transmissionType := 1, messageQueue := [],
          decodeDataCallback := none,
          statusCallback := some (StatusCallback.attach 0 0x1234 120 30 8070 57 1) }
        [0xA4, 0x03, 0x40, 0x00, 0x01, 0x05, 0xE3] = none := by
  refine ⟨?_, ?_, ?_, ?_, by decide⟩ <;>
    (rw [call_transfer cb _ _ (by decide)]; rfl)

/-! ## Channel types -/

/-- C27: for every channel, `assignChannel` returns the frame with id 0x42 and
payload `[channel & 0xFF, t, 0x00]` with t = 0x00 for "receive", 0x10 for
"transmit", 0x20 for "receive_shared", 0x30 for "transmit_shared", 0x40 for
"receive_only" and 0x50 for "transmit_only"; for every other name it panics
and builds no message. -/
theorem assignChannel_table (channel : Nat) (channelType : String) :
    assignChannel channel "receive" = some (buildMessage [channel % 256, 0x00, 0x00] 0x42) ∧
    assignChannel channel "transmit" = some (buildMessage [channel % 256, 0x10, 0x00] 0x42) ∧
    assignChannel channel "receive_shared" =
      some (buildMessage [channel % 256, 0x20, 0x00] 0x42) ∧
    assignChannel channel "transmit_shared" =
      some (buildMessage [channel % 256, 0x30, 0x00] 0x42) ∧
    assignChannel channel "receive_only" =
      some (buildMessage [channel % 256, 0x40, 0x00] 0x42) ∧
    assignChannel channel "transmit_only" =
      some (buildMessage [channel % 256, 0x50, 0x00] 0x42) ∧
    (channelType ≠ "receive" → channelType ≠ "transmit" → channelType ≠ "receive_shared" →
      channelType ≠ "transmit_shared" → channelType ≠ "receive_only" →
      channelType ≠ "transmit_only" → assignChannel channel channelType = none) := by
  refine ⟨?_, ?_, ?_, ?_, ?_, ?_, ?_⟩
  · simp [assignChannel, intToLEHexArray_one, ChannelTypeTwoWayReceive, DefaultNetworkNumber,
      MessageChannelAssign]
  · simp [assignChannel, intToLEHexArray_one, ChannelTypeTwoWayTransmit, DefaultNetworkNumber,
      MessageChannelAssign]
  · simp [assignChannel, intToLEHexArray_one, ChannelTypeSharedReceive, DefaultNetworkNumber,
      MessageChannelAssign]
  · simp [assignChannel, intToLEHexArray_one, ChannelTypeSharedTransmit, DefaultNetworkNumber,
      MessageChannelAssign]
  · simp [assignChannel, intToLEHexArray_one, ChannelTypeOneWayReceive, DefaultNetworkNumber,
      MessageChannelAssign]
  · simp [assignChannel, intToLEHexArray_one, ChannelTypeOneWayTransmit, DefaultNetworkNumber,
      MessageChannelAssign]
  · intro h1 h2 h3 h4 h5 h6
    simp [assignChannel, intToLEHexArray_one, h1, h2, h3, h4, h5, h6]

/-- C27 on channel 0x101 and the name "bidirectional": the six frames, with
channel byte 0x01, and no message for the unknown name. -/
theorem assignChannel_table_witness :
    assignChannel 0x101 "receive" = some [0xA4, 0x03, 0x42, 0x01, 0x00, 0x00, 0xE4] ∧
    assignChannel 0x101 "transmit" = some [0xA4, 0x03, 0x42, 0x01, 0x10, 0x00, 0xF4] ∧
    assignChannel 0x101 "bidirectional" = none :=
  ⟨by decide, by decide,
    (assignChannel_table 0x101 "bidirectional").2.2.2.2.2.2 (by decide) (by decide)
      (by decide) (by decide) (by decide) (by decide)⟩

/-! ## Channel of an attached sensor -/

/-- C30 fails in the code: a sensor attached on channel 0 that receives the
ChannelEvents (MessageRF, EventChannelClosed) and (UnassignChannel, 0) is still
in `attachedSensors` but has a nil channel, and the next frame handed to
`USBDriver.read` (here a broadcast on channel 0) panics in
`handleEventMessages` at `*sensor.channel`. -/
theorem read_after_unassign_panics :
    ((World.attach
        { drv := { usedChannels := 0, attachedSensors := [], startupCallbacks := [],
                   MaxChannels := 8, CanScan := true },
          sensors := [{ channel := none, deviceID := 0, transmissionType := 0,
                        messageQueue := [], decodeDataCallback := some 1,
                        statusCallback := none }],
          trace := [] }
        0 0 0x1234 120 30 8070 57 1 "receive").bind fun r =>
      (USBDriver.read r.1 (channelEvent 0 0x01 0x07)).bind fun w =>
        USBDriver.read w (channelEvent 0 0x41 0)) =
      some
        { drv := { usedChannels := 1, attachedSensors := [0], startupCallbacks := [],
                   MaxChannels := 8, CanScan := true },
          sensors := [{ channel := none, deviceID := 0x1234, transmissionType := 1,
                        messageQueue := [], decodeDataCallback := some 1,
                        statusCallback := none }],
          trace := [Event.write [0xA4, 0x03, 0x42, 0x00, 0x00, 0x00, 0xE5],
                    Event.write [0xA4, 0x01, 0x41, 0x00, 0xE4]] } ∧
    USBDriver.read
        { drv := { usedChannels := 1, attachedSensors := [0], startupCallbacks := [],
                   MaxChannels := 8, CanScan := true },
          sensors := [{ channel := none, deviceID := 0x1234, transmissionType := 1,
                        messageQueue := [], decodeDataCallback := some 1,
                        statusCallback := none }],
          trace := [Event.write [0xA4, 0x03, 0x42, 0x00, 0x00, 0x00, 0xE5],
                    Event.write [0xA4, 0x01, 0x41, 0x00, 0xE4]] }
        [0xA4, 0x09, 0x4E, 0x00, 0x04, 0x00, 0x00, 0x00, 0x10, 0x20, 0x05, 0x48, 0x9A] =
      none := by
  decide

/-! ## Profile decoders: page state -/

theorem pageId_eq (p : Nat) : pageId p = p &&& 0x7F := rfl

/-- C23: for a frame with page byte `p` (and the four heart-rate bytes b0..b3),
from the initial page (oldPage 0xFF, InitPage) the heart-rate, bike-radar and
stride update functions run no page handler, leave the state as it is (heart
rate: but for BeatTime, BeatCount, ComputedHeartRate) and set the page to
(p, StdPage); from the page (p1, StdPage) left by a first frame with page byte
`p1 ≠ p` they run the handler of `p & 0x7F` and set the page to (p, ExtPage);
from (p, StdPage) they run no handler and stay in StdPage. -/
theorem page_state_machine (data : List Nat) (p b0 b1 b2 b3 : Nat)
    (hp : data[4]? = some p) (h8 : data[8]? = some b0) (h9 : data[9]? = some b1)
    (h10 : data[10]? = some b2) (h11 : data[11]? = some b3) :
    (∀ (s : HeartRateSensorState),
      s.update Page.init data =
        some ({ s with BeatTime := b0 ||| (b1 <<< 8), BeatCount := b2,
                       ComputedHeartRate := b3 },
              { oldPage := p, pageState := .StdPage })) ∧
    (∀ (s : HeartRateSensorState) (p1 : Nat), p ≠ p1 →
      s.update { oldPage := p1, pageState := .StdPage } data =
        (s.page (p &&& 0x7F) data).map fun s1 =>
          ({ s1 with BeatTime := b0 ||| (b1 <<< 8), BeatCount := b2,
                     ComputedHeartRate := b3 },
           { oldPage := p, pageState := .ExtPage })) ∧
    (∀ (s : HeartRateSensorState),
      s.update { oldPage := p, pageState := .StdPage } data =
        some ({ s with BeatTime := b0 ||| (b1 <<< 8), BeatCount := b2,
                       ComputedHeartRate := b3 },
              { oldPage := p, pageState := .StdPage })) ∧
    (∀ (s : BikeRadarSensorState),
      s.update Page.init data = some (s, { oldPage := p, pageState := .StdPage })) ∧
    (∀ (s : BikeRadarSensorState) (p1 : Nat), p ≠ p1 →
      s.update { oldPage := p1, pageState := .StdPage } data =
        (s.page (p &&& 0x7F) data).map fun s1 =>
          (s1, { oldPage := p, pageState := .ExtPage })) ∧
    (∀ (s : BikeRadarSensorState),
      s.update { oldPage := p, pageState := .StdPage } data =
        some (s, { oldPage := p, pageState := .StdPage })) ∧
    (∀ (s : StrideSpeedDistanceSensorState),
      s.update Page.init data = some (s, { oldPage := p, pageState := .StdPage })) ∧
    (∀ (s : StrideSpeedDistanceSensorState) (p1 : Nat), p ≠ p1 →
      s.update { oldPage := p1, pageState := .StdPage } data =
        (s.page (p &&& 0x7F) data).map fun s1 =>
          (s1, { oldPage := p, pageState := .ExtPage })) ∧
    (∀ (s : StrideSpeedDistanceSensorState),
      s.update { oldPage := p, pageState := .StdPage } data =
        some (s, { oldPage := p, pageState := .StdPage })) := by
  refine ⟨?_, ?_, ?_, ?_, ?_, ?_, ?_, ?_, ?_⟩
  · intro s
    simp [HeartRateSensorState.update, Page.init, BufferIndexMessageData, hp, h8, h9, h10, h11,
      littleEndianUint16]
  · intro s p1 hne
    cases hpg : s.page (p &&& 0x7F) data <;>
      simp [HeartRateSensorState.update, BufferIndexMessageData, hp, h8, h9, h10, h11,
        littleEndianUint16, hne, pageId_eq, hpg]
  · intro s
    simp [HeartRateSensorState.update, BufferIndexMessageData, hp, h8, h9, h10, h11,
      littleEndianUint16]
  · intro s
    simp [BikeRadarSensorState.update, Page.init, BufferIndexMessageData, hp]
  · intro s p1 hne
    cases hpg : s.page (p &&& 0x7F) data <;>
      simp [BikeRadarSensorState.update, BufferIndexMessageData, hp, hne, pageId_eq, hpg]
  · intro s
    simp [BikeRadarSensorState.update, BufferIndexMessageData, hp]
  · intro s
    simp [StrideSpeedDistanceSensorState.update, Page.init, BufferIndexMessageData, hp]
  · intro s p1 hne
    cases hpg : s.page (p &&& 0x7F) data <;>
      simp [StrideSpeedDistanceSensorState.update, BufferIndexMessageData, hp, hne, pageId_eq,
        hpg]
  · intro s
    simp [StrideSpeedDistanceSensorState.update, BufferIndexMessageData, hp]
/-- C23 for the heart-rate frame with page byte 0x82 after a frame with page
byte 0x02: the handler of page 2 runs and the page becomes (0x82, ExtPage). -/
theorem page_state_machine_witness :
    HeartRateSensorState.update (NewHeartRateScannerState 0x1234).toHeartRateSensorState
        { oldPage := 0x02, pageState := .StdPage }
        [0xA4, 0x09, 0x4E, 0x00, 0x82, 0xAB, 0x34, 0x12, 0x10, 0x20, 0x05, 0x48, 0x91] =
      ((NewHeartRateScannerState 0x1234).toHeartRateSensorState.page (0x82 &&& 0x7F)
          [0xA4, 0x09, 0x4E, 0x00, 0x82, 0xAB, 0x34, 0x12, 0x10, 0x20, 0x05, 0x48, 0x91]).map
        fun s1 =>
          ({ s1 with BeatTime := 0x10 ||| (0x20 <<< 8), BeatCount := 0x05,
                     ComputedHeartRate := 0x48 },
           { oldPage := 0x82, pageState := .ExtPage }) :=
  (page_state_machine
      [0xA4, 0x09, 0x4E, 0x00, 0x82, 0xAB, 0x34, 0x12, 0x10, 0x20, 0x05, 0x48, 0x91]
      0x82 0x10 0x20 0x05 0x48 rfl rfl rfl rfl rfl).2.1
    (NewHeartRateScannerState 0x1234).toHeartRateSensorState 0x02 (by decide)

/-! ## Heart rate: serial number -/

/-- C25 as stated fails: the device id is not masked with 0xFFFF.  For a state
with DeviceID 0x10000 and a decoded frame of page 2 with d2 = d3 = 0 the code
stores SerialNumber 0x80010000, where the claimed formula gives 0x80000000. -/
theorem serial_number_keeps_high_half :
    (HeartRateSensorState.update (NewHeartRateScannerState 0x10000).toHeartRateSensorState
        { oldPage := 0xFF, pageState := .StdPage }
        [0xA4, 0x09, 0x4E, 0x00, 0x02, 0xAB, 0x00, 0x00, 0x10, 0x20, 0x05, 0x48, 0x37]).map
      (fun r => r.1.SerialNumber) = some 0x80010000 ∧
    ((0x10000 &&& 0xFFFF) ||| ((0x00 ||| (0x00 <<< 8)) <<< 16)) ^^^ 0x80000000 = 0x80000000 := by
  decide

theorem and_low_half (D : Nat) (h : D < 0x10000) : D &&& 0xFFFF = D := by
  have : (0xFFFF : Nat) = 2 ^ 16 - 1 := by norm_num
  rw [this, Nat.and_pow_two_sub_one_eq_mod]
  exact Nat.mod_eq_of_lt h

/-- C25 amended: for every heart-rate state with device id D and a page that
decodes the frame, a frame with page byte 0x02 or 0x82 and data bytes d1, d2,
d3 sets ManID = d1 and SerialNumber = (D | ((d2 | d3 << 8) << 16)) ^ 0x80000000,
the device id entering unmasked; this is the value with `D & 0xFFFF` when
D < 0x10000, and it is a 32-bit value for a 32-bit D and bytes d2, d3. -/
theorem serial_number_page2 (s : HeartRateSensorState) (page : Page)
    (h0 h1 h2 h3 p d1 d2 d3 b0 b1 b2 b3 : Nat) (rest : List Nat)
    (hp : p = 0x02 ∨ p = 0x82)
    (hstate : page.pageState ≠ .InitPage)
    (hdecode : p ≠ page.oldPage ∨ page.pageState = .ExtPage) :
    ∃ s1, s.update page (h0 :: h1 :: h2 :: h3 :: p :: d1 :: d2 :: d3 :: b0 :: b1 :: b2 :: b3 ::
        rest) = some (s1, { oldPage := p, pageState := .ExtPage }) ∧
      s1.ManID = d1 ∧
      s1.SerialNumber = (s.DeviceID ||| ((d2 ||| (d3 <<< 8)) <<< 16)) ^^^ 0x80000000 ∧
      (s.DeviceID < 0x10000 →
        s1.SerialNumber =
          ((s.DeviceID &&& 0xFFFF) ||| ((d2 ||| (d3 <<< 8)) <<< 16)) ^^^ 0x80000000) ∧
      (s.DeviceID < 2 ^ 32 → d2 < 256 → d3 < 256 → s1.SerialNumber < 2 ^ 32) := by
  have hid : pageId p = 2 := by
    rcases hp with rfl | rfl <;> rfl
  refine ⟨{ s with ManID := d1,
                   SerialNumber :=
                     (s.DeviceID ||| ((d2 ||| (d3 <<< 8)) <<< 16)) ^^^ 0x80000000,
                   BeatTime := b0 ||| (b1 <<< 8), BeatCount := b2,
                   ComputedHeartRate := b3 }, ?_, rfl, rfl, ?_, ?_⟩
  · simp [HeartRateSensorState.update, HeartRateSensorState.page, BufferIndexMessageData,
      hstate, hdecode, hid, littleEndianUint16]
  · intro hD
    rw [and_low_half _ hD]
  · intro hD hd2 hd3
    apply Nat.xor_lt_two_pow _ (by norm_num)
    apply Nat.or_lt_two_pow hD
    have h16 : d2 ||| (d3 <<< 8) < 2 ^ 16 := by
      apply Nat.or_lt_two_pow
      · omega
      · rw [Nat.shiftLeft_eq]; omega
    rw [Nat.shiftLeft_eq]
    omega

/-- C25 amended, for D = 0x12345678 and the frame with page byte 0x82 and bytes
AB 34 12 after a frame with page byte 0x02; and the run of both frames from the
initial page, after which ManID = 0xAB and SerialNumber = 0x92345678. -/
theorem serial_number_page2_witness :
    (∃ s1, HeartRateSensorState.update
          (NewHeartRateScannerState 0x12345678).toHeartRateSensorState
          { oldPage := 0x02, pageState := .StdPage }
          (0xA4 :: 0x09 :: 0x4E :: 0x00 :: 0x82 :: 0xAB :: 0x34 :: 0x12 :: 0x10 :: 0x20 ::
            0x05 :: 0x48 :: [0x91]) = some (s1, { oldPage := 0x82, pageState := .ExtPage }) ∧
      s1.ManID = 0xAB ∧
      s1.SerialNumber = (0x12345678 ||| ((0x34 ||| (0x12 <<< 8)) <<< 16)) ^^^ 0x80000000 ∧
      (0x12345678 < 0x10000 →
        s1.SerialNumber =
          ((0x12345678 &&& 0xFFFF) ||| ((0x34 ||| (0x12 <<< 8)) <<< 16)) ^^^ 0x80000000) ∧
      (0x12345678 < 2 ^ 32 → 0x34 < 256 → 0x12 < 256 → s1.SerialNumber < 2 ^ 32)) ∧
    ((HeartRateSensorState.update (NewHeartRateScannerState 0x12345678).toHeartRateSensorState
        Page.init
        [0xA4, 0x09, 0x4E, 0x00, 0x02, 0xAB, 0x34, 0x12, 0x10, 0x20, 0x05, 0x48, 0x11]).bind
      fun r => (r.1.update r.2
        [0xA4, 0x09, 0x4E, 0x00, 0x82, 0xAB, 0x34, 0x12, 0x10, 0x20, 0x05, 0x48, 0x91]).map
          fun r2 => (r2.1.ManID, r2.1.SerialNumber, r2.2.pageState)) =
      some (0xAB, 0x92345678, PageState.ExtPage) :=
  ⟨serial_number_page2 (NewHeartRateScannerState 0x12345678).toHeartRateSensorState
      { oldPage := 0x02, pageState := .StdPage } 0xA4 0x09 0x4E 0x00 0x82 0xAB 0x34 0x12
      0x10 0x20 0x05 0x48 [0x91] (Or.inr rfl) (by decide) (Or.inl (by decide)),
    by decide⟩

/-! ## Bike radar: targets -/

/-- C26 as stated fails: the low two bits of 0b01101100 are 0, so the threat
level of slot 0 is 0 and the decoder clears slot 0: on a state whose eight
slots are all populated, slot 0 is nil after the frame. -/
theorem radar_targets_slot_zero_cleared :
    (BikeRadarSensorState.update
        { DeviceID := 0, OperatingTime := 0, ManID := 0, SerialNumber := 0, HWVersion := 0,
          SWVersion := 0, ModelNumber := 0, BatteryLevel := 0, BatteryVoltage := 0,
          BatteryStatus := "", DeviceStatus := "", ErrorLevel := "", ErrorDesc := "",
          ErrorComponent := 0, ManufacturerError := 0,
          Targets := List.replicate 8 (some { ThreatLevel := 1, ThreatSide := 1, Range := 1,
                                              Speed := 1 }) }
        { oldPage := 0xFF, pageState := .StdPage }
        [0xA4, 0x09, 0x4E, 0x00, 0x30, 0b01101100, 0b00101101, 0x10, 0x84, 0x21, 0x43, 0x21,
         0x45]).map (fun r => r.1.Targets.take 4) =
      some [none,
            some { ThreatLevel := 3, ThreatSide := 3, Range := 16, Speed := 4 },
            some { ThreatLevel := 2, ThreatSide := 2, Range := 8, Speed := 1 },
            some { ThreatLevel := 1, ThreatSide := 0, Range := 4, Speed := 2 }] ∧
    (0b01101100 >>> (2 * 0)) &&& 3 = 0 := by
  decide

theorem radarTargets_example (h0 h1 h2 h3 : Nat) (rest : List Nat)
    (t0 t1 t2 t3 t4 t5 t6 t7 : Option Target) :
    radarTargets 0x30
        (h0 :: h1 :: h2 :: h3 ::
          0x30 :: 0b01101100 :: 0b00101101 :: 0x10 :: 0x84 :: 0x21 :: 0x43 :: 0x21 :: rest)
        (bigEndianUint32 0b00101101 0x10 0x84 0x21 &&& 0x00FFFFFF)
        [t0, t1, t2, t3, t4, t5, t6, t7] =
        some [none,
          some { ThreatLevel := 3, ThreatSide := 3, Range := 16, Speed := 4 },
          some { ThreatLevel := 2, ThreatSide := 2, Range := 8, Speed := 1 },
          some { ThreatLevel := 1, ThreatSide := 0, Range := 4, Speed := 2 },
          t4, t5, t6, t7] := by
  have a1 : (108 : Nat) &&& 3 = 0 := by decide
  simp [radarTargets, radarTarget, BufferIndexMessageData, bigEndianUint32, a1]
  decide

/-- C26 amended: for a bike-radar state (eight target slots) and a page that
decodes the frame, the Radar Targets A frame with data bytes
30 6C 2D 10 84 21 43 21 clears slot 0, whose threat level `0x6C & 3` is 0,
populates the slots i = 1, 2, 3 with ThreatLevel `(0x6C >> 2i) & 3`, that is
3, 2, 1, and leaves the slots 4..7 as they were. -/
theorem radar_targets_a (s : BikeRadarSensorState) (page : Page) (h0 h1 h2 h3 : Nat)
    (rest : List Nat)
    (hlen : s.Targets.length = 8)
    (hstate : page.pageState ≠ .InitPage)
    (hdecode : 0x30 ≠ page.oldPage ∨ page.pageState = .ExtPage) :
    ∃ s1, s.update page (h0 :: h1 :: h2 :: h3 ::
        0x30 :: 0b01101100 :: 0b00101101 :: 0x10 :: 0x84 :: 0x21 :: 0x43 :: 0x21 :: rest) =
        some (s1, { oldPage := 0x30, pageState := .ExtPage }) ∧
      s1.Targets[0]? = some none ∧
      (∀ i, 1 ≤ i → i < 4 → ∃ t, s1.Targets[i]? = some (some t) ∧
        t.ThreatLevel = (0b01101100 >>> (2 * i)) &&& 3) ∧
      s1.Targets.take 4 =
        [none,
         some { ThreatLevel := 3, ThreatSide := 3, Range := 16, Speed := 4 },
         some { ThreatLevel := 2, ThreatSide := 2, Range := 8, Speed := 1 },
         some { ThreatLevel := 1, ThreatSide := 0, Range := 4, Speed := 2 }] ∧
      s1.Targets.drop 4 = s.Targets.drop 4 := by
  obtain ⟨t0, t1, t2, t3, t4, t5, t6, t7, hT⟩ :
      ∃ t0 t1 t2 t3 t4 t5 t6 t7, s.Targets = [t0, t1, t2, t3, t4, t5, t6, t7] := by
    match hT : s.Targets, hlen with
    | [t0, t1, t2, t3, t4, t5, t6, t7], _ => exact ⟨t0, t1, t2, t3, t4, t5, t6, t7, rfl⟩
  refine ⟨{ s with Targets :=
      [none,
       some { ThreatLevel := 3, ThreatSide := 3, Range := 16, Speed := 4 },
       some { ThreatLevel := 2, ThreatSide := 2, Range := 8, Speed := 1 },
       some { ThreatLevel := 1, ThreatSide := 0, Range := 4, Speed := 2 },
       t4, t5, t6, t7] }, ?_, rfl, ?_, rfl, ?_⟩
  · have hid : pageId 0x30 = 0x30 := rfl
    simp [BikeRadarSensorState.update, BikeRadarSensorState.page, BufferIndexMessageData,
      hstate, hdecode, hid, hT, radarTargets_example]
  · intro i h1 h4
    have : i = 1 ∨ i = 2 ∨ i = 3 := by omega
    rcases this with rfl | rfl | rfl
    · exact ⟨_, rfl, by decide⟩
    · exact ⟨_, rfl, by decide⟩
    · exact ⟨_, rfl, by decide⟩
  · simp [hT]

/-- C26 amended, on a state whose eight slots are all populated and the page
(0xFF, StdPage). -/
theorem radar_targets_a_witness :
    ∃ s1, BikeRadarSensorState.update
        { DeviceID := 0, OperatingTime := 0, ManID := 0, SerialNumber := 0, HWVersion := 0,
          SWVersion := 0, ModelNumber := 0, BatteryLevel := 0, BatteryVoltage := 0,
          BatteryStatus := "", DeviceStatus := "", ErrorLevel := "", ErrorDesc := "",
          ErrorComponent := 0, ManufacturerError := 0,
          Targets := List.replicate 8 (some { ThreatLevel := 1, ThreatSide := 1, Range := 1,
                                              Speed := 1 }) }
        { oldPage := 0xFF, pageState := .StdPage }
        (0xA4 :: 0x09 :: 0x4E :: 0x00 ::
          0x30 :: 0b01101100 :: 0b00101101 :: 0x10 :: 0x84 :: 0x21 :: 0x43 :: 0x21 :: [0x45]) =
        some (s1, { oldPage := 0x30, pageState := .ExtPage }) ∧
      s1.Targets[0]? = some none ∧
      (∀ i, 1 ≤ i → i < 4 → ∃ t, s1.Targets[i]? = some (some t) ∧
        t.ThreatLevel = (0b01101100 >>> (2 * i)) &&& 3) ∧
      s1.Targets.take 4 =
        [none,
         some { ThreatLevel := 3, ThreatSide := 3, Range := 16, Speed := 4 },
         some { ThreatLevel := 2, ThreatSide := 2, Range := 8, Speed := 1 },
         some { ThreatLevel := 1, ThreatSide := 0, Range := 4, Speed := 2 }] ∧
      s1.Targets.drop 4 =
        (List.replicate 8 (some ({ ThreatLevel := 1, ThreatSide := 1, Range := 1,
                                   Speed := 1 } : Target))).drop 4 :=
  radar_targets_a
    { DeviceID := 0, OperatingTime := 0, ManID := 0, SerialNumber := 0, HWVersion := 0,
      SWVersion := 0, ModelNumber := 0, BatteryLevel := 0, BatteryVoltage := 0,
      BatteryStatus := "", DeviceStatus := "", ErrorLevel := "", ErrorDesc := "",
      ErrorComponent := 0, ManufacturerError := 0,
      Targets := List.replicate 8 (some { ThreatLevel := 1, ThreatSide := 1, Range := 1,
                                          Speed := 1 }) }
    { oldPage := 0xFF, pageState := .StdPage } 0xA4 0x09 0x4E 0x00 [0x45] rfl (by decide)
    (Or.inl (by decide))

/-! ## Scanners: lemmas -/

theorem lookup_mapSet_self {α : Type} (m : List (Nat × α)) (k : Nat) (v : α) :
    (mapSet m k v).lookup k = some v := by
  induction m with
  | nil => simp [mapSet, List.lookup]
  | cons x rest ih =>
    obtain ⟨k1, v1⟩ := x
    by_cases h : k1 = k
    · simp [mapSet, h, List.lookup]
    · have h2 : (k == k1) = false := by
        simpa using fun e : k = k1 => h e.symm
      simp [mapSet, h, List.lookup, h2, ih]

theorem hr_page_some (s : HeartRateSensorState) (id h0 h1 h2 h3 p d1 d2 d3 : Nat)
    (rest : List Nat) :
    ∃ s1, s.page id (h0 :: h1 :: h2 :: h3 :: p :: d1 :: d2 :: d3 :: rest) = some s1 := by
  unfold HeartRateSensorState.page
  simp only [BufferIndexMessageData]
  split_ifs <;> simp

theorem hr_update_some (s : HeartRateSensorState) (page : Page)
    (h0 h1 h2 h3 p d1 d2 d3 b0 b1 b2 b3 : Nat) (rest : List Nat) :
    ∃ r, s.update page
      (h0 :: h1 :: h2 :: h3 :: p :: d1 :: d2 :: d3 :: b0 :: b1 :: b2 :: b3 :: rest) = some r := by
  obtain ⟨s1, hs1⟩ := hr_page_some s (pageId p) h0 h1 h2 h3 p d1 d2 d3
    (b0 :: b1 :: b2 :: b3 :: rest)
  unfold HeartRateSensorState.update
  by_cases hi : page.pageState = .InitPage
  · simp [BufferIndexMessageData, hi]
  · by_cases hd : p ≠ page.oldPage ∨ page.pageState = .ExtPage
    · simp [BufferIndexMessageData, hi, hd, hs1]
    · simp [BufferIndexMessageData, hi, hd]

theorem createStateIfNew_states (hs : HeartRateScanner) (id : Nat) :
    (hs.createStateIfNew id).states.lookup id =
      some ((hs.states.lookup id).getD (NewHeartRateScannerState id)) := by
  unfold HeartRateScanner.createStateIfNew
  cases h : hs.states.lookup id <;> simp only [h] <;> split <;>
    simp [lookup_mapSet_self, h]

theorem createStateIfNew_pages (hs : HeartRateScanner) (id : Nat) :
    ∃ pg, (hs.createStateIfNew id).pages.lookup id = some pg := by
  unfold HeartRateScanner.createStateIfNew
  cases h : hs.states.lookup id <;> simp only [h] <;> cases h2 : hs.pages.lookup id <;>
    simp [lookup_mapSet_self, h2]

theorem createStateIfNew_listeners (hs : HeartRateScanner) (id : Nat) :
    (hs.createStateIfNew id).listeners = hs.listeners := by
  unfold HeartRateScanner.createStateIfNew
  cases h : hs.states.lookup id <;> simp only [h] <;> split <;> rfl

theorem updateRssi_some (hs : HeartRateScanner) (id rssi threshold : Nat)
    (e : HeartRateScannerState) (h : hs.states.lookup id = some e) :
    hs.updateRssiAndThreshold id rssi threshold =
      some { hs with states := mapSet hs.states id { e with RSSI := rssi,
                                                            Threshold := threshold } } := by
  simp [HeartRateScanner.updateRssiAndThreshold, h]

theorem updateState_some (hs : HeartRateScanner) (id : Nat) (data : List Nat)
    (e : HeartRateScannerState) (pg : Page) (r : HeartRateSensorState × Page)
    (h : hs.states.lookup id = some e) (hp : hs.pages.lookup id = some pg)
    (hr : e.toHeartRateSensorState.update pg data = some r) :
    hs.updateState id data =
      some ({ hs with states := mapSet hs.states id { e with toHeartRateSensorState := r.1 },
                      pages := mapSet hs.pages id r.2 },
            hs.listeners.map fun cb =>
              (cb, ({ e with toHeartRateSensorState := r.1 } : HeartRateScannerState))) := by
  simp [HeartRateScanner.updateState, h, hp, hr]

theorem decodeData_steps {σ ε : Type} (impl : Scanner σ ε) (scanner : σ) (data : List Nat)
    (b0 b1 b2 b3 b4 b5 b6 b7 b8 b9 b10 b11 b12 b13 b14 b15 b16 b17 b18 b19 : Nat)
    (rest : List Nat)
    (hdata : data = b0 :: b1 :: b2 :: b3 :: b4 :: b5 :: b6 :: b7 :: b8 :: b9 :: b10 :: b11 ::
      b12 :: b13 :: b14 :: b15 :: b16 :: b17 :: b18 :: b19 :: rest)
    (hext : b12 &&& 0x80 ≠ 0) (htype : b15 = impl.deviceType scanner) :
    AntPlusScanner.decodeData impl scanner data =
      ((if b12 &&& 0x40 ≠ 0 ∧ b17 = 0x20 then
          impl.updateRssiAndThreshold (impl.createStateIfNew scanner (b13 ||| (b14 <<< 8)))
            (b13 ||| (b14 <<< 8)) b18 b19
        else some (impl.createStateIfNew scanner (b13 ||| (b14 <<< 8)))).bind fun s2 =>
        if b2 = 0x4E ∨ b2 = 0x4F ∨ b2 = 0x50 then
          impl.updateState s2 (b13 ||| (b14 <<< 8)) data
        else some (s2, [])) := by
  subst hdata
  unfold AntPlusScanner.decodeData
  simp only [BufferIndexExtMessageBegin, BufferIndexMessageType, littleEndianUint16,
    MessageChannelBroadcastData, MessageChannelAcknowledgedData, MessageChannelBurstData]
  by_cases h6 : b12 &&& 0x40 ≠ 0
  · by_cases h17 : b17 = 0x20
    · simp [hext, htype, h6, h17]
    · simp [hext, htype, h6, h17]
  · simp [hext, htype, h6]

theorem decodeData_other_type {σ ε : Type} (impl : Scanner σ ε) (scanner : σ)
    (b0 b1 b2 b3 b4 b5 b6 b7 b8 b9 b10 b11 b12 b13 b14 b15 : Nat) (rest : List Nat)
    (htype : b15 ≠ impl.deviceType scanner) :
    AntPlusScanner.decodeData impl scanner
        (b0 :: b1 :: b2 :: b3 :: b4 :: b5 :: b6 :: b7 :: b8 :: b9 :: b10 :: b11 ::
          b12 :: b13 :: b14 :: b15 :: rest) = some (scanner, []) := by
  unfold AntPlusScanner.decodeData
  simp [BufferIndexExtMessageBegin, htype]

theorem hr_rssi_step (hs : HeartRateScanner) (id rssi threshold : Nat) (cond : Prop)
    [Decidable cond] :
    ∃ hs2 e2 pg,
      (if cond then
          HeartRateScanner.scanner.updateRssiAndThreshold
            (HeartRateScanner.scanner.createStateIfNew hs id) id rssi threshold
        else some (HeartRateScanner.scanner.createStateIfNew hs id)) = some hs2 ∧
      hs2.states.lookup id = some e2 ∧ hs2.pages.lookup id = some pg ∧
      hs2.listeners = hs.listeners ∧
      (cond → e2.RSSI = rssi ∧ e2.Threshold = threshold) ∧
      (¬ cond →
        e2.RSSI = ((hs.states.lookup id).getD (NewHeartRateScannerState id)).RSSI ∧
        e2.Threshold =
          ((hs.states.lookup id).getD (NewHeartRateScannerState id)).Threshold) := by
  obtain ⟨pg, hpg⟩ := createStateIfNew_pages hs id
  have he := createStateIfNew_states hs id
  have hl := createStateIfNew_listeners hs id
  by_cases hc : cond
  · refine ⟨{ hs.createStateIfNew id with
        states := mapSet (hs.createStateIfNew id).states id
          { (hs.states.lookup id).getD (NewHeartRateScannerState id) with
            RSSI := rssi, Threshold := threshold } },
      { (hs.states.lookup id).getD (NewHeartRateScannerState id) with
        RSSI := rssi, Threshold := threshold }, pg, ?_, ?_, ?_, ?_, ?_, ?_⟩
    · rw [if_pos hc]
      exact updateRssi_some (hs.createStateIfNew id) id rssi threshold _ he
    · exact lookup_mapSet_self _ _ _
    · exact hpg
    · exact hl
    · intro _; exact ⟨rfl, rfl⟩
    · intro h; exact absurd hc h
  · refine ⟨hs.createStateIfNew id, _, pg, ?_, he, hpg, hl, ?_, ?_⟩
    · rw [if_neg hc]; rfl
    · intro h; exact absurd h hc
    · intro _; exact ⟨rfl, rfl⟩

theorem hr_decodeData (hs : HeartRateScanner) (data : List Nat)
    (b0 b1 b2 b3 b4 b5 b6 b7 b8 b9 b10 b11 b12 b13 b14 b15 b16 b17 b18 b19 : Nat)
    (rest : List Nat)
    (hdata : data = b0 :: b1 :: b2 :: b3 :: b4 :: b5 :: b6 :: b7 :: b8 :: b9 :: b10 :: b11 ::
      b12 :: b13 :: b14 :: b15 :: b16 :: b17 :: b18 :: b19 :: rest)
    (hext : b12 &&& 0x80 ≠ 0) (htype : b15 = 120) :
    ∃ hs1 calls e,
      AntPlusScanner.decodeData HeartRateScanner.scanner hs data = some (hs1, calls) ∧
      hs1.states.lookup (b13 ||| (b14 <<< 8)) = some e ∧
      (b12 &&& 0x40 ≠ 0 ∧ b17 = 0x20 → e.RSSI = b18 ∧ e.Threshold = b19) ∧
      (¬ (b12 &&& 0x40 ≠ 0 ∧ b17 = 0x20) →
        e.RSSI = ((hs.states.lookup (b13 ||| (b14 <<< 8))).getD
          (NewHeartRateScannerState (b13 ||| (b14 <<< 8)))).RSSI ∧
        e.Threshold = ((hs.states.lookup (b13 ||| (b14 <<< 8))).getD
          (NewHeartRateScannerState (b13 ||| (b14 <<< 8)))).Threshold) ∧
      (b2 = 0x4E ∨ b2 = 0x4F ∨ b2 = 0x50 → calls = hs.listeners.map fun cb => (cb, e)) ∧
      (¬ (b2 = 0x4E ∨ b2 = 0x4F ∨ b2 = 0x50) → calls = []) := by
  rw [decodeData_steps HeartRateScanner.scanner hs data b0 b1 b2 b3 b4 b5 b6 b7 b8 b9 b10 b11
    b12 b13 b14 b15 b16 b17 b18 b19 rest hdata hext htype]
  obtain ⟨hs2, e2, pg, hstep, he2, hpg, hl, hyes, hno⟩ :=
    hr_rssi_step hs (b13 ||| (b14 <<< 8)) b18 b19 (b12 &&& 0x40 ≠ 0 ∧ b17 = 0x20)
  rw [hstep, Option.some_bind]
  by_cases hm : b2 = 0x4E ∨ b2 = 0x4F ∨ b2 = 0x50
  · rw [if_pos hm]
    obtain ⟨r, hr⟩ := hr_update_some e2.toHeartRateSensorState pg b0 b1 b2 b3 b4 b5 b6 b7 b8 b9
      b10 b11 (b12 :: b13 :: b14 :: b15 :: b16 :: b17 :: b18 :: b19 :: rest)
    rw [← hdata] at hr
    refine ⟨{ hs2 with
        states := mapSet hs2.states (b13 ||| (b14 <<< 8))
          { e2 with toHeartRateSensorState := r.1 },
        pages := mapSet hs2.pages (b13 ||| (b14 <<< 8)) r.2 },
      hs2.listeners.map fun cb =>
        (cb, ({ e2 with toHeartRateSensorState := r.1 } : HeartRateScannerState)),
      { e2 with toHeartRateSensorState := r.1 }, ?_, ?_, hyes, hno, ?_, ?_⟩
    · exact updateState_some hs2 _ data e2 pg r he2 hpg hr
    · exact lookup_mapSet_self _ _ _
    · intro _; rw [hl]
    · intro h; exact absurd hm h
  · rw [if_neg hm]
    exact ⟨hs2, [], e2, rfl, he2, hyes, hno, fun h => absurd h hm, fun _ => rfl⟩

/-! ## Scanners: claims -/

/-- C24: for a frame of at least 20 bytes b0..b19 whose flags byte b12 has bit 7
set.  If b15 is the scanner's device type, `AntPlusScanner.decodeData` calls
`createStateIfNew` for the device id `b13 | b14 << 8`, then
`updateRssiAndThreshold` with b18 and b19 exactly when bit 6 of b12 is set and
b17 = 0x20, then, for a broadcast, acknowledged or burst frame, `updateState`
for that device id; otherwise it leaves the scanner as it is and calls
nothing.  For the heart-rate scanner (device type 120) this returns, the
device then has an entry, whose RSSI and Threshold are b18 and b19 under that
condition and otherwise those of the entry before (0 for a new one), and the
listeners are called with that entry for the three data frame types only. -/
theorem scanner_decodeData {σ ε : Type} (impl : Scanner σ ε) (scanner : σ)
    (hs : HeartRateScanner) (data : List Nat)
    (b0 b1 b2 b3 b4 b5 b6 b7 b8 b9 b10 b11 b12 b13 b14 b15 b16 b17 b18 b19 : Nat)
    (rest : List Nat)
    (hdata : data = b0 :: b1 :: b2 :: b3 :: b4 :: b5 :: b6 :: b7 :: b8 :: b9 :: b10 :: b11 ::
      b12 :: b13 :: b14 :: b15 :: b16 :: b17 :: b18 :: b19 :: rest)
    (hext : b12 &&& 0x80 ≠ 0) :
    (b15 = impl.deviceType scanner →
      AntPlusScanner.decodeData impl scanner data =
        ((if b12 &&& 0x40 ≠ 0 ∧ b17 = 0x20 then
            impl.updateRssiAndThreshold (impl.createStateIfNew scanner (b13 ||| (b14 <<< 8)))
              (b13 ||| (b14 <<< 8)) b18 b19
          else some (impl.createStateIfNew scanner (b13 ||| (b14 <<< 8)))).bind fun s2 =>
          if b2 = 0x4E ∨ b2 = 0x4F ∨ b2 = 0x50 then
            impl.updateState s2 (b13 ||| (b14 <<< 8)) data
          else some (s2, []))) ∧
    (b15 ≠ impl.deviceType scanner →
      AntPlusScanner.decodeData impl scanner data = some (scanner, [])) ∧
    (b15 = 120 →
      ∃ hs1 calls e,
        AntPlusScanner.decodeData HeartRateScanner.scanner hs data = some (hs1, calls) ∧
        hs1.states.lookup (b13 ||| (b14 <<< 8)) = some e ∧
        (b12 &&& 0x40 ≠ 0 ∧ b17 = 0x20 → e.RSSI = b18 ∧ e.Threshold = b19) ∧
        (¬ (b12 &&& 0x40 ≠ 0 ∧ b17 = 0x20) →
          e.RSSI = ((hs.states.lookup (b13 ||| (b14 <<< 8))).getD
            (NewHeartRateScannerState (b13 ||| (b14 <<< 8)))).RSSI ∧
          e.Threshold = ((hs.states.lookup (b13 ||| (b14 <<< 8))).getD
            (NewHeartRateScannerState (b13 ||| (b14 <<< 8)))).Threshold) ∧
        (b2 = 0x4E ∨ b2 = 0x4F ∨ b2 = 0x50 → calls = hs.listeners.map fun cb => (cb, e)) ∧
        (¬ (b2 = 0x4E ∨ b2 = 0x4F ∨ b2 = 0x50) → calls = [])) ∧
    (b15 ≠ 120 →
      AntPlusScanner.decodeData HeartRateScanner.scanner hs data = some (hs, [])) := by
  refine ⟨?_, ?_, ?_, ?_⟩
  · intro htype
    exact decodeData_steps impl scanner data b0 b1 b2 b3 b4 b5 b6 b7 b8 b9 b10 b11 b12 b13 b14
      b15 b16 b17 b18 b19 rest hdata hext htype
  · intro htype
    rw [hdata]
    exact decodeData_other_type impl scanner b0 b1 b2 b3 b4 b5 b6 b7 b8 b9 b10 b11 b12 b13 b14
      b15 _ htype
  · intro htype
    exact hr_decodeData hs data b0 b1 b2 b3 b4 b5 b6 b7 b8 b9 b10 b11 b12 b13 b14 b15 b16 b17
      b18 b19 rest hdata hext htype
  · intro htype
    rw [hdata]
    exact decodeData_other_type HeartRateScanner.scanner hs b0 b1 b2 b3 b4 b5 b6 b7 b8 b9 b10
      b11 b12 b13 b14 b15 _ htype

/-- C24 for the broadcast frame with extended bytes C0 34 12 78 01 20 C8 05 and a
heart-rate scanner without entries and with one listener: an entry for device
0x1234 with RSSI 200 and Threshold 5, and one listener call. -/
theorem scanner_decodeData_witness :
    (∃ hs1 calls e,
      AntPlusScanner.decodeData HeartRateScanner.scanner
        { states := [], pages := [], listeners := [7] }
        [0xA4, 0x0E, 0x4E, 0x00, 0x02, 0xAB, 0x34, 0x12, 0x10, 0x20, 0x05, 0x48,
         0xC0, 0x34, 0x12, 0x78, 0x01, 0x20, 0xC8, 0x05, 0x64] = some (hs1, calls) ∧
      hs1.states.lookup (0x34 ||| (0x12 <<< 8)) = some e ∧
      (0xC0 &&& 0x40 ≠ 0 ∧ 0x20 = 0x20 → e.RSSI = 0xC8 ∧ e.Threshold = 0x05) ∧
      (¬ (0xC0 &&& 0x40 ≠ 0 ∧ 0x20 = 0x20) →
        e.RSSI = ((([] : List (Nat × HeartRateScannerState)).lookup
          (0x34 ||| (0x12 <<< 8))).getD
            (NewHeartRateScannerState (0x34 ||| (0x12 <<< 8)))).RSSI ∧
        e.Threshold = ((([] : List (Nat × HeartRateScannerState)).lookup
          (0x34 ||| (0x12 <<< 8))).getD
            (NewHeartRateScannerState (0x34 ||| (0x12 <<< 8)))).Threshold) ∧
      (0x4E = 0x4E ∨ 0x4E = 0x4F ∨ 0x4E = 0x50 →
        calls = ([7] : List Nat).map fun cb => (cb, e)) ∧
      (¬ (0x4E = 0x4E ∨ 0x4E = 0x4F ∨ 0x4E = 0x50) → calls = [])) ∧
    (AntPlusScanner.decodeData HeartRateScanner.scanner
        { states := [], pages := [], listeners := [7] }
        [0xA4, 0x0E, 0x4E, 0x00, 0x02, 0xAB, 0x34, 0x12, 0x10, 0x20, 0x05, 0x48,
         0xC0, 0x34, 0x12, 0x78, 0x01, 0x20, 0xC8, 0x05, 0x64]).map
      (fun r => (r.1.states.map fun x => (x.1, x.2.DeviceID, x.2.RSSI, x.2.Threshold),
                 r.2.map Prod.fst)) =
      some ([(0x1234, 0x1234, 200, 5)], [7]) :=
  ⟨(scanner_decodeData HeartRateScanner.scanner { states := [], pages := [], listeners := [7] }
      { states := [], pages := [], listeners := [7] }
      [0xA4, 0x0E, 0x4E, 0x00, 0x02, 0xAB, 0x34, 0x12, 0x10, 0x20, 0x05, 0x48,
         0xC0, 0x34, 0x12, 0x78, 0x01, 0x20, 0xC8, 0x05, 0x64]
      0xA4 0x0E 0x4E 0x00 0x02 0xAB 0x34 0x12 0x10 0x20 0x05 0x48 0xC0 0x34 0x12 0x78 0x01 0x20
      0xC8 0x05 [0x64] rfl (by decide)).2.2.1 rfl,
    by decide⟩

/-! ## Scanner frames shorter than the RSSI block -/

theorem decodeData_short {σ ε : Type} (impl : Scanner σ ε) (scanner : σ)
    (b0 b1 b2 b3 b4 b5 b6 b7 b8 b9 b10 b11 b13 b14 b16 b18 : Nat) :
    AntPlusScanner.decodeData impl scanner
        [b0, b1, b2, b3, b4, b5, b6, b7, b8, b9, b10, b11, 0xC0, b13, b14,
         impl.deviceType scanner] = none ∧
    AntPlusScanner.decodeData impl scanner
        [b0, b1, b2, b3, b4, b5, b6, b7, b8, b9, b10, b11, 0xC0, b13, b14,
         impl.deviceType scanner, b16] = none ∧
    AntPlusScanner.decodeData impl scanner
        [b0, b1, b2, b3, b4, b5, b6, b7, b8, b9, b10, b11, 0xC0, b13, b14,
         impl.deviceType scanner, b16, 0x20] = none ∧
    AntPlusScanner.decodeData impl scanner
        [b0, b1, b2, b3, b4, b5, b6, b7, b8, b9, b10, b11, 0xC0, b13, b14,
         impl.deviceType scanner, b16, 0x20, b18] = none := by
  have a7 : ¬ ((192 : Nat) &&& 128 = 0) := by decide
  have a6 : ¬ ((192 : Nat) &&& 64 = 0) := by decide
  unfold AntPlusScanner.decodeData
  refine ⟨?_, ?_, ?_, ?_⟩ <;>
    simp only [BufferIndexExtMessageBegin, List.length_cons, List.length_nil, Nat.reduceAdd,
      Nat.reduceLeDiff, if_false, List.getElem?_cons_succ, List.getElem?_cons_zero,
      Option.bind_eq_bind, Option.some_bind, a7, a6, ne_eq, not_true_eq_false,
      not_false_eq_true, if_true, List.getElem?_nil, Option.none_bind]

/-- C31 fails in the code: the format guard of `AntPlusScanner.decodeData` only
asks for more than 15 bytes, yet with bit 6 of `data[12]` set the function
reads `data[17]` and, for the measurement type 0x20, `data[18]` and
`data[19]`.  For every scanner, a frame of 16 or 17 bytes with flags 0xC0 and
the scanner's device type panics at `data[17]`, one of 18 bytes with
`data[17] = 0x20` at `data[18]`, one of 19 bytes at `data[19]`; so does the
17-byte frame `A4 0D 4E 00 02 AB 34 12 10 20 05 48 C0 34 12 78 8B` on a
heart-rate scanner. -/
theorem decodeData_reads_past_guard {σ ε : Type} (impl : Scanner σ ε) (scanner : σ)
    (b0 b1 b2 b3 b4 b5 b6 b7 b8 b9 b10 b11 b13 b14 b16 b18 : Nat) :
    AntPlusScanner.decodeData impl scanner
        [b0, b1, b2, b3, b4, b5, b6, b7, b8, b9, b10, b11, 0xC0, b13, b14,
         impl.deviceType scanner] = none ∧
    AntPlusScanner.decodeData impl scanner
        [b0, b1, b2, b3, b4, b5, b6, b7, b8, b9, b10, b11, 0xC0, b13, b14,
         impl.deviceType scanner, b16] = none ∧
    AntPlusScanner.decodeData impl scanner
        [b0, b1, b2, b3, b4, b5, b6, b7, b8, b9, b10, b11, 0xC0, b13, b14,
         impl.deviceType scanner, b16, 0x20] = none ∧
    AntPlusScanner.decodeData impl scanner
        [b0, b1, b2, b3, b4, b5, b6, b7, b8, b9, b10, b11, 0xC0, b13, b14,
         impl.deviceType scanner, b16, 0x20, b18] = none ∧
    AntPlusScanner.decodeData HeartRateScanner.scanner
        { states := [], pages := [], listeners := [7] }
        [0xA4, 0x0D, 0x4E, 0x00, 0x02, 0xAB, 0x34, 0x12, 0x10, 0x20, 0x05, 0x48,
         0xC0, 0x34, 0x12, 0x78, 0x8B] = none := by
  obtain ⟨h16, h17, h18, h19⟩ :=
    decodeData_short impl scanner b0 b1 b2 b3 b4 b5 b6 b7 b8 b9 b10 b11 b13 b14 b16 b18
  exact ⟨h16, h17, h18, h19,
    (decodeData_short HeartRateScanner.scanner { states := [], pages := [], listeners := [7] }
      0xA4 0x0D 0x4E 0x00 0x02 0xAB 0x34 0x12 0x10 0x20 0x05 0x48 0x34 0x12 0x8B 0).2.1⟩

/-! ## Sensor frames -/

/-- C32 fails in the code: on a ChannelID response `A4 05 51 ch lo hi type tx`,
`AntPlusSensor.decodeData` stores `deviceID = data[4]`, the low byte of the
device number only (and `transmissionType = data[7]`).  For the device number
0x1234 it stores 0x34, and for 0x1200 it stores 0, so the sensor keeps
requesting the channel id.  (A data frame received while the device id is 0
does make the sensor write one RequestMessage(channel, ChannelID) and then
call `updateState`.) -/
theorem channelID_response_keeps_low_byte {σ ε : Type} (impl : Sensor σ ε)
    (sensor : BaseSensor) (state : σ) (b0 b1 ch lo hi devType txType : Nat)
    (rest : List Nat) :
    AntPlusSensor.decodeData impl sensor state
        (b0 :: b1 :: 0x51 :: ch :: lo :: hi :: devType :: txType :: rest) =
      some ({ sensor with deviceID := lo, transmissionType := txType }, state, []) ∧
    (AntPlusSensor.decodeData HeartRateSensor.sensor
        { channel := some 0, deviceID := 0, transmissionType := 0, messageQueue := [],
          decodeDataCallback := some 1, statusCallback := none }
        { state := (NewHeartRateScannerState 0).toHeartRateSensorState, page := Page.init,
          listeners := [7] }
        [0xA4, 0x05, 0x51, 0x00, 0x34, 0x12, 0x78, 0x01, 0xAF]).map
      (fun r => (r.1.deviceID, r.1.transmissionType)) = some (0x34, 0x01) ∧
    0x34 ||| (0x12 <<< 8) = 0x1234 ∧
    (AntPlusSensor.decodeData HeartRateSensor.sensor
        { channel := some 0, deviceID := 0, transmissionType := 0, messageQueue := [],
          decodeDataCallback := some 1, statusCallback := none }
        { state := (NewHeartRateScannerState 0).toHeartRateSensorState, page := Page.init,
          listeners := [7] }
        [0xA4, 0x05, 0x51, 0x00, 0x00, 0x12, 0x78, 0x01, 0x9B]).map
      (fun r => r.1.deviceID) = some 0 ∧
    (AntPlusSensor.decodeData HeartRateSensor.sensor
        { channel := some 0, deviceID := 0, transmissionType := 0, messageQueue := [],
          decodeDataCallback := some 1, statusCallback := none }
        { state := (NewHeartRateScannerState 0).toHeartRateSensorState, page := Page.init,
          listeners := [7] }
        [0xA4, 0x09, 0x4E, 0x00, 0x04, 0x00, 0x00, 0x00, 0x10, 0x20, 0x05, 0x48, 0x9A]).map
      (fun r => (r.2.2.map Sum.isLeft, r.2.2.filterMap Sum.getLeft?)) =
      some ([true, false], [Event.write [0xA4, 0x02, 0x4D, 0x00, 0x51, 0xBA]]) := by
  refine ⟨?_, by decide, by decide, by decide, by decide⟩
  simp [AntPlusSensor.decodeData, BufferIndexMessageType, BufferIndexMessageData,
    MessageChannelBroadcastData, MessageChannelAcknowledgedData, MessageChannelBurstData,
    MessageChannelID]

/-! ## Bike radar: targets B -/

/-- C33 fails in the code: on page 0x31 a threat level 0 for loop index i clears
`Targets[i]`, not `Targets[4 + i]`.  On a state whose eight slots are all
populated, the decoded frame with data bytes 31 6C 2D 10 84 21 43 21 (threat
levels 0, 3, 2, 1) sets slot 0 to nil and leaves slot 4 populated as before;
slots 5, 6, 7 get the new targets and slots 1, 2, 3 are unchanged. -/
theorem radar_targets_b_clears_low_slot :
    (BikeRadarSensorState.update
        { DeviceID := 0, OperatingTime := 0, ManID := 0, SerialNumber := 0, HWVersion := 0,
          SWVersion := 0, ModelNumber := 0, BatteryLevel := 0, BatteryVoltage := 0,
          BatteryStatus := "", DeviceStatus := "", ErrorLevel := "", ErrorDesc := "",
          ErrorComponent := 0, ManufacturerError := 0,
          Targets := List.replicate 8 (some { ThreatLevel := 1, ThreatSide := 1, Range := 1,
                                              Speed := 1 }) }
        { oldPage := 0xFF, pageState := .StdPage }
        [0xA4, 0x09, 0x4E, 0x00, 0x31, 0b01101100, 0b00101101, 0x10, 0x84, 0x21, 0x43, 0x21,
         0x44]).map (fun r => r.1.Targets) =
      some [none,
            some { ThreatLevel := 1, ThreatSide := 1, Range := 1, Speed := 1 },
            some { ThreatLevel := 1, ThreatSide := 1, Range := 1, Speed := 1 },
            some { ThreatLevel := 1, ThreatSide := 1, Range := 1, Speed := 1 },
            some { ThreatLevel := 1, ThreatSide := 1, Range := 1, Speed := 1 },
            some { ThreatLevel := 3, ThreatSide := 3, Range := 16, Speed := 4 },
            some { ThreatLevel := 2, ThreatSide := 2, Range := 8, Speed := 1 },
            some { ThreatLevel := 1, ThreatSide := 0, Range := 4, Speed := 2 }] ∧
    (0b01101100 >>> (2 * 0)) &&& 3 = 0 := by
  decide

/-! ## Reader loop: lemmas -/

theorem completeFrame_length (f : List Nat) (h : completeFrame f) :
    ∃ L, f[1]? = some L ∧ f.length = L + 4 := by
  obtain ⟨_, h2⟩ := h
  cases h1 : f[1]? with
  | none => simp [h1] at h2
  | some L =>
    refine ⟨L, rfl, ?_⟩
    simp [h1] at h2
    omega

theorem blocks_of_frames (fs : List (List Nat)) :
    ∀ (pre rest : List Nat) (fuel : Nat) (w : World),
      (∀ f ∈ fs, ∃ L, f[1]? = some L ∧ f.length = L + 4) → fs.length < fuel →
      Reader.blocks fuel w (pre ++ fs.flatten ++ rest) (pre.length + fs.flatten.length)
          pre.length =
        some ((USBDriver.readAll w fs).1,
          (USBDriver.readAll w fs).2.map fun w1 => (w1, none)) := by
  induction fs with
  | nil =>
    intro pre rest fuel w _ hfuel
    cases fuel with
    | zero => simp at hfuel
    | succ n => simp [Reader.blocks, USBDriver.readAll]
  | cons f fs ih =>
    intro pre rest fuel w hfs hfuel
    cases fuel with
    | zero => simp at hfuel
    | succ n =>
      obtain ⟨L, hL, hlen⟩ := hfs f (by simp)
      have hidx : (pre ++ (f :: fs).flatten ++ rest)[pre.length + 1]? = some L := by
        rw [List.append_assoc, List.getElem?_append_right (by omega)]
        have e : pre.length + 1 - pre.length = 1 := by omega
        rw [e, List.flatten_cons, List.append_assoc,
          List.getElem?_append_left (by omega)]
        exact hL
      have hdata : pre ++ (f :: fs).flatten ++ rest = (pre ++ f) ++ fs.flatten ++ rest := by
        simp
      have hl : pre.length + (f :: fs).flatten.length =
          (pre ++ f).length + fs.flatten.length := by
        simp; omega
      have hframe :
          List.take (L + 4) (List.drop pre.length (pre ++ (f :: fs).flatten ++ rest)) = f := by
        rw [List.append_assoc, List.drop_left, List.flatten_cons, List.append_assoc, ← hlen,
          List.take_left]
      have hend : pre.length + L + 4 = (pre ++ f).length := by
        simp; omega
      have h1 : pre.length < pre.length + (f :: fs).flatten.length := by
        simp; omega
      have h2 : ¬ pre.length + 1 = pre.length + (f :: fs).flatten.length := by
        simp; omega
      have h3 : ¬ pre.length + L + 4 > pre.length + (f :: fs).flatten.length := by
        simp; omega
      have h4 : pre.length + L + 4 - pre.length = L + 4 := by omega
      rw [Reader.blocks]
      simp only [h1, h2, h3, hidx, if_true, if_false, h4, hframe]
      cases hr : USBDriver.read w f with
      | none => simp [USBDriver.readAll, hr]
      | some w1 =>
        have hrec := ih (pre ++ f) rest n w1 (fun g hg => hfs g (by simp [hg]))
          (by simpa using hfuel)
        simp only [USBDriver.readAll, hr]
        rw [hend, hdata, hl, hrec]

theorem flatten_length_ge (fs : List (List Nat)) (h : ∀ f ∈ fs, 1 ≤ f.length) :
    fs.length ≤ fs.flatten.length := by
  induction fs with
  | nil => simp
  | cons f fs ih =>
    have h1 := h f (by simp)
    have h2 := ih (fun g hg => h g (by simp [hg]))
    rw [List.flatten_cons, List.length_append, List.length_cons]
    omega

theorem blocks_isSome (fuel : Nat) :
    ∀ (w : World) (data : List Nat) (l beginBlock : Nat), l < beginBlock + fuel →
      0 < fuel → (Reader.blocks fuel w data l beginBlock).isSome = true := by
  induction fuel with
  | zero => intro w data l b _ h; omega
  | succ n ih =>
    intro w data l b hfuel _
    rw [Reader.blocks]
    by_cases h1 : b < l
    · by_cases h2 : b + 1 = l
      · simp [h1, h2]
      · simp only [h1, h2, if_true, if_false]
        cases hget : data[b + 1]? with
        | none => simp
        | some L =>
          simp only
          by_cases h3 : b + L + 4 > l
          · simp [h3]
          · simp only [h3, if_false]
            cases hr : USBDriver.read w ((data.drop b).take (b + L + 4 - b)) with
            | none => simp
            | some w1 =>
              have hrec := ih w1 data l (b + L + 4) (by omega) (by omega)
              cases hb : Reader.blocks n w1 data l (b + L + 4) with
              | none => simp [hb] at hrec
              | some v => simp [hb]
    · simp [h1]

theorem accumulate_length (r : Reader) (chunk : List Nat) :
    chunk.length ≤ (r.accumulate chunk).length := by
  unfold Reader.accumulate
  simp only
  split
  · simp; omega
  · simp

theorem blocks_first_frame (fuel : Nat) (w : World) (data : List Nat) (l b : Nat)
    (f : List Nat) (fs : List (List Nat)) (out : Option (World × Option Nat))
    (h : Reader.blocks fuel w data l b = some (f :: fs, out)) :
    ∃ L, f = (data.drop b).take (L + 4) := by
  cases fuel with
  | zero => simp [Reader.blocks] at h
  | succ n =>
    rw [Reader.blocks] at h
    by_cases h1 : b < l
    · by_cases h2 : b + 1 = l
      · simp [h1, h2] at h
      · cases hget : data[b + 1]? with
        | none => simp [h1, h2, hget] at h
        | some L =>
          simp only [h1, h2, if_true, if_false, hget] at h
          by_cases h3 : b + L + 4 > l
          · simp [h3] at h
          · have e : b + L + 4 - b = L + 4 := by omega
            simp only [h3, if_false, e] at h
            cases hr : USBDriver.read w ((data.drop b).take (L + 4)) with
            | none =>
              simp only [hr, Option.some.injEq, Prod.mk.injEq, List.cons.injEq] at h
              exact ⟨L, h.1.1.symm⟩
            | some w1 =>
              cases hb : Reader.blocks n w1 data l (b + L + 4) with
              | none => simp [hr, hb] at h
              | some v =>
                simp only [hr, hb, Option.some.injEq, Prod.mk.injEq, List.cons.injEq] at h
                exact ⟨L, h.1.1.symm⟩
    · simp [h1] at h

theorem accumulate_head (r : Reader) (chunk : List Nat) (hne : chunk ≠ []) :
    ∃ first, (r.accumulate chunk)[0]? = some first := by
  have h := accumulate_length r chunk
  have hpos : 0 < chunk.length := List.length_pos.2 hne
  exact ⟨_, List.getElem?_eq_getElem (by omega)⟩

/-- Every iteration of the reader loop has an outcome: the iteration bound
`numBytes + 1` of the inner loop is never exhausted. -/
theorem step_isSome (r : Reader) (w : World) (chunk : List Nat) :
    (r.step w chunk).isSome = true := by
  unfold Reader.step
  by_cases h0 : chunk.length = 0
  · simp [h0]
  · have hne : chunk ≠ [] := fun h => h0 (by simp [h])
    obtain ⟨first, hfirst⟩ := accumulate_head r chunk hne
    simp only [h0, if_false, hfirst]
    by_cases hs : first ≠ MessageTXSync
    · simp [hs]
    · have hb := blocks_isSome (chunk.length + 1) w (r.accumulate chunk) chunk.length 0
        (by omega) (by omega)
      simp only [hs, if_false]
      cases hv : Reader.blocks (chunk.length + 1) w (r.accumulate chunk) chunk.length 0 with
      | none => simp [hv] at hb
      | some v =>
        obtain ⟨frames, out⟩ := v
        cases out <;> simp

theorem readAll_initial (fs : List (List Nat)) :
    ∀ (w : World), (USBDriver.readAll w fs).1 <+: fs ∧
      (∀ w1, (USBDriver.readAll w fs).2 = some w1 → (USBDriver.readAll w fs).1 = fs) := by
  induction fs with
  | nil => intro w; simp [USBDriver.readAll]
  | cons f rest ih =>
    intro w
    cases hr : USBDriver.read w f with
    | none =>
      simp only [USBDriver.readAll, hr]
      exact ⟨⟨rest, rfl⟩, fun w1 h => by simp at h⟩
    | some w1 =>
      simp only [USBDriver.readAll, hr]
      obtain ⟨hp, hall⟩ := ih w1
      refine ⟨?_, fun w2 h => by rw [hall w2 h]⟩
      obtain ⟨t, ht⟩ := hp
      exact ⟨t, by rw [List.cons_append, ht]⟩


/-! ## Reader loop: claims -/

/-- C4: a frame split right after its SYNC byte is not reassembled.  With a
64-byte read buffer and a driver without sensors, the first read returns a
StartUp frame followed by the SYNC byte of a second StartUp frame, the second
read returns the remaining four bytes `01 6F 20 EA`.  Both are well-formed
frames, yet the second block handed to `drv.read` is `A4 00 00 00`: the bytes
kept in `leftOver` run to the end of the read buffer, and only the first
`numBytes` bytes of the accumulated buffer are scanned.  Neither call of
`drv.read` panics. -/
theorem reader_split_after_sync :
    completeFrame [0xA4, 0x01, 0x6F, 0x20, 0xEA] ∧
    ((Reader.init 64).run
        { drv := { usedChannels := 0, attachedSensors := [], startupCallbacks := [],
                   MaxChannels := 0, CanScan := false },
          sensors := [], trace := [] }
        [[0xA4, 0x01, 0x6F, 0x20, 0xEA, 0xA4], [0x01, 0x6F, 0x20, 0xEA]]).map ReadResult.frames =
      some [[0xA4, 0x01, 0x6F, 0x20, 0xEA], [0xA4, 0x00, 0x00, 0x00]] ∧
    ((Reader.init 64).run
        { drv := { usedChannels := 0, attachedSensors := [], startupCallbacks := [],
                   MaxChannels := 0, CanScan := false },
          sensors := [], trace := [] }
        [[0xA4, 0x01, 0x6F, 0x20, 0xEA, 0xA4], [0x01, 0x6F, 0x20, 0xEA]]).map ReadResult.isFatal =
      some false ∧
    ((Reader.init 64).run
        { drv := { usedChannels := 0, attachedSensors := [], startupCallbacks := [],
                   MaxChannels := 0, CanScan := false },
          sensors := [], trace := [] }
        [[0xA4, 0x01, 0x6F, 0x20, 0xEA, 0xA4], [0x01, 0x6F, 0x20, 0xEA]]).map
        ReadResult.isPanicked = some false ∧
    ((Reader.init 64).run
        { drv := { usedChannels := 0, attachedSensors := [], startupCallbacks := [],
                   MaxChannels := 0, CanScan := false },
          sensors := [], trace := [] }
        [[0xA4, 0x01, 0x6F, 0x20, 0xEA, 0xA4], [0x01, 0x6F, 0x20, 0xEA]]).map ReadResult.leftOver =
      some none := by
  decide

/-- C5 as stated fails: a panic in `drv.read` ends the reader goroutine, so the
frames behind it are not dispatched.  With empty `leftOver`, one read returns
the two complete frames `A4 00 40 E4` and `A4 01 6F 20 EA`: `drv.read` is
called once, on the first frame, and panics at `data[4]`.  Likewise one read of
the ChannelEvent (MessageRF, EventRXFailed) for channel 0 and a StartUp frame,
with a sensor attached on channel 0 whose send queue is empty: one call. -/
theorem step_stops_at_panic :
    completeFrame [0xA4, 0x00, 0x40, 0xE4] ∧ completeFrame [0xA4, 0x01, 0x6F, 0x20, 0xEA] ∧
    (Reader.init 64).step
        { drv := { usedChannels := 0, attachedSensors := [], startupCallbacks := [],
                   MaxChannels := 0, CanScan := false },
          sensors := [], trace := [] }
        ([0xA4, 0x00, 0x40, 0xE4] ++ [0xA4, 0x01, 0x6F, 0x20, 0xEA]) =
      some (.panicked [[0xA4, 0x00, 0x40, 0xE4]]) ∧
    completeFrame [0xA4, 0x03, 0x40, 0x00, 0x01, 0x02, 0xE4] ∧
    (Reader.init 64).step
        { drv := { usedChannels := 1, attachedSensors := [0], startupCallbacks := [],
                   MaxChannels := 8, CanScan := true },
          sensors := [{ channel := some 0, deviceID := 0x1234, transmissionType := 1,
                        messageQueue := [], decodeDataCallback := some 1,
                        statusCallback := some (StatusCallback.attach 0 0x1234 120 30 8070 57 1) }],
          trace := [] }
        ([0xA4, 0x03, 0x40, 0x00, 0x01, 0x02, 0xE4] ++ [0xA4, 0x01, 0x6F, 0x20, 0xEA]) =
      some (.panicked [[0xA4, 0x03, 0x40, 0x00, 0x01, 0x02, 0xE4]]) := by
  decide

/-- C5 amended: with empty `leftOver`, a read that returns the concatenation of
k ≥ 1 complete frames makes the loop call `drv.read` on these frames, in
order and each with exactly its bytes, until a call panics.  If every call
returns, there are exactly k calls, `leftOver` is left empty and the world is
the one after the k calls (the buffer then holds the chunk over its first
bytes); if a call panics, the goroutine ends with the calls made so far, a
prefix of the k frames. -/
theorem step_aggregated_frames (r : Reader) (w : World) (fs : List (List Nat))
    (hleft : r.leftOver = none) (hne : fs ≠ []) (hfs : ∀ f ∈ fs, completeFrame f) :
    (∀ w1, (USBDriver.readAll w fs).2 = some w1 →
      r.step w fs.flatten =
        some (.ok fs w1
          { data := fs.flatten ++ r.data.drop fs.flatten.length, leftOver := none })) ∧
    ((USBDriver.readAll w fs).2 = none →
      r.step w fs.flatten = some (.panicked (USBDriver.readAll w fs).1)) ∧
    (USBDriver.readAll w fs).1 <+: fs := by
  have hlenf : ∀ f ∈ fs, ∃ L, f[1]? = some L ∧ f.length = L + 4 :=
    fun f hf => completeFrame_length f (hfs f hf)
  have hpos : ∀ f ∈ fs, 1 ≤ f.length := by
    intro f hf
    obtain ⟨L, _, hl⟩ := hlenf f hf
    omega
  have hge := flatten_length_ge fs hpos
  have hacc : r.accumulate fs.flatten = fs.flatten ++ r.data.drop fs.flatten.length := by
    simp [Reader.accumulate, Reader.leftOverBytes, hleft]
  obtain ⟨f, rest, hcons⟩ := List.exists_cons_of_ne_nil hne
  have hf := hfs f (by simp [hcons])
  obtain ⟨a, f1, hf1⟩ : ∃ a f1, f = a :: f1 := by
    cases f with
    | nil => have := hpos [] (by simp [hcons]); simp at this
    | cons a f1 => exact ⟨a, f1, rfl⟩
  have ha : a = MessageTXSync := by
    have := hf.1
    rw [hf1] at this
    simpa using this
  have hhead : (fs.flatten ++ r.data.drop fs.flatten.length)[0]? = some MessageTXSync := by
    rw [hcons, hf1, ha]
    simp
  have hblocks := blocks_of_frames fs [] (r.data.drop fs.flatten.length)
    (fs.flatten.length + 1) w hlenf (by omega)
  simp only [List.nil_append, List.length_nil, Nat.zero_add] at hblocks
  have hlen0 : ¬ fs.flatten.length = 0 := by
    rw [hcons, hf1]
    simp
  have hstep : r.step w fs.flatten =
      match (USBDriver.readAll w fs).2 with
      | none => some (.panicked (USBDriver.readAll w fs).1)
      | some w1 =>
        some (.ok (USBDriver.readAll w fs).1 w1
          { data := fs.flatten ++ r.data.drop fs.flatten.length, leftOver := none }) := by
    unfold Reader.step
    simp only [hlen0, if_false, hacc, hhead, ne_eq, not_true_eq_false, hblocks]
    cases (USBDriver.readAll w fs).2 <;> rfl
  refine ⟨?_, ?_, (readAll_initial fs w).1⟩
  · intro w1 h1
    rw [hstep, h1, (readAll_initial fs w).2 w1 h1]
  · intro h1
    rw [hstep, h1]

/-- C5 amended, on a 64-byte buffer and a driver without sensors: a StartUp frame
and a Capabilities frame in one read are both dispatched. -/
theorem step_aggregated_frames_witness :
    (Reader.init 64).step
        { drv := { usedChannels := 0, attachedSensors := [], startupCallbacks := [],
                   MaxChannels := 0, CanScan := false },
          sensors := [], trace := [] }
        ([[0xA4, 0x01, 0x6F, 0x20, 0xEA],
          [0xA4, 0x08, 0x54, 0x08, 0x00, 0x02, 0x06, 0x06, 0x00, 0x00, 0x00, 0xF2]].flatten) =
      some (.ok [[0xA4, 0x01, 0x6F, 0x20, 0xEA],
                 [0xA4, 0x08, 0x54, 0x08, 0x00, 0x02, 0x06, 0x06, 0x00, 0x00, 0x00, 0xF2]]
        { drv := { usedChannels := 0, attachedSensors := [], startupCallbacks := [],
                   MaxChannels := 8, CanScan := true },
          sensors := [],
          trace := [Event.write [0xA4, 0x02, 0x4D, 0x00, 0x54, 0xBF], Event.write setNetworkKey] }
        { data := [[0xA4, 0x01, 0x6F, 0x20, 0xEA],
                   [0xA4, 0x08, 0x54, 0x08, 0x00, 0x02, 0x06, 0x06, 0x00, 0x00, 0x00, 0xF2]].flatten ++
                  (Reader.init 64).data.drop
                    ([[0xA4, 0x01, 0x6F, 0x20, 0xEA],
                      [0xA4, 0x08, 0x54, 0x08, 0x00, 0x02, 0x06, 0x06, 0x00, 0x00, 0x00,
                        0xF2]].flatten.length),
          leftOver := none }) :=
  (step_aggregated_frames (Reader.init 64) _ _ rfl (by decide) (by decide)).1 _ (by decide)

/-- C6 as stated fails: the byte that follows a dispatched frame is not checked.
On a driver without sensors, a read of `A4 00 6F CB 00 00 00 00` is not fatal
and hands `drv.read` the block `00 00 00 00`, which does not begin with 0xA4
(both calls return). -/
theorem step_unchecked_boundary :
    ((Reader.init 64).step
        { drv := { usedChannels := 0, attachedSensors := [], startupCallbacks := [],
                   MaxChannels := 0, CanScan := false },
          sensors := [], trace := [] }
        [0xA4, 0x00, 0x6F, 0xCB, 0x00, 0x00, 0x00, 0x00]).map
        (fun res => (res.isFatal, res.isPanicked)) = some (false, false) ∧
    ((Reader.init 64).step
        { drv := { usedChannels := 0, attachedSensors := [], startupCallbacks := [],
                   MaxChannels := 0, CanScan := false },
          sensors := [], trace := [] }
        [0xA4, 0x00, 0x6F, 0xCB, 0x00, 0x00, 0x00, 0x00]).map
        ReadResult.frames = some [[0xA4, 0x00, 0x6F, 0xCB], [0x00, 0x00, 0x00, 0x00]] := by
  decide

/-- C6 amended: for a read with empty `leftOver`, when the first byte of the
read is not 0xA4 the iteration is the fatal exit, nothing is handed to
`drv.read` and the world is unchanged; the iteration always has an outcome,
and whatever the outcome, the first block handed to `drv.read` begins with
0xA4.  (The byte that follows a dispatched block is not compared with SYNC.) -/
theorem step_sync_check (r : Reader) (w : World) (chunk : List Nat) (first : Nat)
    (hleft : r.leftOver = none) (hfirst : chunk[0]? = some first) :
    (first ≠ 0xA4 → r.step w chunk = some (.fatal [] w)) ∧
    (∃ res, r.step w chunk = some res) ∧
    (∀ res f, r.step w chunk = some res → res.frames[0]? = some f → f[0]? = some 0xA4) := by
  have hne : chunk ≠ [] := by
    intro h; rw [h] at hfirst; simp at hfirst
  have h0 : ¬ chunk.length = 0 := fun h => hne (List.length_eq_zero.1 h)
  have hacc : r.accumulate chunk = chunk ++ r.data.drop chunk.length := by
    simp [Reader.accumulate, Reader.leftOverBytes, hleft]
  have hhead : (r.accumulate chunk)[0]? = some first := by
    rw [hacc, List.getElem?_append_left (by omega)]
    exact hfirst
  refine ⟨?_, Option.isSome_iff_exists.1 (step_isSome r w chunk), ?_⟩
  · intro hs
    have hs2 : first ≠ MessageTXSync := hs
    unfold Reader.step
    simp [h0, hhead, hs2]
  · intro res f hstep hf
    unfold Reader.step at hstep
    simp only [h0, if_false, hhead] at hstep
    by_cases hs : first ≠ MessageTXSync
    · rw [if_pos hs] at hstep
      simp only [Option.some.injEq] at hstep
      rw [← hstep] at hf
      simp [ReadResult.frames] at hf
    · have hs2 : first = MessageTXSync := by
        by_contra h; exact hs h
      rw [if_neg hs] at hstep
      cases hv : Reader.blocks (chunk.length + 1) w (r.accumulate chunk) chunk.length 0 with
      | none => simp [hv] at hstep
      | some v =>
        obtain ⟨frames, out⟩ := v
        have hframes : res.frames = frames := by
          cases out with
          | none =>
            simp only [hv, Option.some.injEq] at hstep
            rw [← hstep]; rfl
          | some o =>
            simp only [hv, Option.some.injEq] at hstep
            rw [← hstep]; rfl
        rw [hframes] at hf
        cases frames with
        | nil => simp at hf
        | cons g gs =>
          simp only [List.getElem?_cons_zero, Option.some.injEq] at hf
          obtain ⟨L, hL⟩ := blocks_first_frame _ _ _ _ _ _ _ _ hv
          rw [← hf, hL, List.drop_zero, List.getElem?_take]
          simp only [show 0 < L + 4 by omega, if_true]
          rw [hhead, hs2]
          rfl

/-- C6 amended, on a 64-byte buffer: a read that starts with 0x00 is fatal. -/
theorem step_sync_check_witness :
    (Reader.init 64).step
        { drv := { usedChannels := 0, attachedSensors := [], startupCallbacks := [],
                   MaxChannels := 0, CanScan := false },
          sensors := [], trace := [] }
        [0x00, 0xA4, 0x00, 0x6F, 0xCB] =
      some (.fatal []
        { drv := { usedChannels := 0, attachedSensors := [], startupCallbacks := [],
                   MaxChannels := 0, CanScan := false },
          sensors := [], trace := [] }) :=
  (step_sync_check (Reader.init 64) _ [0x00, 0xA4, 0x00, 0x6F, 0xCB] 0x00 rfl rfl).1 (by decide)

/-! ## Speed sensor: lemmas -/

theorem call_returned_bind {σ α β : Type} (a : α) (f : α → Call σ β) :
    (Call.returned a >>= f) = f a := rfl

theorem call_panicked_bind {σ α β : Type} (s : σ) (f : α → Call σ β) :
    ((Call.panicked s : Call σ α) >>= f) = Call.panicked s := rfl

theorem call_pure {σ α : Type} (a : α) : (pure a : Call σ α) = Call.returned a := rfl

theorem speed_index_some (s : SpeedSensorState) (data : List Nat) (i b : Nat)
    (h : data[i]? = some b) : s.index data i = Call.returned b := by
  simp [SpeedSensorState.index, h]

theorem speed_index_none (s : SpeedSensorState) (data : List Nat) (i : Nat)
    (h : data[i]? = none) : s.index data i = Call.panicked s := by
  simp [SpeedSensorState.index, h]

theorem speed_uint16_some (s : SpeedSensorState) (data beyond : List Nat) (a b0 b1 : Nat)
    (h0 : (data ++ beyond)[a]? = some b0) (h1 : (data ++ beyond)[a + 1]? = some b1) :
    s.uint16 data beyond a = Call.returned (littleEndianUint16 b0 b1) := by
  simp [SpeedSensorState.uint16, h0, h1]

theorem speed_uint16_cases (s : SpeedSensorState) (data beyond : List Nat) (a : Nat) :
    s.uint16 data beyond a = Call.panicked s ∨
    ∃ b0 b1, (data ++ beyond)[a]? = some b0 ∧ (data ++ beyond)[a + 1]? = some b1 ∧
      s.uint16 data beyond a = Call.returned (littleEndianUint16 b0 b1) := by
  unfold SpeedSensorState.uint16
  cases h0 : (data ++ beyond)[a]? with
  | none => left; rfl
  | some b0 =>
    cases h1 : (data ++ beyond)[a + 1]? with
    | none => left; rfl
    | some b1 => right; exact ⟨b0, b1, rfl, rfl, rfl⟩

theorem speed_index_cases (s : SpeedSensorState) (data : List Nat) (i : Nat) :
    s.index data i = Call.panicked s ∨ ∃ b, data[i]? = some b ∧ s.index data i = Call.returned b := by
  unfold SpeedSensorState.index
  cases h : data[i]? with
  | none => left; rfl
  | some b => right; exact ⟨b, rfl, rfl⟩

/-- The page switch, returned or panicked, leaves the four speed fields. -/
theorem speed_page_keeps (s : SpeedSensorState) (id : Nat) (data beyond : List Nat) :
    (s.page id data beyond).state.SpeedEventTime = s.SpeedEventTime ∧
    (s.page id data beyond).state.CumulativeSpeedRevolutionCount =
      s.CumulativeSpeedRevolutionCount ∧
    (s.page id data beyond).state.CalculatedDistance = s.CalculatedDistance ∧
    (s.page id data beyond).state.CalculatedSpeed = s.CalculatedSpeed := by
  unfold SpeedSensorState.page
  simp only [SpeedSensorState.index, SpeedSensorState.uint16]
  split_ifs
  all_goals
    repeat' split
  all_goals
    simp [bind, Call.bind, pure, Call.state]

theorem speed_page_returns (s : SpeedSensorState) (id : Nat) (data beyond : List Nat)
    (hlen : 8 ≤ data.length) : ∃ sp, s.page id data beyond = Call.returned sp := by
  have g : ∀ i, i < 8 → ∃ b, data[i]? = some b := fun i hi =>
    ⟨data[i], List.getElem?_eq_getElem (by omega)⟩
  obtain ⟨b5, h5⟩ := g 5 (by omega)
  obtain ⟨b6, h6⟩ := g 6 (by omega)
  obtain ⟨b7, h7⟩ := g 7 (by omega)
  have a6 : (data ++ beyond)[6]? = some b6 := by
    rw [List.getElem?_append_left (by omega)]; exact h6
  have a7 : (data ++ beyond)[7]? = some b7 := by
    rw [List.getElem?_append_left (by omega)]; exact h7
  unfold SpeedSensorState.page
  simp only [SpeedSensorState.index, SpeedSensorState.uint16, BufferIndexMessageData]
  split_ifs <;> simp [h5, h6, h7, a6, a7, bind, Call.bind, pure]

/-- The event-time part of `update`, on the state `sp` left by the page switch
and the four bytes read through the slice expressions. -/
theorem speed_update_explicit (s sp : SpeedSensorState) (data beyond : List Nat)
    (p t0 t1 c0 c1 : Nat) (hp : data[4]? = some p)
    (hsp : s.page (pageId p) data beyond = Call.returned sp)
    (h8 : (data ++ beyond)[8]? = some t0) (h9 : (data ++ beyond)[9]? = some t1)
    (h10 : (data ++ beyond)[10]? = some c0) (h11 : (data ++ beyond)[11]? = some c1) :
    ∃ s1, s.update data beyond = Call.returned s1 ∧
      s1.OperatingTime = sp.OperatingTime ∧
      s1.BatteryStatus = sp.BatteryStatus ∧
      s1.BatteryVoltage = sp.BatteryVoltage ∧
      (t0 ||| (t1 <<< 8) = sp.SpeedEventTime → s1 = sp) ∧
      (t0 ||| (t1 <<< 8) ≠ sp.SpeedEventTime →
        s1.SpeedEventTime = t0 ||| (t1 <<< 8) ∧
        s1.CumulativeSpeedRevolutionCount = c0 ||| (c1 <<< 8) ∧
        (speedDeno sp.SpeedEventTime (t0 ||| (t1 <<< 8)) = 0 →
          s1.CalculatedSpeed = sp.CalculatedSpeed) ∧
        (speedDeno sp.SpeedEventTime (t0 ||| (t1 <<< 8)) ≠ 0 →
          s1.CalculatedSpeed =
            (s1.CalculatedDistance, speedDeno sp.SpeedEventTime (t0 ||| (t1 <<< 8))))) := by
  unfold SpeedSensorState.update
  simp only [BufferIndexMessageData]
  rw [speed_index_some s data 4 p hp, call_returned_bind, hsp, call_returned_bind,
    speed_uint16_some sp data beyond (4 + 4) t0 t1 h8 h9, call_returned_bind,
    speed_uint16_some sp data beyond (4 + 6) c0 c1 h10 h11, call_returned_bind]
  simp only [littleEndianUint16, call_pure]
  by_cases he : t0 ||| (t1 <<< 8) = sp.SpeedEventTime
  · refine ⟨sp, ?_, rfl, rfl, rfl, fun _ => rfl, fun h => absurd he h⟩
    simp [he]
  · by_cases hd : speedDeno sp.SpeedEventTime (t0 ||| (t1 <<< 8)) = 0
    · refine ⟨{ sp with
          SpeedEventTime := t0 ||| (t1 <<< 8),
          CumulativeSpeedRevolutionCount := c0 ||| (c1 <<< 8),
          CalculatedDistance :=
            ((if sp.CumulativeSpeedRevolutionCount > c0 ||| (c1 <<< 8)
                then (c0 ||| (c1 <<< 8)) + 1024 * 64 else c0 ||| (c1 <<< 8)) +
              2 ^ 32 - sp.CumulativeSpeedRevolutionCount) % 2 ^ 32 },
        ?_, rfl, rfl, rfl, fun h => absurd h he,
        fun _ => ⟨rfl, rfl, fun _ => rfl, fun h => absurd hd h⟩⟩
      have hd2 := hd
      unfold speedDeno at hd2
      simp only at hd2
      rw [if_pos he, if_pos hd2]
    · refine ⟨{ sp with
          SpeedEventTime := t0 ||| (t1 <<< 8),
          CumulativeSpeedRevolutionCount := c0 ||| (c1 <<< 8),
          CalculatedDistance :=
            ((if sp.CumulativeSpeedRevolutionCount > c0 ||| (c1 <<< 8)
                then (c0 ||| (c1 <<< 8)) + 1024 * 64 else c0 ||| (c1 <<< 8)) +
              2 ^ 32 - sp.CumulativeSpeedRevolutionCount) % 2 ^ 32,
          CalculatedSpeed :=
            (((if sp.CumulativeSpeedRevolutionCount > c0 ||| (c1 <<< 8)
                then (c0 ||| (c1 <<< 8)) + 1024 * 64 else c0 ||| (c1 <<< 8)) +
              2 ^ 32 - sp.CumulativeSpeedRevolutionCount) % 2 ^ 32,
             speedDeno sp.SpeedEventTime (t0 ||| (t1 <<< 8))) },
        ?_, rfl, rfl, rfl, fun h => absurd h he,
        fun _ => ⟨rfl, rfl, fun h => absurd h hd, fun _ => rfl⟩⟩
      have hd2 := hd
      unfold speedDeno at hd2
      simp only at hd2
      rw [if_pos he, if_neg hd2]
      rfl

/-- The ways a call of `update` ends: a panic at the page byte, a panic in the
page switch, a panic at one of the two slice expressions, or a return after all
reads. -/
theorem speed_update_shape (s : SpeedSensorState) (data beyond : List Nat) :
    s.update data beyond = Call.panicked s ∨
    (∃ p s1, s.page (pageId p) data beyond = Call.panicked s1 ∧
      s.update data beyond = Call.panicked s1) ∨
    (∃ p sp, s.page (pageId p) data beyond = Call.returned sp ∧
      s.update data beyond = Call.panicked sp) ∨
    (∃ p sp t0 t1 c0 c1, data[4]? = some p ∧
      s.page (pageId p) data beyond = Call.returned sp ∧
      (data ++ beyond)[8]? = some t0 ∧ (data ++ beyond)[9]? = some t1 ∧
      (data ++ beyond)[10]? = some c0 ∧ (data ++ beyond)[11]? = some c1) := by
  rcases speed_index_cases s data 4 with h | ⟨p, hp, h⟩
  · left
    unfold SpeedSensorState.update
    simp only [BufferIndexMessageData]
    rw [h, call_panicked_bind]
  · right
    cases hsp : s.page (pageId p) data beyond with
    | panicked s1 =>
      left
      refine ⟨p, s1, hsp, ?_⟩
      unfold SpeedSensorState.update
      simp only [BufferIndexMessageData]
      rw [h, call_returned_bind, hsp, call_panicked_bind]
    | returned sp =>
      right
      rcases speed_uint16_cases sp data beyond (4 + 4) with h8 | ⟨t0, t1, h8, h9, ht⟩
      · left
        refine ⟨p, sp, hsp, ?_⟩
        unfold SpeedSensorState.update
        simp only [BufferIndexMessageData]
        rw [h, call_returned_bind, hsp, call_returned_bind, h8, call_panicked_bind]
      · rcases speed_uint16_cases sp data beyond (4 + 6) with h10 | ⟨c0, c1, h10, h11, hc⟩
        · left
          refine ⟨p, sp, hsp, ?_⟩
          unfold SpeedSensorState.update
          simp only [BufferIndexMessageData]
          rw [h, call_returned_bind, hsp, call_returned_bind, ht, call_returned_bind, h10,
            call_panicked_bind]
        · right
          exact ⟨p, sp, t0, t1, c0, c1, hp, hsp, h8, h9, h10, h11⟩

theorem littleEndianUint16_lt (b0 b1 : Nat) (h0 : b0 < 256) (h1 : b1 < 256) :
    littleEndianUint16 b0 b1 < 65536 := by
  unfold littleEndianUint16
  have : (65536 : Nat) = 2 ^ 16 := by norm_num
  rw [this]
  apply Nat.or_lt_two_pow
  · omega
  · rw [Nat.shiftLeft_eq]; omega

theorem speedDeno_range (old new : Nat) (hold : old < 65536) (hnew : new < 65536)
    (hne : new ≠ old) :
    speedDeno old new = (new + 65536 - old) % 65536 ∧
    ((speedDeno old new : Nat) : Int) = ((new : Int) - (old : Int)) % 65536 ∧
    1 ≤ speedDeno old new ∧ speedDeno old new ≤ 65535 := by
  unfold speedDeno
  simp only
  norm_num
  split_ifs <;> omega

/-- The four speed fields after a call of `update` that did not return. -/
theorem speed_update_panicked (s s1 : SpeedSensorState) (data beyond : List Nat)
    (h : s.update data beyond = Call.panicked s1) :
    s1.SpeedEventTime = s.SpeedEventTime ∧
    s1.CumulativeSpeedRevolutionCount = s.CumulativeSpeedRevolutionCount ∧
    s1.CalculatedDistance = s.CalculatedDistance ∧
    s1.CalculatedSpeed = s.CalculatedSpeed := by
  rcases speed_update_shape s data beyond with h1 | ⟨p, s2, hpg, h1⟩ | ⟨p, sp, hpg, h1⟩ |
    ⟨p, sp, t0, t1, c0, c1, hp, hsp, h8, h9, h10, h11⟩
  · rw [h1] at h
    cases h
    exact ⟨rfl, rfl, rfl, rfl⟩
  · rw [h1] at h
    cases h
    have k := speed_page_keeps s (pageId p) data beyond
    rw [hpg] at k
    exact k
  · rw [h1] at h
    cases h
    have k := speed_page_keeps s (pageId p) data beyond
    rw [hpg] at k
    exact k
  · obtain ⟨s2, h2, _⟩ := speed_update_explicit s sp data beyond p t0 t1 c0 c1 hp hsp h8 h9
      h10 h11
    rw [h2] at h
    cases h

theorem speed_update_time_lt (s : SpeedSensorState) (data beyond : List Nat)
    (hb : ∀ b ∈ data ++ beyond, b < 256) (hs : s.SpeedEventTime < 65536) :
    (s.update data beyond).state.SpeedEventTime < 65536 := by
  cases hu : s.update data beyond with
  | panicked s1 =>
    have k := (speed_update_panicked s s1 data beyond hu).1
    show s1.SpeedEventTime < 65536
    rw [k]; exact hs
  | returned s1 =>
    show s1.SpeedEventTime < 65536
    rcases speed_update_shape s data beyond with h1 | ⟨p, s2, hpg, h1⟩ | ⟨p, sp, hpg, h1⟩ |
      ⟨p, sp, t0, t1, c0, c1, hp, hsp, h8, h9, h10, h11⟩
    · rw [h1] at hu; cases hu
    · rw [h1] at hu; cases hu
    · rw [h1] at hu; cases hu
    · obtain ⟨s2, h2, _, _, _, heq, hne⟩ := speed_update_explicit s sp data beyond p t0 t1
        c0 c1 hp hsp h8 h9 h10 h11
      rw [h2] at hu
      cases hu
      have k := speed_page_keeps s (pageId p) data beyond
      rw [hsp] at k
      by_cases he : t0 ||| (t1 <<< 8) = sp.SpeedEventTime
      · rw [heq he]
        have k1 : sp.SpeedEventTime = s.SpeedEventTime := k.1
        rw [k1]; exact hs
      · rw [(hne he).1]
        exact littleEndianUint16_lt t0 t1 (hb t0 (List.mem_iff_getElem?.2 ⟨_, h8⟩))
          (hb t1 (List.mem_iff_getElem?.2 ⟨_, h9⟩))

theorem speed_updates_time_lt (frames : List (List Nat × List Nat)) :
    ∀ (s : SpeedSensorState), (∀ f ∈ frames, ∀ b ∈ f.1 ++ f.2, b < 256) →
      s.SpeedEventTime < 65536 → (s.updates frames).SpeedEventTime < 65536 := by
  induction frames with
  | nil =>
    intro s _ hs
    exact hs
  | cons f rest ih =>
    intro s hb hs
    exact ih _ (fun g hg => hb g (List.mem_cons_of_mem _ hg))
      (speed_update_time_lt s f.1 f.2 (hb f (List.mem_cons_self _ _)) hs)

/-! ## Speed sensor: operating time -/

theorem speed_update_frame (s sp : SpeedSensorState)
    (h0 h1 h2 h3 p d1 d2 d3 t0 t1 c0 c1 : Nat) (rest beyond : List Nat)
    (hsp : s.page (pageId p)
      (h0 :: h1 :: h2 :: h3 :: p :: d1 :: d2 :: d3 :: t0 :: t1 :: c0 :: c1 :: rest) beyond =
      Call.returned sp) :
    ∃ s1, s.update
        (h0 :: h1 :: h2 :: h3 :: p :: d1 :: d2 :: d3 :: t0 :: t1 :: c0 :: c1 :: rest) beyond =
        Call.returned s1 ∧
      s1.OperatingTime = sp.OperatingTime ∧
      s1.BatteryStatus = sp.BatteryStatus ∧
      s1.BatteryVoltage = sp.BatteryVoltage := by
  obtain ⟨s1, hu, ho, hb1, hb2, _⟩ := speed_update_explicit s sp
    (h0 :: h1 :: h2 :: h3 :: p :: d1 :: d2 :: d3 :: t0 :: t1 :: c0 :: c1 :: rest) beyond
    p t0 t1 c0 c1 (by simp) hsp (by simp) (by simp) (by simp) (by simp)
  exact ⟨s1, hu, ho, hb1, hb2⟩

/-- C29 fails in the code: `case 1` of `SpeedSensorState.update` assigns the
three bytes one after the other with `=`, so only the last assignment
survives: for every state, every frame with page byte 0x01 or 0x81 and data
bytes d1, d2, d3, and whatever lies behind the frame in its backing array, the
call returns with `OperatingTime = (d3 << 16) * 2`.  With d1 = 1, d2 = 2,
d3 = 3 that is 393216, where OR-ing the bytes gives 394242. -/
theorem speed_operating_time_last_byte (s : SpeedSensorState)
    (h0 h1 h2 h3 d1 d2 d3 t0 t1 c0 c1 : Nat) (rest beyond : List Nat) :
    (∃ s1, s.update (h0 :: h1 :: h2 :: h3 :: 0x01 :: d1 :: d2 :: d3 :: t0 :: t1 :: c0 :: c1 ::
        rest) beyond = Call.returned s1 ∧ s1.OperatingTime = (d3 <<< 16) * 2) ∧
    (∃ s1, s.update (h0 :: h1 :: h2 :: h3 :: 0x81 :: d1 :: d2 :: d3 :: t0 :: t1 :: c0 :: c1 ::
        rest) beyond = Call.returned s1 ∧ s1.OperatingTime = (d3 <<< 16) * 2) ∧
    (3 <<< 16) * 2 = 393216 ∧ (1 ||| (2 <<< 8) ||| (3 <<< 16)) * 2 = 394242 := by
  refine ⟨?_, ?_, by decide, by decide⟩
  · obtain ⟨s1, hu, ho, _⟩ := speed_update_frame s
      { s with OperatingTime := (d3 <<< 16) * 2 } h0 h1 h2 h3 0x01 d1 d2 d3 t0 t1 c0 c1 rest
      beyond
      rfl
    exact ⟨s1, hu, ho⟩
  · obtain ⟨s1, hu, ho, _⟩ := speed_update_frame s
      { s with OperatingTime := (d3 <<< 16) * 2 } h0 h1 h2 h3 0x81 d1 d2 d3 t0 t1 c0 c1 rest
      beyond
      rfl
    exact ⟨s1, hu, ho⟩

/-! ## Battery status -/

theorem batterySwitch_invalid (batteryFrac batteryStatus : Nat) :
    batterySwitch batteryFrac batteryStatus = (0, "Invalid") := by
  have h1 : batteryStatus &&& 0x70 ≤ 0x70 := Nat.and_le_right
  have h2 : (batteryStatus &&& 0x70) >>> 4 ≤ 7 := by
    rw [Nat.shiftRight_eq_div_pow]
    omega
  have h3 : ∀ x : Nat, x ≤ 7 → 128 ≤ x ^^^ 0x80 := by
    intro x hx
    interval_cases x <;> decide
  have h4 := h3 _ h2
  unfold batterySwitch
  simp only
  split_ifs <;> first | rfl | omega

/-- C34 fails in the code: the three decoders compute
`batteryFlags := (batteryStatus & 0x70) >> 4` and then `batteryFlags ^= 0x80`,
so `batteryFlags` is at least 0x80 and no case 1..5 of the switch is taken: for
every status byte the decoded heart-rate page 7, speed page 4 and radar page
0x52 set BatteryStatus to "Invalid" and BatteryVoltage to 0.  With
d3 = 0x13 (k = 1) the heart-rate decoder stores "Invalid", not "New". -/
theorem battery_status_always_invalid
    (h0 h1 h2 h3 d1 d2 d3 d4 d5 d6 d7 : Nat) (rest : List Nat) :
    (∀ (s : HeartRateSensorState),
      (s.update { oldPage := 0xFF, pageState := .StdPage }
          (h0 :: h1 :: h2 :: h3 :: 0x07 :: d1 :: d2 :: d3 :: d4 :: d5 :: d6 :: d7 :: rest)).map
        (fun r => (r.1.BatteryStatus, r.1.BatteryVoltage)) = some ("Invalid", 0)) ∧
    (∀ (s : SpeedSensorState) (beyond : List Nat),
      ∃ s1, s.update
          (h0 :: h1 :: h2 :: h3 :: 0x04 :: d1 :: d2 :: d3 :: d4 :: d5 :: d6 :: d7 :: rest)
          beyond = Call.returned s1 ∧
        (s1.BatteryStatus, s1.BatteryVoltage) = ("Invalid", 0)) ∧
    (∀ (s : BikeRadarSensorState),
      (s.update { oldPage := 0xFF, pageState := .StdPage }
          (h0 :: h1 :: h2 :: h3 :: 0x52 :: d1 :: d2 :: d3 :: d4 :: d5 :: d6 :: d7 :: rest)).map
        (fun r => (r.1.BatteryStatus, r.1.BatteryVoltage)) = some ("Invalid", 0)) ∧
    (HeartRateSensorState.update (NewHeartRateScannerState 0).toHeartRateSensorState
        { oldPage := 0xFF, pageState := .StdPage }
        [0xA4, 0x09, 0x4E, 0x00, 0x07, 0x50, 0x80, 0x13, 0x10, 0x20, 0x05, 0x48, 0x5A]).map
      (fun r => r.1.BatteryStatus) = some "Invalid" ∧
    (0x13 >>> 4) &&& 7 = 1 := by
  have hid7 : pageId 0x07 = 7 := rfl
  have hid52 : pageId 0x52 = 0x52 := rfl
  refine ⟨?_, ?_, ?_, by decide, by decide⟩
  · intro s
    simp [HeartRateSensorState.update, HeartRateSensorState.page, BufferIndexMessageData,
      hid7, batterySwitch_invalid]
  · intro s beyond
    have hpg : s.page (pageId 0x04)
        (h0 :: h1 :: h2 :: h3 :: 0x04 :: d1 :: d2 :: d3 :: d4 :: d5 :: d6 :: d7 :: rest)
        beyond =
        Call.returned { s with BatteryLevel := if d1 ≠ 0xFF then d1 else s.BatteryLevel,
                               BatteryVoltage := (batterySwitch d2 d3).1,
                               BatteryStatus := (batterySwitch d2 d3).2 } := rfl
    rw [batterySwitch_invalid] at hpg
    obtain ⟨s1, hu, _, hb1, hb2⟩ := speed_update_frame s _
      h0 h1 h2 h3 0x04 d1 d2 d3 d4 d5 d6 d7 rest beyond hpg
    exact ⟨s1, hu, by rw [hb1, hb2]⟩
  · intro s
    simp [BikeRadarSensorState.update, BikeRadarSensorState.page, BufferIndexMessageData,
      hid52, batterySwitch_invalid]

/-! ## Speed sensor: elapsed time -/

/-- C35: take a speed state reached from a fresh state by `update` calls, each
on a frame of bytes with the bytes behind it in its backing array, whether the
calls returned or panicked; its stored SpeedEventTime is below 65536.  A
further call of `update` on a frame of at least 8 bytes with at least 12 bytes
up to the end of the backing array returns.  Whenever the call returns, the
bytes t0, t1 at positions 8 and 9 of the backing array are the event time it
read: if `t0 | t1 << 8` differs from the stored one, the local `deno` equals
`(new - old) mod 65536` and lies in 1..65535, so the `deno == 0` return is
not taken, SpeedEventTime becomes the new time and CalculatedSpeed is assigned
from the new distance and this `deno`; if it equals the stored one,
SpeedEventTime, CumulativeSpeedRevolutionCount, CalculatedDistance and
CalculatedSpeed keep their values.  A call that panics leaves these four
fields as they were. -/
theorem speed_deno_in_range (deviceID : Nat) (frames : List (List Nat × List Nat))
    (s : SpeedSensorState) (data beyond : List Nat)
    (hbytes : ∀ f ∈ frames, ∀ b ∈ f.1 ++ f.2, b < 256)
    (hreach : (SpeedSensorState.fresh deviceID).updates frames = s)
    (hb : ∀ b ∈ data ++ beyond, b < 256) :
    s.SpeedEventTime < 65536 ∧
    (8 ≤ data.length → 12 ≤ (data ++ beyond).length →
      ∃ s1, s.update data beyond = Call.returned s1) ∧
    (∀ s1, s.update data beyond = Call.returned s1 →
      ∃ t0 t1, (data ++ beyond)[8]? = some t0 ∧ (data ++ beyond)[9]? = some t1 ∧
        (t0 ||| (t1 <<< 8) ≠ s.SpeedEventTime →
          speedDeno s.SpeedEventTime (t0 ||| (t1 <<< 8)) =
            ((t0 ||| (t1 <<< 8)) + 65536 - s.SpeedEventTime) % 65536 ∧
          ((speedDeno s.SpeedEventTime (t0 ||| (t1 <<< 8)) : Nat) : Int) =
            (((t0 ||| (t1 <<< 8) : Nat) : Int) - (s.SpeedEventTime : Int)) % 65536 ∧
          1 ≤ speedDeno s.SpeedEventTime (t0 ||| (t1 <<< 8)) ∧
          speedDeno s.SpeedEventTime (t0 ||| (t1 <<< 8)) ≤ 65535 ∧
          s1.SpeedEventTime = t0 ||| (t1 <<< 8) ∧
          s1.CalculatedSpeed =
            (s1.CalculatedDistance, speedDeno s.SpeedEventTime (t0 ||| (t1 <<< 8)))) ∧
        (t0 ||| (t1 <<< 8) = s.SpeedEventTime →
          s1.SpeedEventTime = s.SpeedEventTime ∧
          s1.CumulativeSpeedRevolutionCount = s.CumulativeSpeedRevolutionCount ∧
          s1.CalculatedDistance = s.CalculatedDistance ∧
          s1.CalculatedSpeed = s.CalculatedSpeed)) ∧
    (∀ s1, s.update data beyond = Call.panicked s1 →
      s1.SpeedEventTime = s.SpeedEventTime ∧
      s1.CumulativeSpeedRevolutionCount = s.CumulativeSpeedRevolutionCount ∧
      s1.CalculatedDistance = s.CalculatedDistance ∧
      s1.CalculatedSpeed = s.CalculatedSpeed) := by
  have hold : s.SpeedEventTime < 65536 := by
    rw [← hreach]
    exact speed_updates_time_lt frames (SpeedSensorState.fresh deviceID) hbytes
      (show 0 < 65536 by decide)
  refine ⟨hold, ?_, ?_, fun s1 h => speed_update_panicked s s1 data beyond h⟩
  · intro h8 h12
    have g : ∀ i, i < 12 → ∃ b, (data ++ beyond)[i]? = some b := fun i hi =>
      ⟨(data ++ beyond)[i], List.getElem?_eq_getElem (by omega)⟩
    obtain ⟨p, hp⟩ : ∃ p, data[4]? = some p := ⟨data[4], List.getElem?_eq_getElem (by omega)⟩
    obtain ⟨t0, e8⟩ := g 8 (by omega)
    obtain ⟨t1, e9⟩ := g 9 (by omega)
    obtain ⟨c0, e10⟩ := g 10 (by omega)
    obtain ⟨c1, e11⟩ := g 11 (by omega)
    obtain ⟨sp, hsp⟩ := speed_page_returns s (pageId p) data beyond h8
    obtain ⟨s1, hu, _⟩ := speed_update_explicit s sp data beyond p t0 t1 c0 c1 hp hsp e8 e9
      e10 e11
    exact ⟨s1, hu⟩
  · intro s1 hret
    rcases speed_update_shape s data beyond with h1 | ⟨p, s2, hpg, h1⟩ | ⟨p, sp, hpg, h1⟩ |
      ⟨p, sp, t0, t1, c0, c1, hp, hsp, e8, e9, e10, e11⟩
    · rw [h1] at hret; cases hret
    · rw [h1] at hret; cases hret
    · rw [h1] at hret; cases hret
    · obtain ⟨s2, hu, _, _, _, heq, hne⟩ := speed_update_explicit s sp data beyond p t0 t1
        c0 c1 hp hsp e8 e9 e10 e11
      rw [hu] at hret
      cases hret
      have k := speed_page_keeps s (pageId p) data beyond
      rw [hsp] at k
      obtain ⟨k1, k2, k3, k4⟩ := k
      have k1a : sp.SpeedEventTime = s.SpeedEventTime := k1
      rw [k1a] at heq hne
      have hnew : t0 ||| (t1 <<< 8) < 65536 :=
        littleEndianUint16_lt t0 t1 (hb t0 (List.mem_iff_getElem?.2 ⟨_, e8⟩))
          (hb t1 (List.mem_iff_getElem?.2 ⟨_, e9⟩))
      refine ⟨t0, t1, e8, e9, ?_, ?_⟩
      · intro hd
        obtain ⟨r1, r2, r3, r4⟩ := speedDeno_range s.SpeedEventTime _ hold hnew hd
        obtain ⟨e1, _, _, e4⟩ := hne hd
        exact ⟨r1, r2, r3, r4, e1, e4 (by omega)⟩
      · intro he
        rw [heq he]
        exact ⟨k1, k2, k3, k4⟩

/-- C35 for the state after the frame with event time 0x0400 and a further
frame of 8 bytes cut from a read buffer that holds 00 02 03 00 behind it: the
call returns, the event time read is 0x0200 and `deno` is
512 + 65536 - 1024 = 65024. -/
theorem speed_deno_in_range_witness :
    ∃ s, (SpeedSensorState.fresh 0).updates
        [([0xA4, 0x09, 0x4E, 0x00, 0x05, 0x01, 0x00, 0x00, 0x00, 0x04, 0x01, 0x00, 0xE2], [])] =
        s ∧
      s.SpeedEventTime = 1024 ∧
      speedDeno s.SpeedEventTime (0x00 ||| (0x02 <<< 8)) = 65024 ∧
      (∃ s1, s.update [0xA4, 0x04, 0x4E, 0x00, 0x05, 0x01, 0x00, 0xEA]
          [0x00, 0x02, 0x03, 0x00] = Call.returned s1 ∧ s1.SpeedEventTime = 512 ∧
        s1.CalculatedSpeed = (2, 65024)) ∧
      (s.SpeedEventTime < 65536 ∧
      (8 ≤ [0xA4, 0x04, 0x4E, 0x00, 0x05, 0x01, 0x00, 0xEA].length →
        12 ≤ ([0xA4, 0x04, 0x4E, 0x00, 0x05, 0x01, 0x00, 0xEA] ++
          [0x00, 0x02, 0x03, 0x00]).length →
        ∃ s1, s.update [0xA4, 0x04, 0x4E, 0x00, 0x05, 0x01, 0x00, 0xEA]
          [0x00, 0x02, 0x03, 0x00] = Call.returned s1) ∧
      (∀ s1, s.update [0xA4, 0x04, 0x4E, 0x00, 0x05, 0x01, 0x00, 0xEA]
          [0x00, 0x02, 0x03, 0x00] = Call.returned s1 →
        ∃ t0 t1,
          ([0xA4, 0x04, 0x4E, 0x00, 0x05, 0x01, 0x00, 0xEA] ++
            [0x00, 0x02, 0x03, 0x00])[8]? = some t0 ∧
          ([0xA4, 0x04, 0x4E, 0x00, 0x05, 0x01, 0x00, 0xEA] ++
            [0x00, 0x02, 0x03, 0x00])[9]? = some t1 ∧
          (t0 ||| (t1 <<< 8) ≠ s.SpeedEventTime →
            speedDeno s.SpeedEventTime (t0 ||| (t1 <<< 8)) =
              ((t0 ||| (t1 <<< 8)) + 65536 - s.SpeedEventTime) % 65536 ∧
            ((speedDeno s.SpeedEventTime (t0 ||| (t1 <<< 8)) : Nat) : Int) =
              (((t0 ||| (t1 <<< 8) : Nat) : Int) - (s.SpeedEventTime : Int)) % 65536 ∧
            1 ≤ speedDeno s.SpeedEventTime (t0 ||| (t1 <<< 8)) ∧
            speedDeno s.SpeedEventTime (t0 ||| (t1 <<< 8)) ≤ 65535 ∧
            s1.SpeedEventTime = t0 ||| (t1 <<< 8) ∧
            s1.CalculatedSpeed =
              (s1.CalculatedDistance, speedDeno s.SpeedEventTime (t0 ||| (t1 <<< 8)))) ∧
          (t0 ||| (t1 <<< 8) = s.SpeedEventTime →
            s1.SpeedEventTime = s.SpeedEventTime ∧
            s1.CumulativeSpeedRevolutionCount = s.CumulativeSpeedRevolutionCount ∧
            s1.CalculatedDistance = s.CalculatedDistance ∧
            s1.CalculatedSpeed = s.CalculatedSpeed)) ∧
      (∀ s1, s.update [0xA4, 0x04, 0x4E, 0x00, 0x05, 0x01, 0x00, 0xEA]
          [0x00, 0x02, 0x03, 0x00] = Call.panicked s1 →
        s1.SpeedEventTime = s.SpeedEventTime ∧
        s1.CumulativeSpeedRevolutionCount = s.CumulativeSpeedRevolutionCount ∧
        s1.CalculatedDistance = s.CalculatedDistance ∧
        s1.CalculatedSpeed = s.CalculatedSpeed)) :=
  ⟨{ DeviceID := 0, SpeedEventTime := 1024, CumulativeSpeedRevolutionCount := 1,
     CalculatedDistance := 1, CalculatedSpeed := (1, 1024), OperatingTime := 0, ManID := 0,
     SerialNumber := 0, HWVersion := 0, SWVersion := 0, ModelNumber := 0, BatteryVoltage := 0,
     BatteryStatus := "", BatteryLevel := 0, Motion := true },
    by decide, rfl, by decide,
    ⟨{ DeviceID := 0, SpeedEventTime := 512, CumulativeSpeedRevolutionCount := 3,
       CalculatedDistance := 2, CalculatedSpeed := (2, 65024), OperatingTime := 0, ManID := 0,
       SerialNumber := 0, HWVersion := 0, SWVersion := 0, ModelNumber := 0,
       BatteryVoltage := 0, BatteryStatus := "", BatteryLevel := 0, Motion := true },
      by decide, rfl, rfl⟩,
    speed_deno_in_range 0
      [([0xA4, 0x09, 0x4E, 0x00, 0x05, 0x01, 0x00, 0x00, 0x00, 0x04, 0x01, 0x00, 0xE2], [])]
      { DeviceID := 0, SpeedEventTime := 1024, CumulativeSpeedRevolutionCount := 1,
        CalculatedDistance := 1, CalculatedSpeed := (1, 1024), OperatingTime := 0, ManID := 0,
        SerialNumber := 0, HWVersion := 0, SWVersion := 0, ModelNumber := 0,
        BatteryVoltage := 0, BatteryStatus := "", BatteryLevel := 0, Motion := true }
      [0xA4, 0x04, 0x4E, 0x00, 0x05, 0x01, 0x00, 0xEA] [0x00, 0x02, 0x03, 0x00]
      (by decide) (by decide) (by decide)⟩

end Ant
